import Mathlib

/-!
# The Oracle driver of LuaSQL (`src/lua_oci.c`): a shallow embedding

The three handle classes of the driver (environment, connection, cursor) are
kept in a `World`: one list per class, an object being named by its position.
A field that is a C pointer to another handle object (`conn->env`,
`cur->conn`) is the position of that object.  Native handles are numbers,
`NULL` being `0`.

The native client library is outside the driver.  Each driver function takes
the answers of the native calls it makes as an argument (a record named
`...Native`), and every native call made is appended to `World.calls`, so
that "this handle was freed" or "no native call was made" can be stated.

A driver function either returns its Lua results or raises (`luaL_error`,
`luaL_argcheck`).  What the C code wrote before raising stays written.
-/

namespace LuaOCI

/-! ## Constants of the headers -/

/-- Status codes of the native client library (`oci.h`). -/
def OCI_SUCCESS : Int := 0
/-- Status code: success, with an informational message (`oci.h`). -/
def OCI_SUCCESS_WITH_INFO : Int := 1
/-- Status code (`oci.h`). -/
def OCI_NEED_DATA : Int := 99
/-- Status code: no more rows (`oci.h`). -/
def OCI_NO_DATA : Int := 100
/-- Status code (`oci.h`). -/
def OCI_ERROR : Int := -1
/-- Status code (`oci.h`). -/
def OCI_INVALID_HANDLE : Int := -2
/-- Status code of a non-blocking call that has not finished (`oci.h`). -/
def OCI_STILL_EXECUTING : Int := -3123
/-- Status code (`oci.h`). -/
def OCI_CONTINUE : Int := -24200

/-- Statement kind of a query (`oci.h`). -/
def OCI_STMT_SELECT : Nat := 1
/-- Execution mode (`oci.h`). -/
def OCI_DEFAULT : Nat := 0
/-- Execution mode (`oci.h`). -/
def OCI_COMMIT_ON_SUCCESS : Nat := 32
/-- Size in bytes of the native decimal storage (`oci.h`). -/
def OCI_NUMBER_SIZE : Nat := 22

/-- Native type tags (`ocidfn.h`). -/
def SQLT_CHR : Nat := 1
def SQLT_NUM : Nat := 2
def SQLT_INT : Nat := 3
def SQLT_FLT : Nat := 4
def SQLT_STR : Nat := 5
def SQLT_VNU : Nat := 6
def SQLT_VCS : Nat := 9
def SQLT_DAT : Nat := 12
def SQLT_UIN : Nat := 68
def SQLT_AFC : Nat := 96
def SQLT_AVC : Nat := 97
def SQLT_CLOB : Nat := 112
def SQLT_BLOB : Nat := 113
def SQLT_TIMESTAMP : Nat := 187
def SQLT_TIMESTAMP_TZ : Nat := 188
def SQLT_TIMESTAMP_LTZ : Nat := 232

/-- The null pointer. -/
def NULL : Nat := 0

/-- The "no reference" value of the Lua registry (`lauxlib.h`). -/
def LUA_NOREF : Int := -2
/-- The reference `luaL_ref` gives for `nil` (`lauxlib.h`). -/
def LUA_REFNIL : Int := -1

/-- Modelled from the spec: the message prefix macro of `luasql.h`, a header
that is not among the sources; the spec says that an error carries "a prefixed
message string". -/
def LUASQL_PREFIX : String := "LuaSQL: "

def LUASQL_ENVIRONMENT_OCI8 : String := "Oracle environment"
def LUASQL_CONNECTION_OCI8 : String := "Oracle connection"
def LUASQL_CURSOR_OCI8 : String := "Oracle cursor"

/-! ## Functions of the C library -/

/-- The functions `strncpy` and `strndup` with bound `n`: at most `n`
characters of the string are kept. -/
def strncpy (n : Nat) (s : String) : String := ⟨s.data.take n⟩

/-- The function `tolower` on each character of a string. -/
def tolower (s : String) : String := ⟨s.data.map Char.toLower⟩

/-- The function `strchr`: whether the character occurs in the string. -/
def strchr (s : String) (ch : Char) : Bool := s.data.contains ch

/-! ## Native calls -/

/-- Handle types (`OCI_HTYPE_*`). -/
inductive HType where
  | ENV | ERROR | SVCCTX | STMT | SERVER | SESSION | DEFINE
  deriving DecidableEq, Repr

/-- Descriptor types (`OCI_DTYPE_*`). -/
inductive DType where
  | PARAM | TIMESTAMP | LOB
  deriving DecidableEq, Repr

/-- Attributes read or set by the driver (`OCI_ATTR_*`). -/
inductive Attr where
  | NAME | DATA_TYPE | DATA_SIZE | CHARSET_ID | PARAM_COUNT | PREFETCH_ROWS
  | STMT_TYPE | ROW_COUNT | SERVER | USERNAME | PASSWORD | SESSION
  | NONBLOCKING_MODE
  deriving DecidableEq, Repr

/-- A block of C memory the driver releases with `free`. -/
inductive Block where
  /-- The name of column `i` (`col->name`). -/
  | colname (i : Nat)
  /-- The text buffer of a character column (`col->val.text`). -/
  | coltext (p : Nat)
  /-- The array of columns (`cur->cols`). -/
  | cols
  /-- The copy of the statement text (`cur->text`). -/
  | stmttext
  /-- The scratch buffer of a large-object read. -/
  | lob_buffer (p : Nat)
  deriving DecidableEq, Repr

/-- The members of the union `column_value`. -/
inductive Member where
  | text | dbl | date | ociNumber | i64 | u64
  deriving DecidableEq, Repr

/-- The buffer argument `valuep` of a define call, into which the native fetch
stores the value of the column. -/
inductive Buffer where
  /-- The address of a member of the union of the column (`&col->val.dbl`,
  `col->val.ociNumber.OCINumberPart`, ..). -/
  | member (m : Member)
  /-- The block the pointer member `col->val.text` refers to. -/
  | block (p : Nat)
  deriving DecidableEq, Repr

/-- One call that leaves the driver: to the native client library, to the C
allocator (`free`) or to the thread library.  The arguments kept are the
handles the call is made on. -/
inductive NativeCall where
  | free (b : Block)
  | OCIEnvCreate
  | OCIHandleAlloc (htype : HType)
  | OCIHandleFree (h : Nat) (htype : HType)
  | OCIDescriptorAlloc (dtype : DType)
  | OCIDescriptorFree (d : Nat) (dtype : DType)
  | OCIErrorGet (errhp : Nat)
  | OCIParamGet (stmthp : Nat) (pos : Nat)
  | OCIAttrGet (h : Nat) (attr : Attr)
  | OCIAttrSet (h : Nat) (attr : Attr)
  | OCIDefineByPos (stmthp : Nat) (pos : Nat) (valuep : Buffer) (dty : Nat)
  | OCIStmtPrepare (stmthp : Nat) (statement : String)
  | OCIStmtExecute (svchp : Nat) (stmthp : Nat) (iters : Nat) (mode : Nat)
  | OCIStmtFetch (stmthp : Nat)
  | OCITransCommit (svchp : Nat)
  | OCITransRollback (svchp : Nat)
  | OCILogon (sourcename : String) (username : String)
  | OCIServerAttach (srvhp : Nat) (sourcename : String)
  | OCISessionBegin (svchp : Nat) (authp : Nat)
  | OCISessionEnd (svchp : Nat) (authp : Nat)
  | OCIServerDetach (srvhp : Nat)
  | OCIBreak (srvhp : Nat)
  | OCIReset (srvhp : Nat)
  | OCINumberIsInt
  | OCINumberFromInt
  | OCINumberCmp
  | OCINumberToInt (signed : Bool)
  | OCINumberToReal
  | OCIDateTimeGetDate (date : Nat)
  | OCIDateTimeGetTime (date : Nat)
  | OCILobGetLength (locator : Nat)
  | OCILobRead (locator : Nat)
  | pthread_create (conn : Nat)
  | pthread_join (tid : Nat)
  deriving DecidableEq, Repr

/-! ## Lua values -/

/-- A `lua_Number` (a C double) as the driver produces it: either the bits of
a double that a native call wrote, or the conversion of a C integer. -/
inductive lua_Number where
  | ofBits (b : Nat)
  | ofInt (i : Int)
  deriving DecidableEq, Repr

/-- A key of a Lua table built by the driver. -/
inductive LuaKey where
  | int (i : Int)
  | str (s : String)
  deriving DecidableEq, Repr

/-- The Lua values the driver receives and pushes.  Tables and handle objects
are references: a table is its position in `World.tables`, a handle object
its position in the list of its class. -/
inductive LuaValue where
  | nil
  | boolean (b : Bool)
  | number (n : lua_Number)
  | integer (i : Int)
  | integer64 (i : Int)
  | unsigned64 (u : Nat)
  | string (s : String)
  | lightuserdata (p : Nat)
  | table (t : Nat)
  | environment (e : Nat)
  | connection (c : Nat)
  | cursor (k : Nat)
  deriving DecidableEq, Repr

/-- A Lua table: its entries, newest first, at most one per key. -/
abbrev LuaTable := List (LuaKey × LuaValue)

/-- The value under key `k` (`lua_rawget`), `nil` when absent. -/
def LuaTable.get (t : LuaTable) (k : LuaKey) : LuaValue :=
  match t.find? (fun kv => kv.1 = k) with
  | some kv => kv.2
  | none => .nil

/-- Assignment `t[k] = v` (`lua_rawset`, `lua_rawseti`): storing `nil` removes
the key. -/
def LuaTable.set (t : LuaTable) (k : LuaKey) (v : LuaValue) : LuaTable :=
  let rest := t.filter (fun kv => kv.1 ≠ k)
  if v = .nil then rest else (k, v) :: rest

/-- What a driver function raises. -/
inductive LuaError where
  /-- Raised by `luaL_error` with this message. -/
  | error (msg : String)
  /-- Raised by `luaL_argcheck` or `luaL_checkudata` on argument `narg`. -/
  | argerror (narg : Nat) (msg : String)
  /-- Raised by `luaL_error` with the prefix and the text that `OCIErrorGet`
  read from the error handle `errhp`. -/
  | database (errhp : Nat)
  deriving DecidableEq, Repr

/-! ## The data model (`env_data`, `conn_data`, `column_data`, `cur_data`) -/

structure env_data where
  closed : Int
  conn_counter : Int
  envhp : Nat
  errhp : Nat
  deriving DecidableEq, Repr

structure conn_data where
  closed : Int
  /-- Zero for manual commit. -/
  auto_commit : Int
  cur_counter : Int
  /-- The environment object `env` points to. -/
  env : Nat
  svchp : Nat
  srvhp : Nat
  authp : Nat
  errhp : Nat
  /-- Thread of the asynchronous login, `0` when there is none. -/
  tid : Nat
  connecting : Int
  username : String
  password : String
  sourcename : String
  deriving DecidableEq, Repr

/-- The union `column_value`: its storage, read as one little-endian number.
The members `text`, `dbl`, `date`, `i64` and `u64` are the low 8 bytes (LP64),
`ociNumber` the low `OCI_NUMBER_SIZE` bytes; a double is kept as its bits.
The members `text`, `dbl`, `date` and `u64` are the same eight bytes read the
same way, so the accessors below differ in name only; which member a define
call binds is kept in its `Buffer`, which kind of block or descriptor is
released in the call that releases it. -/
abbrev column_value := Nat

def column_value.u64 (v : column_value) : Nat := v % 2 ^ 64

def column_value.i64 (v : column_value) : Int :=
  if v % 2 ^ 64 < 2 ^ 63 then (v % 2 ^ 64 : Nat) else ((v % 2 ^ 64 : Nat) : Int) - 2 ^ 64

def column_value.dbl (v : column_value) : Nat := v % 2 ^ 64

def column_value.text (v : column_value) : Nat := v % 2 ^ 64

def column_value.date (v : column_value) : Nat := v % 2 ^ 64

def column_value.ociNumber (v : column_value) : Nat := v % 2 ^ (8 * OCI_NUMBER_SIZE)

/-- Writing one of the 8-byte members: the low 8 bytes are replaced, the
bytes above them are kept. -/
def column_value.set8 (v : column_value) (x : Nat) : column_value :=
  v / 2 ^ 64 * 2 ^ 64 + x % 2 ^ 64

/-- Writing the member `ociNumber` (`memset`, or a native call). -/
def column_value.setNumber (v : column_value) (x : Nat) : column_value :=
  v / 2 ^ (8 * OCI_NUMBER_SIZE) * 2 ^ (8 * OCI_NUMBER_SIZE) + x % 2 ^ (8 * OCI_NUMBER_SIZE)

structure column_data where
  /-- Database type. -/
  type : Nat
  /-- Column name, `none` for the null pointer. -/
  name : Option String
  namelen : Nat
  /-- Maximum size. -/
  max : Nat
  /-- The null indicator the native library writes. -/
  null : Int
  /-- The define handle. -/
  define : Nat
  val : column_value
  deriving DecidableEq, Repr

/-- A column as `calloc` leaves it. -/
def column_data.zero : column_data :=
  { type := 0, name := none, namelen := 0, max := 0, null := 0, define := NULL, val := 0 }

structure cur_data where
  closed : Int
  /-- The connection object `conn` points to. -/
  conn : Nat
  numcols : Nat
  colnames : Int
  coltypes : Int
  columns : Int
  /-- Text of the SQL statement, `none` for the null pointer. -/
  text : Option String
  stmthp : Nat
  errhp : Nat
  /-- The array of columns, `none` for the null pointer. -/
  cols : Option (List column_data)
  deriving DecidableEq, Repr

/-- A thread started by `pthread_create`. -/
structure thread_data where
  /-- The value the thread ended with, `none` while it runs. -/
  exit : Option Int
  joined : Bool
  deriving DecidableEq, Repr

/-- Everything the driver functions read and write. -/
structure World where
  envs : List env_data
  conns : List conn_data
  curs : List cur_data
  /-- Thread `tid` is `threads[tid - 1]`. -/
  threads : List thread_data
  tables : List LuaTable
  /-- The Lua registry: reference `r > 0` is `registry[r - 1]`. -/
  registry : List (Option LuaValue)
  /-- The calls made so far, oldest first. -/
  calls : List NativeCall
  deriving DecidableEq, Repr

/-! Writes to one component of the state.  Each takes the state apart first,
so that a sequence of writes is evaluated one write after the other. -/

def World.withEnvs (w : World) (f : List env_data → List env_data) : World :=
  match w with
  | ⟨envs, conns, curs, threads, tables, registry, calls⟩ =>
    ⟨f envs, conns, curs, threads, tables, registry, calls⟩

def World.withConns (w : World) (f : List conn_data → List conn_data) : World :=
  match w with
  | ⟨envs, conns, curs, threads, tables, registry, calls⟩ =>
    ⟨envs, f conns, curs, threads, tables, registry, calls⟩

def World.withCurs (w : World) (f : List cur_data → List cur_data) : World :=
  match w with
  | ⟨envs, conns, curs, threads, tables, registry, calls⟩ =>
    ⟨envs, conns, f curs, threads, tables, registry, calls⟩

def World.withThreads (w : World) (f : List thread_data → List thread_data) : World :=
  match w with
  | ⟨envs, conns, curs, threads, tables, registry, calls⟩ =>
    ⟨envs, conns, curs, f threads, tables, registry, calls⟩

def World.withTables (w : World) (f : List LuaTable → List LuaTable) : World :=
  match w with
  | ⟨envs, conns, curs, threads, tables, registry, calls⟩ =>
    ⟨envs, conns, curs, threads, f tables, registry, calls⟩

def World.withRegistry (w : World) (f : List (Option LuaValue) → List (Option LuaValue)) :
    World :=
  match w with
  | ⟨envs, conns, curs, threads, tables, registry, calls⟩ =>
    ⟨envs, conns, curs, threads, tables, f registry, calls⟩

def World.withCalls (w : World) (f : List NativeCall → List NativeCall) : World :=
  match w with
  | ⟨envs, conns, curs, threads, tables, registry, calls⟩ =>
    ⟨envs, conns, curs, threads, tables, registry, f calls⟩

def World.empty : World :=
  { envs := [], conns := [], curs := [], threads := [], tables := [], registry := [], calls := [] }

/-! ## Results of a driver function -/

inductive Outcome (α : Type) where
  | ok (a : α) (w : World)
  | raise (e : LuaError) (w : World)
  deriving DecidableEq, Repr

def Outcome.world {α : Type} : Outcome α → World
  | .ok _ w => w
  | .raise _ w => w

/-- A computation of the driver. -/
def Lua (α : Type) : Type := World → Outcome α

def Lua.pure {α : Type} (a : α) : Lua α := fun w => .ok a w

def Lua.bind {α β : Type} (m : Lua α) (f : α → Lua β) : Lua β := fun w =>
  match m w with
  | .ok a w1 => f a w1
  | .raise e w1 => .raise e w1

instance : Monad Lua where
  pure := Lua.pure
  bind := Lua.bind

def luaL_error {α : Type} (msg : String) : Lua α := fun w => .raise (.error msg) w

def luaL_argerror {α : Type} (narg : Nat) (msg : String) : Lua α := fun w =>
  .raise (.argerror narg msg) w

/-- Record a call that leaves the driver. -/
def call (c : NativeCall) : Lua Unit := fun w => .ok () (w.withCalls (fun cs => cs ++ [c]))

def getWorld : Lua World := fun w => .ok w w

def setEnv (e : Nat) (env : env_data) : Lua Unit := fun w =>
  .ok () (w.withEnvs (fun es => es.set e env))

def setConn (c : Nat) (conn : conn_data) : Lua Unit := fun w =>
  .ok () (w.withConns (fun cs => cs.set c conn))

def setCur (k : Nat) (cur : cur_data) : Lua Unit := fun w =>
  .ok () (w.withCurs (fun ks => ks.set k cur))

/-- Apply `f` to the environment object at `e` (a write through `conn->env`). -/
def modifyEnv (e : Nat) (f : env_data → env_data) : Lua Unit := fun w =>
  .ok () (w.withEnvs (fun es => es.modify f e))

/-- Apply `f` to the connection object at `c` (a write through `cur->conn`). -/
def modifyConn (c : Nat) (f : conn_data → conn_data) : Lua Unit := fun w =>
  .ok () (w.withConns (fun cs => cs.modify f c))

/-- The function `lua_newuserdata` for an Environment object. -/
def newEnvironment (env : env_data) : Lua Unit := fun w =>
  .ok () (w.withEnvs (fun es => es ++ [env]))

/-- The function `lua_newuserdata` for a Connection object. -/
def newConnection (conn : conn_data) : Lua Unit := fun w =>
  .ok () (w.withConns (fun cs => cs ++ [conn]))

/-- The function `lua_newuserdata` for a Cursor object. -/
def newCursor (cur : cur_data) : Lua Unit := fun w =>
  .ok () (w.withCurs (fun ks => ks ++ [cur]))

/-- A write to the cursor object at `k`. -/
def modifyCur (k : Nat) (f : cur_data → cur_data) : Lua Unit := fun w =>
  .ok () (w.withCurs (fun ks => ks.modify f k))

/-- The loop `for (i = 1; i <= n; i++) body(i)`, over `List.range' 1 n`. -/
def for_each (body : Nat → Lua Unit) : List Nat → Lua Unit
  | [] => Lua.pure ()
  | i :: rest => Lua.bind (body i) (fun _ => for_each body rest)

/-- The loop `for (i = 1; i <= n; i++)` whose body pushes one value: the
values pushed, in order. -/
def for_collect {α : Type} (body : Nat → Lua α) : List Nat → Lua (List α)
  | [] => Lua.pure []
  | i :: rest =>
    Lua.bind (body i) (fun a => Lua.bind (for_collect body rest) (fun as => Lua.pure (a :: as)))

/-! ## Status and pointer checks -/

/-- Raise on OCI error. -/
def ASSERT_OCI (status : Int) (errhp : Nat) : Lua Unit :=
  if status = OCI_SUCCESS then pure ()
  else if status = OCI_SUCCESS_WITH_INFO then pure ()
  else if status = OCI_NEED_DATA then luaL_error (LUASQL_PREFIX ++ "OCI_NEED_DATA")
  else if status = OCI_NO_DATA then luaL_error (LUASQL_PREFIX ++ "OCI_NODATA")
  else if status = OCI_ERROR then do
    call (.OCIErrorGet errhp)
    fun w => .raise (.database errhp) w
  else if status = OCI_INVALID_HANDLE then luaL_error (LUASQL_PREFIX ++ "OCI_INVALID_HANDLE")
  else if status = OCI_STILL_EXECUTING then luaL_error (LUASQL_PREFIX ++ "OCI_STILL_EXECUTE")
  else if status = OCI_CONTINUE then luaL_error (LUASQL_PREFIX ++ "OCI_CONTINUE")
  else luaL_error (LUASQL_PREFIX ++ "CODE=" ++ toString status)

/-- Raise on NULL. -/
def ASSERT_PTR (p : Nat) : Lua Unit :=
  if p = NULL then luaL_error (LUASQL_PREFIX ++ "no memory") else pure ()

/-- Check for valid environment. -/
def getenvironment (e : Nat) : Lua env_data := fun w =>
  match w.envs[e]? with
  | none => .raise (.argerror 1 (LUASQL_ENVIRONMENT_OCI8 ++ " expected")) w
  | some env =>
    if env.closed ≠ 0 then .raise (.argerror 1 (LUASQL_PREFIX ++ "environment is closed")) w
    else .ok env w

/-- Check for valid connection. -/
def getconnection (c : Nat) : Lua conn_data := fun w =>
  match w.conns[c]? with
  | none => .raise (.argerror 1 (LUASQL_CONNECTION_OCI8 ++ " expected")) w
  | some conn =>
    if conn.closed ≠ 0 then .raise (.argerror 1 (LUASQL_PREFIX ++ "connection is closed")) w
    else .ok conn w

/-- Check for valid cursor. -/
def getcursor (k : Nat) : Lua cur_data := fun w =>
  match w.curs[k]? with
  | none => .raise (.argerror 1 (LUASQL_CURSOR_OCI8 ++ " expected")) w
  | some cur =>
    if cur.closed ≠ 0 then .raise (.argerror 1 (LUASQL_PREFIX ++ "cursor is closed")) w
    else .ok cur w

/-- The cursor object at `k`, as the C code reads it through its pointer. -/
def theCursor (k : Nat) : Lua cur_data := fun w =>
  .ok (w.curs.getD k
    { closed := 0, conn := 0, numcols := 0, colnames := LUA_NOREF, coltypes := LUA_NOREF,
      columns := LUA_NOREF, text := none, stmthp := NULL, errhp := NULL, cols := none }) w

/-- The column `cur->cols[i-1]`. -/
def cur_data.col (cur : cur_data) (i : Nat) : column_data :=
  ((cur.cols.getD [])[i - 1]?).getD column_data.zero

/-- A write to `cur->cols[i-1]` of the cursor object at `k`. -/
def modifyCol (k i : Nat) (f : column_data → column_data) : Lua Unit := fun w =>
  let write := fun (cur : cur_data) =>
    { cur with cols := cur.cols.map (fun cs => cs.modify f (i - 1)) }
  .ok () (w.withCurs (fun ks => ks.modify write k))

/-! ## Lua tables and the registry -/

/-- The function `lua_newtable`: a fresh empty table. -/
def newtable : Lua Nat := fun w =>
  .ok w.tables.length (w.withTables (fun ts => ts ++ [[]]))

/-- The functions `lua_rawset` and `lua_rawseti` on table `t`. -/
def rawset (t : Nat) (key : LuaKey) (v : LuaValue) : Lua Unit := fun w =>
  .ok () (w.withTables (fun ts => ts.modify (fun tb => tb.set key v) t))

/-- The function `luaL_ref` on the registry. -/
def luaL_ref (v : LuaValue) : Lua Int := fun w =>
  if v = .nil then .ok LUA_REFNIL w
  else .ok ((w.registry.length : Int) + 1) (w.withRegistry (fun rs => rs ++ [some v]))

/-- The function `luaL_unref` on the registry: nothing for a negative reference. -/
def luaL_unref (ref : Int) : Lua Unit := fun w =>
  if 0 < ref then .ok () (w.withRegistry (fun rs => rs.set (ref.toNat - 1) none))
  else .ok () w

/-- The function `lua_rawgeti` on the registry. -/
def registry_get (ref : Int) : Lua LuaValue := fun w =>
  if 0 < ref then .ok (((w.registry[ref.toNat - 1]?).join).getD .nil) w else .ok .nil w

/-- The function `lua_pushstring` on the C string at `p`, whose text is `s`:
a null pointer pushes `nil`. -/
def lua_pushstring (p : Nat) (s : String) : LuaValue :=
  if p = NULL then .nil else .string s

/-! ## Column buffers -/

def is_character (ty : Nat) : Bool :=
  ty = SQLT_CHR || ty = SQLT_STR || ty = SQLT_VCS || ty = SQLT_AFC || ty = SQLT_AVC

def is_decimal (ty : Nat) : Bool :=
  ty = SQLT_NUM || ty = SQLT_VNU

def is_datetime (ty : Nat) : Bool :=
  ty = SQLT_DAT || ty = SQLT_TIMESTAMP || ty = SQLT_TIMESTAMP_TZ || ty = SQLT_TIMESTAMP_LTZ

/-- What the native library and the C allocator answer while the buffer of one
column is allocated. -/
structure ColumnNative where
  paramGetStatus : Int
  nameStatus : Int
  name : String
  namelen : Nat
  typeStatus : Int
  type : Nat
  /-- Whether `strndup` returned a block. -/
  strndup_ok : Bool
  sizeStatus : Int
  max : Nat
  /-- The block `calloc` returned, `NULL` when out of memory. -/
  calloc : Nat
  descriptorStatus : Int
  descriptor : Nat
  defineStatus : Int
  define : Nat
  charsetStatus : Int

/-- Copy the column name to the column structure and convert it to lower case. -/
def copy_column_name (k i : Nat) (namelen : Nat) (name : String) (strndup_ok : Bool) :
    Lua Unit := do
  modifyCol k i (fun col =>
    { col with name := if strndup_ok then some (strncpy namelen name) else none })
  ASSERT_PTR (if strndup_ok then 1 else NULL)
  modifyCol k i (fun col => { col with name := col.name.map tolower })

/-- Alloc buffers for column values. -/
def alloc_column_buffer (k i : Nat) (n : ColumnNative) : Lua Unit := do
  let cur ← theCursor k
  call (.OCIParamGet cur.stmthp i)
  ASSERT_OCI n.paramGetStatus cur.errhp
  call (.OCIAttrGet 0 .NAME)
  modifyCol k i (fun col => { col with namelen := n.namelen })
  ASSERT_OCI n.nameStatus cur.errhp
  call (.OCIAttrGet 0 .DATA_TYPE)
  modifyCol k i (fun col => { col with type := n.type })
  ASSERT_OCI n.typeStatus cur.errhp
  copy_column_name k i n.namelen n.name n.strndup_ok
  if is_character n.type then do
    call (.OCIAttrGet 0 .DATA_SIZE)
    modifyCol k i (fun col => { col with max := n.max })
    ASSERT_OCI n.sizeStatus cur.errhp
    modifyCol k i (fun col => { col with val := col.val.set8 n.calloc })
    ASSERT_PTR (n.calloc % 2 ^ 64)
    call (.OCIDefineByPos cur.stmthp i (.block (n.calloc % 2 ^ 64)) SQLT_STR)
    modifyCol k i (fun col => { col with define := n.define })
    ASSERT_OCI n.defineStatus cur.errhp
    call (.OCIAttrSet n.define .CHARSET_ID)
    ASSERT_OCI n.charsetStatus cur.errhp
  else if n.type = SQLT_FLT then do
    call (.OCIDefineByPos cur.stmthp i (.member .dbl) SQLT_FLT)
    modifyCol k i (fun col => { col with define := n.define })
    ASSERT_OCI n.defineStatus cur.errhp
  else if n.type = SQLT_INT then do
    call (.OCIDefineByPos cur.stmthp i (.member .i64) SQLT_INT)
    modifyCol k i (fun col => { col with define := n.define })
    ASSERT_OCI n.defineStatus cur.errhp
  else if n.type = SQLT_UIN then do
    call (.OCIDefineByPos cur.stmthp i (.member .u64) SQLT_UIN)
    modifyCol k i (fun col => { col with define := n.define })
    ASSERT_OCI n.defineStatus cur.errhp
  else if is_decimal n.type then do
    modifyCol k i (fun col => { col with val := col.val.setNumber 0 })
    call (.OCIDefineByPos cur.stmthp i (.member .ociNumber) SQLT_VNU)
    modifyCol k i (fun col => { col with define := n.define })
    ASSERT_OCI n.defineStatus cur.errhp
  else if is_datetime n.type then do
    call (.OCIDescriptorAlloc .TIMESTAMP)
    modifyCol k i (fun col => { col with val := col.val.set8 n.descriptor })
    ASSERT_OCI n.descriptorStatus cur.errhp
    call (.OCIDefineByPos cur.stmthp i (.member .date) SQLT_TIMESTAMP)
    modifyCol k i (fun col => { col with define := n.define })
    ASSERT_OCI n.defineStatus cur.errhp
  else if n.type = SQLT_CLOB then do
    call (.OCIDescriptorAlloc .LOB)
    modifyCol k i (fun col => { col with val := col.val.set8 n.descriptor })
    ASSERT_OCI n.descriptorStatus cur.errhp
    call (.OCIDefineByPos cur.stmthp i (.member .text) SQLT_CLOB)
    modifyCol k i (fun col => { col with define := n.define })
    ASSERT_OCI n.defineStatus cur.errhp
  else
    luaL_error (LUASQL_PREFIX ++ "invalid type " ++ toString n.type ++ " #" ++ toString i)

/-- Deallocate column buffers. -/
def free_column_buffers (k i : Nat) : Lua Unit := do
  let cur ← theCursor k
  let col := cur.col i
  if col.name.isSome then call (.free (.colname i)) else pure ()
  if col.type = SQLT_FLT || is_decimal col.type || col.type = SQLT_UIN
      || col.type = SQLT_INT then
    pure ()
  else if is_character col.type then
    if col.val.text ≠ NULL then call (.free (.coltext col.val.text)) else pure ()
  else if is_datetime col.type then
    if col.val.date ≠ NULL then call (.OCIDescriptorFree col.val.date .TIMESTAMP) else pure ()
  else if col.type = SQLT_CLOB then
    if col.val.text ≠ NULL then call (.OCIDescriptorFree col.val.text .LOB) else pure ()
  else
    pure ()

/-- The native and C library functions a decode calls, as functions of the
storage they are given.  A status comes first in each answer. -/
structure DecodeNative where
  /-- Native `OCINumberIsInt` on the decimal storage. -/
  isInt : Nat → Int × Bool
  /-- Native `OCINumberFromInt` on a signed integer. -/
  fromInt : Int → Int × Nat
  /-- Native `OCINumberCmp`: the sign of the comparison in the second place. -/
  cmp : Nat → Nat → Int × Int
  /-- Native `OCINumberToInt`: the 64 bits written, for a signed or an
  unsigned conversion. -/
  toInt : Nat → Bool → Int × Nat
  /-- Native `OCINumberToReal`: the bits of the double written. -/
  toReal : Nat → Int × Nat
  /-- Native `OCIDateTimeGetDate`: year, month, day. -/
  getDate : Nat → Int × Int × Nat × Nat
  /-- Native `OCIDateTimeGetTime`: hour, minute, second, fraction. -/
  getTime : Nat → Int × Nat × Nat × Nat × Nat
  /-- Native `OCILobGetLength`. -/
  lobGetLength : Nat → Int × Nat
  /-- Native `OCILobRead` of so many bytes: the amount read and the bytes. -/
  lobRead : Nat → Nat → Int × Nat × String
  /-- The block `malloc` returns for a size, `NULL` when out of memory. -/
  malloc : Nat → Nat
  /-- The C string found at an address. -/
  cstring : Nat → String

/-- Push a value on top of the stack: the value pushed for column `i`. -/
def pushvalue (WITH_INT64 : Bool) (k i : Nat) (n : DecodeNative) : Lua LuaValue := do
  let cur ← theCursor k
  let col := cur.col i
  if col.null ≠ 0 then
    /- Oracle NULL => Lua nil -/
    pure .nil
  else if col.type = SQLT_INT then
    if WITH_INT64 then pure (.integer64 col.val.i64)
    else pure (.number (.ofInt col.val.i64))
  else if col.type = SQLT_UIN then
    if WITH_INT64 then pure (.unsigned64 col.val.u64)
    else pure (.number (.ofInt col.val.u64))
  else if is_decimal col.type then
    if WITH_INT64 then do
      call .OCINumberIsInt
      ASSERT_OCI (n.isInt col.val.ociNumber).1 cur.errhp
      if (n.isInt col.val.ociNumber).2 then do
        call .OCINumberFromInt
        ASSERT_OCI (n.fromInt 0).1 cur.errhp
        call .OCINumberCmp
        ASSERT_OCI (n.cmp col.val.ociNumber (n.fromInt 0).2).1 cur.errhp
        if 0 ≤ (n.cmp col.val.ociNumber (n.fromInt 0).2).2 then do
          call (.OCINumberToInt false)
          let val := col.val.set8 (n.toInt col.val.ociNumber false).2
          modifyCol k i (fun c => { c with val := val })
          ASSERT_OCI (n.toInt col.val.ociNumber false).1 cur.errhp
          pure (.unsigned64 val.u64)
        else do
          call (.OCINumberToInt true)
          let val := col.val.set8 (n.toInt col.val.ociNumber true).2
          modifyCol k i (fun c => { c with val := val })
          ASSERT_OCI (n.toInt col.val.ociNumber true).1 cur.errhp
          pure (.integer64 val.i64)
      else do
        call .OCINumberToReal
        let val := col.val.set8 (n.toReal col.val.ociNumber).2
        modifyCol k i (fun c => { c with val := val })
        ASSERT_OCI (n.toReal col.val.ociNumber).1 cur.errhp
        pure (.number (.ofBits val.dbl))
    else do
      call .OCINumberToReal
      let val := col.val.set8 (n.toReal col.val.ociNumber).2
      modifyCol k i (fun c => { c with val := val })
      ASSERT_OCI (n.toReal col.val.ociNumber).1 cur.errhp
      pure (.number (.ofBits val.dbl))
  else if col.type = SQLT_FLT then
    pure (.number (.ofBits col.val.dbl))
  else if is_character col.type then
    pure (lua_pushstring col.val.text (n.cstring col.val.text))
  else if is_datetime col.type then do
    call (.OCIDateTimeGetDate col.val.date)
    ASSERT_OCI (n.getDate col.val.date).1 cur.errhp
    call (.OCIDateTimeGetTime col.val.date)
    ASSERT_OCI (n.getTime col.val.date).1 cur.errhp
    let t ← newtable
    rawset t (.str "year") (.number (.ofInt (n.getDate col.val.date).2.1))
    rawset t (.str "month") (.number (.ofInt (n.getDate col.val.date).2.2.1))
    rawset t (.str "day") (.number (.ofInt (n.getDate col.val.date).2.2.2))
    rawset t (.str "hour") (.number (.ofInt (n.getTime col.val.date).2.1))
    rawset t (.str "min") (.number (.ofInt (n.getTime col.val.date).2.2.1))
    rawset t (.str "sec") (.number (.ofInt (n.getTime col.val.date).2.2.2.1))
    rawset t (.str "fsec") (.number (.ofInt (n.getTime col.val.date).2.2.2.2))
    pure (.table t)
  else if col.type = SQLT_CLOB then do
    call (.OCILobGetLength col.val.text)
    ASSERT_OCI (n.lobGetLength col.val.text).1 cur.errhp
    let lob_len := (n.lobGetLength col.val.text).2
    if 0 < lob_len then do
      let lob_buffer := n.malloc lob_len
      ASSERT_PTR lob_buffer
      call (.OCILobRead col.val.text)
      ASSERT_OCI (n.lobRead col.val.text lob_len).1 cur.errhp
      let amount := (n.lobRead col.val.text lob_len).2.1
      call (.free (.lob_buffer lob_buffer))
      pure (.string (strncpy amount (n.lobRead col.val.text lob_len).2.2))
    else
      pure (.string "")
  else
    luaL_error (LUASQL_PREFIX ++ "unexpected error")

/-! ## Cursor object -/

/-- Close the cursor on top of the stack. -/
def cur_close (k : Nat) : Lua (List LuaValue) := fun w =>
  match w.curs[k]? with
  | none => .raise (.argerror 1 (LUASQL_CURSOR_OCI8 ++ " expected")) w
  | some cur =>
    if cur.closed ≠ 0 then .ok [.boolean false] w
    else
      (do
        /- Deallocate buffers. -/
        for_each (free_column_buffers k) (List.range' 1 cur.numcols)
        if cur.cols.isSome then call (.free .cols) else pure ()
        if cur.text.isSome then call (.free .stmttext) else pure ()
        /- Nullify structure fields. -/
        if cur.stmthp ≠ NULL then call (.OCIHandleFree cur.stmthp .STMT) else pure ()
        if cur.errhp ≠ NULL then call (.OCIHandleFree cur.errhp .ERROR) else pure ()
        luaL_unref cur.colnames
        luaL_unref cur.coltypes
        luaL_unref cur.columns
        modifyCur k (fun cu =>
          { cu with closed := 1, colnames := LUA_NOREF, coltypes := LUA_NOREF,
                    columns := LUA_NOREF })
        /- Decrement cursor counter on connection object -/
        modifyConn cur.conn (fun conn => { conn with cur_counter := conn.cur_counter - 1 })
        pure [LuaValue.boolean true] : Lua (List LuaValue)) w

/-- The types whose value the native library writes into the union itself
(`&col->val.dbl`, `&col->val.i64`, `&col->val.u64`, the decimal storage).  For
the other types the union holds a pointer, to a text buffer or to a native
descriptor, and a fetch writes what the pointer refers to. -/
def bound_by_value (ty : Nat) : Bool :=
  ty = SQLT_FLT || ty = SQLT_INT || ty = SQLT_UIN || is_decimal ty

/-- What the native fetch writes into the bound buffers: for each column, in
order, the null indicator and, for a type bound by value, the storage of the
value. -/
def write_row : List (Int × column_value) → List column_data → List column_data
  | (nl, v) :: row, col :: cs =>
    { col with null := nl, val := if bound_by_value col.type then v else col.val }
      :: write_row row cs
  | _, cs => cs

/-- What the native library and the Lua runtime answer during one fetch. -/
structure FetchNative where
  status : Int
  /-- The null indicator and the value storage written for each column. -/
  row : List (Int × column_value)
  /-- Whether `luaL_checkstack` finds room for the values. -/
  stack_ok : Bool
  decode : DecodeNative

/-- Get another row of the given cursor.  The second argument is the
destination container when it is a table, the third the mode string. -/
def cur_fetch (WITH_INT64 : Bool) (k : Nat) (arg2 : LuaValue) (arg3 : Option String)
    (n : FetchNative) : Lua (List LuaValue) := do
  let cur ← getcursor k
  call (.OCIStmtFetch cur.stmthp)
  modifyCur k (fun cu => { cu with cols := cu.cols.map (write_row n.row) })
  if n.status = OCI_STILL_EXECUTING then
    pure [LuaValue.nil, LuaValue.integer OCI_STILL_EXECUTING]
  else if n.status = OCI_NO_DATA then do
    /- No more rows -/
    let _ ← cur_close k
    pure [.nil]
  else do
    if n.status ≠ OCI_SUCCESS then ASSERT_OCI n.status cur.errhp else pure ()
    match arg2 with
    | .table t => do
      let opts := arg3.getD "n"
      if strchr opts 'n' then
        /- Copy values to numerical indices -/
        for_each (fun i => do
          let v ← pushvalue WITH_INT64 k i n.decode
          rawset t (.int i) v) (List.range' 1 cur.numcols)
      else pure ()
      if strchr opts 'a' then
        /- Copy values to alphanumerical indices -/
        for_each (fun i => do
          let cu ← theCursor k
          let v ← pushvalue WITH_INT64 k i n.decode
          rawset t (.str ((cu.col i).name.getD "")) v) (List.range' 1 cur.numcols)
      else pure ()
      pure [.table t]
    | _ => do
      if n.stack_ok then pure ()
      else luaL_error ("stack overflow (" ++ LUASQL_PREFIX ++ "too many columns)")
      for_collect (fun i => pushvalue WITH_INT64 k i n.decode) (List.range' 1 cur.numcols)

/-- Return the list of field names as a table on top of the stack. -/
def cur_getcolnames (k : Nat) : Lua (List LuaValue) := do
  let cur ← getcursor k
  if cur.colnames ≠ LUA_NOREF then do
    let v ← registry_get cur.colnames
    pure [v]
  else do
    let t ← newtable
    for_each (fun i => rawset t (.int i) (.string ((cur.col i).name.getD "")))
      (List.range' 1 cur.numcols)
    let r ← luaL_ref (.table t)
    modifyCur k (fun cu => { cu with colnames := r })
    pure [.table t]

/-- The normalized type name of a column. -/
def getcolumntype (WITH_INT64 : Bool) (col : column_data) : String :=
  if is_character col.type then "string"
  else if col.type = SQLT_FLT then (if WITH_INT64 then "double" else "number")
  else if col.type = SQLT_INT then (if WITH_INT64 then "integer" else "number")
  else if col.type = SQLT_UIN then (if WITH_INT64 then "unsigned integer" else "number")
  else if is_decimal col.type then "number"
  else if col.type = SQLT_DAT then "datetime"
  else if col.type = SQLT_TIMESTAMP || col.type = SQLT_TIMESTAMP_TZ
      || col.type = SQLT_TIMESTAMP_LTZ then "timestamp"
  else if col.type = SQLT_CLOB then "string"
  else "unknown"

/-- Return the list of field types as a table on top of the stack. -/
def cur_getcoltypes (WITH_INT64 : Bool) (k : Nat) : Lua (List LuaValue) := do
  let cur ← getcursor k
  if cur.coltypes ≠ LUA_NOREF then do
    let v ← registry_get cur.coltypes
    pure [v]
  else do
    let t ← newtable
    for_each (fun i => rawset t (.int i) (.string (getcolumntype WITH_INT64 (cur.col i))))
      (List.range' 1 cur.numcols)
    let r ← luaL_ref (.table t)
    modifyCur k (fun cu => { cu with coltypes := r })
    pure [.table t]

/-- Return the map by field names with description. -/
def cur_getcolumns (WITH_INT64 : Bool) (k : Nat) : Lua (List LuaValue) := do
  let cur ← getcursor k
  if cur.columns ≠ LUA_NOREF then do
    let v ← registry_get cur.columns
    pure [v]
  else do
    let t ← newtable
    for_each (fun i => do
      let d ← newtable
      rawset d (.str "type") (.string (getcolumntype WITH_INT64 (cur.col i)))
      rawset d (.str "maxsize") (.integer (cur.col i).max)
      rawset t (.str ((cur.col i).name.getD "")) (.table d)) (List.range' 1 cur.numcols)
    let r ← luaL_ref (.table t)
    modifyCur k (fun cu => { cu with columns := r })
    pure [.table t]

/-- Push the number of rows. -/
def cur_numrows (_k : Nat) : Lua (List LuaValue) :=
  luaL_error (LUASQL_PREFIX ++ "unimplemented")

/-! ## Connection object -/

/-- Close a Connection object. -/
def conn_close (c : Nat) : Lua (List LuaValue) := fun w =>
  match w.conns[c]? with
  | none => .raise (.argerror 1 (LUASQL_CONNECTION_OCI8 ++ " expected")) w
  | some conn =>
    if conn.closed ≠ 0 then .ok [.boolean false] w
    else if 0 < conn.cur_counter then
      .raise (.error (LUASQL_PREFIX ++ "there are open cursors")) w
    else
      (do
        call (.OCISessionEnd conn.svchp conn.authp)
        call (.OCIServerDetach conn.srvhp)
        if conn.srvhp ≠ NULL then call (.OCIHandleFree conn.srvhp .SERVER) else pure ()
        if conn.svchp ≠ NULL then call (.OCIHandleFree conn.svchp .SVCCTX) else pure ()
        if conn.authp ≠ NULL then call (.OCIHandleFree conn.authp .SESSION) else pure ()
        if conn.errhp ≠ NULL then call (.OCIHandleFree conn.errhp .ERROR) else pure ()
        /- Nullify structure fields. -/
        modifyConn c (fun cn =>
          { cn with closed := 1, srvhp := NULL, svchp := NULL, authp := NULL, errhp := NULL })
        modifyEnv conn.env (fun env => { env with conn_counter := env.conn_counter - 1 })
        pure [LuaValue.boolean true] : Lua (List LuaValue)) w

/-- Abort current operation. -/
def conn_abort (c : Nat) (status : Int) : Lua (List LuaValue) := do
  let conn ← getconnection c
  call (.OCIBreak conn.srvhp)
  ASSERT_OCI status conn.errhp
  pure [.boolean true]

/-- Reset connection state. -/
def conn_reset (c : Nat) (status : Int) : Lua (List LuaValue) := do
  let conn ← getconnection c
  call (.OCIReset conn.srvhp)
  ASSERT_OCI status conn.errhp
  pure [.boolean true]

/-- What the native library and the C allocator answer while a cursor is
created. -/
structure CursorNative where
  /-- Whether `strdup` returned a block. -/
  strdup_ok : Bool
  errAllocStatus : Int
  errhp : Nat
  countStatus : Int
  numcols : Nat
  /-- Whether `calloc` returned a block for the array of columns. -/
  calloc_ok : Bool
  /-- The answers for column `i`. -/
  column : Nat → ColumnNative

/-- Create a new Cursor object and push it on top of the stack. -/
def create_cursor (c : Nat) (stmt : Nat) (text : String) (n : CursorNative) :
    Lua (List LuaValue) := do
  let w ← getWorld
  let conn := w.conns.getD c
    { closed := 0, auto_commit := 0, cur_counter := 0, env := 0, svchp := NULL, srvhp := NULL,
      authp := NULL, errhp := NULL, tid := 0, connecting := 0, username := "", password := "",
      sourcename := "" }
  let k := w.curs.length
  /- fill in structure -/
  newCursor
    { closed := 0, conn := c, numcols := 0, colnames := LUA_NOREF, coltypes := LUA_NOREF,
      columns := LUA_NOREF, text := if n.strdup_ok then some text else none, stmthp := stmt,
      errhp := NULL, cols := none }
  ASSERT_PTR (if n.strdup_ok then 1 else NULL)
  /- error handler -/
  call (.OCIHandleAlloc .ERROR)
  modifyCur k (fun cu => { cu with errhp := n.errhp })
  ASSERT_OCI n.errAllocStatus conn.errhp
  /- get number of columns -/
  call (.OCIAttrGet stmt .PARAM_COUNT)
  modifyCur k (fun cu => { cu with numcols := n.numcols })
  ASSERT_OCI n.countStatus n.errhp
  modifyCur k (fun cu =>
    { cu with cols := if n.calloc_ok then some (List.replicate n.numcols column_data.zero)
                      else none })
  ASSERT_PTR (if n.calloc_ok then 1 else NULL)
  /- define output variables -/
  for_each (fun i => alloc_column_buffer k i (n.column i)) (List.range' 1 n.numcols)
  modifyConn c (fun cn => { cn with cur_counter := cn.cur_counter + 1 })
  pure [.cursor k]

/-- The value of a C `int` whose four bytes hold the `ub4` value `v`: the row
count is read with `OCIAttrGet ((dvoid *)&rows_affected, ..)` into the local
`int rows_affected`. -/
def int_of_ub4 (v : Nat) : Int :=
  if v % 2 ^ 32 < 2 ^ 31 then ((v % 2 ^ 32 : Nat) : Int)
  else ((v % 2 ^ 32 : Nat) : Int) - 2 ^ 32

/-- What the native library answers during one `execute`. -/
structure ExecuteNative where
  allocStatus : Int
  stmthp : Nat
  prefetchStatus : Int
  prepareStatus : Int
  typeStatus : Int
  /-- The statement kind. -/
  type : Nat
  executeStatus : Int
  rowCountStatus : Int
  /-- The `ub4` the native library stores for `OCI_ATTR_ROW_COUNT`. -/
  rows_affected : Nat
  cursor : CursorNative

/-- Execute an SQL statement.  Return a Cursor object if the statement is a
query, otherwise return the number of tuples affected by the statement.
The argument `token` is the pointer of the last argument when there are at
least three arguments and the last one is a userdata. -/
def conn_execute (c : Nat) (statement : String) (token : Option Nat) (n : ExecuteNative) :
    Lua (List LuaValue) := do
  let conn ← getconnection c
  /- statement handle -/
  let stmthp ← (match token with
    | some p => pure p
    | none => do
      call (.OCIHandleAlloc .STMT)
      ASSERT_OCI n.allocStatus conn.errhp
      call (.OCIAttrSet n.stmthp .PREFETCH_ROWS)
      ASSERT_OCI n.prefetchStatus conn.errhp
      call (.OCIStmtPrepare n.stmthp statement)
      ASSERT_OCI n.prepareStatus conn.errhp
      pure n.stmthp : Lua Nat)
  /- statement type -/
  call (.OCIAttrGet stmthp .STMT_TYPE)
  ASSERT_OCI n.typeStatus conn.errhp
  let iters := if n.type = OCI_STMT_SELECT then 0 else 1
  let mode := if conn.auto_commit ≠ 0 then OCI_COMMIT_ON_SUCCESS else OCI_DEFAULT
  /- execute statement -/
  call (.OCIStmtExecute conn.svchp stmthp iters mode)
  if n.executeStatus = OCI_STILL_EXECUTING then
    pure [LuaValue.lightuserdata stmthp, LuaValue.number (.ofInt OCI_STILL_EXECUTING)]
  else if n.executeStatus ≠ 0 ∧ n.executeStatus ≠ OCI_NO_DATA then do
    call (.OCIHandleFree stmthp .STMT)
    ASSERT_OCI n.executeStatus conn.errhp
    /- unreachable -/
    pure []
  else if n.type = OCI_STMT_SELECT then
    /- create cursor -/
    create_cursor c stmthp statement n.cursor
  else do
    /- return number of rows -/
    call (.OCIAttrGet stmthp .ROW_COUNT)
    ASSERT_OCI n.rowCountStatus conn.errhp
    call (.OCIHandleFree stmthp .STMT)
    pure [.number (.ofInt (int_of_ub4 n.rows_affected))]

/-- Commit the current transaction. -/
def conn_commit (c : Nat) (status : Int) : Lua (List LuaValue) := do
  let conn ← getconnection c
  call (.OCITransCommit conn.svchp)
  if status = OCI_STILL_EXECUTING then
    pure [LuaValue.nil, LuaValue.integer OCI_STILL_EXECUTING]
  else do
    ASSERT_OCI status conn.errhp
    pure [LuaValue.boolean true]

/-- Rollback the current transaction. -/
def conn_rollback (c : Nat) (status : Int) : Lua (List LuaValue) := do
  let conn ← getconnection c
  call (.OCITransRollback conn.svchp)
  if status = OCI_STILL_EXECUTING then
    pure [LuaValue.nil, LuaValue.integer OCI_STILL_EXECUTING]
  else do
    ASSERT_OCI status conn.errhp
    pure [LuaValue.boolean true]

/-- Set "auto commit" property of the connection.  If true, then rollback
current transaction.  If false, then start a new transaction. -/
def conn_setautocommit (c : Nat) (flag : Bool) (status : Int) : Lua (List LuaValue) := do
  let conn ← getconnection c
  if flag then do
    modifyConn c (fun cn => { cn with auto_commit := 1 })
    /- Undo active transaction. -/
    call (.OCITransRollback conn.svchp)
    ASSERT_OCI status conn.errhp
  else
    modifyConn c (fun cn => { cn with auto_commit := 0 })
  pure [LuaValue.boolean true]

/-! ## Environment object -/

/-- What the native library answers during a synchronous login. -/
structure ConnectNative where
  errAllocStatus : Int
  errhp : Nat
  logonStatus : Int
  svchp : Nat

/-- Connects to a data source.  The field `tid`, which the C code leaves
unset, is `0` here. -/
def env_connect (e : Nat) (sourcename username password : String) (n : ConnectNative) :
    Lua (List LuaValue) := do
  let env ← getenvironment e
  /- Alloc connection object -/
  let w ← getWorld
  let c := w.conns.length
  /- fill in structure -/
  newConnection
    { closed := 1, auto_commit := 0, cur_counter := 0, env := e, svchp := NULL, srvhp := NULL,
      authp := NULL, errhp := NULL, tid := 0, connecting := 0,
      username := strncpy 256 username, password := strncpy 256 password,
      sourcename := strncpy 256 sourcename }
  /- error handler -/
  call (.OCIHandleAlloc .ERROR)
  modifyConn c (fun cn => { cn with errhp := n.errhp })
  ASSERT_OCI n.errAllocStatus env.errhp
  /- login -/
  call (.OCILogon sourcename username)
  modifyConn c (fun cn => { cn with svchp := n.svchp })
  ASSERT_OCI n.logonStatus n.errhp
  modifyConn c (fun cn => { cn with closed := 0 })
  modifyEnv e (fun en => { en with conn_counter := en.conn_counter + 1 })
  pure [LuaValue.connection c]

/-- What the native library answers to the calls of the login thread, in the
order of the calls. -/
structure LoginNative where
  errAllocStatus : Int
  errhp : Nat
  srvAllocStatus : Int
  srvhp : Nat
  svcAllocStatus : Int
  svchp : Nat
  attachStatus : Int
  setServerStatus : Int
  authAllocStatus : Int
  authp : Nat
  setUsernameStatus : Int
  setPasswordStatus : Int
  sessionBeginStatus : Int
  setSessionStatus : Int
  setNonblockingStatus : Int

/-- A sequence of statements `OCI_THR_CHECK (exp)`: each entry is what the
native call of `exp` does and the status it returns.  The first status that
is not zero ends the thread (`pthread_exit`) with that status; when all are
zero the thread returns `OCI_SUCCESS`. -/
def OCI_THR_CHECK : List ((World → World) × Int) → World → Int × World
  | [], w => (OCI_SUCCESS, w)
  | (exp, s) :: rest, w => if s ≠ 0 then (s, exp w) else OCI_THR_CHECK rest (exp w)

/-- The native call `nc` is made and the connection object at `c` is written
by `f`. -/
def native_write (c : Nat) (nc : NativeCall) (f : conn_data → conn_data) (w : World) :
    World :=
  (w.withCalls (fun cs => cs ++ [nc])).withConns (fun cs => cs.modify f c)

/-- Async connects to a data source: the whole run of the thread started for
the connection object at `c`, from taking the mutex of the environment to the
two cleanup handlers (`pthread_mutex_unlock`, then `async_completed`).  The
mutex is held from the first to the last statement of the run, so that runs
of threads of one environment do not overlap. -/
def async_open (c : Nat) (n : LoginNative) (w : World) : World :=
  match w.conns[c]? with
  | none => w
  | some conn =>
    let r := OCI_THR_CHECK
      [ (native_write c (.OCIHandleAlloc .ERROR) (fun cn => { cn with errhp := n.errhp }),
          n.errAllocStatus),
        (native_write c (.OCIHandleAlloc .SERVER) (fun cn => { cn with srvhp := n.srvhp }),
          n.srvAllocStatus),
        (native_write c (.OCIHandleAlloc .SVCCTX) (fun cn => { cn with svchp := n.svchp }),
          n.svcAllocStatus),
        (native_write c (.OCIServerAttach n.srvhp conn.sourcename) id, n.attachStatus),
        (native_write c (.OCIAttrSet n.svchp .SERVER) id, n.setServerStatus),
        (native_write c (.OCIHandleAlloc .SESSION) (fun cn => { cn with authp := n.authp }),
          n.authAllocStatus),
        (native_write c (.OCIAttrSet n.authp .USERNAME) id, n.setUsernameStatus),
        (native_write c (.OCIAttrSet n.authp .PASSWORD) id, n.setPasswordStatus),
        (native_write c (.OCISessionBegin n.svchp n.authp) id, n.sessionBeginStatus),
        (native_write c (.OCIAttrSet n.svchp .SESSION) id, n.setSessionStatus),
        /- set nonblocking -/
        (native_write c (.OCIAttrSet n.srvhp .NONBLOCKING_MODE) id, n.setNonblockingStatus) ]
      w
    (r.2.withConns (fun cs => cs.modify (fun cn => { cn with connecting := 0 }) c)).withThreads
      (fun ts => ts.modify (fun t => { t with exit := some r.1 }) (conn.tid - 1))

/-- The call `pthread_join (tid, (void **) &status)`: the value of `status`
after it.  With a thread that has ended and was not joined yet this is the
value the thread ended with.  With no such thread the call fails, its return
value is not looked at, and `status` keeps the value `status0` it had, which
the C code never set.

The local `status` is a four-byte `sword` and the call stores the eight bytes
of the exit value through the pointer: `status` receives the low four bytes,
and the four bytes that follow `status` in the frame of `env_connect_async`
receive the high four (zero for an exit status that is not negative).  What
lies in those four bytes depends on the build; this is the call in a build in
which they belong to no local that is read afterwards, so that nothing but
`status` is seen to change. -/
def pthread_join (tid : Nat) (status0 : Int) : Lua Int := fun w =>
  let w1 := w.withCalls (fun cs => cs ++ [.pthread_join tid])
  if tid = 0 then .ok status0 w1
  else
    match w.threads[tid - 1]? with
    | some { exit := some s, joined := false } =>
      .ok s (w1.withThreads (fun ts => ts.modify (fun t => { t with joined := true }) (tid - 1)))
    | _ => .ok status0 w1

/-- Connects to a data source asynchronous.  The argument `handle` is the
connection object passed as last argument, when the last argument is a
userdata; `status0` is what the local `status` holds before `pthread_join`.
The three names are copied with `strncpy` into arrays of 256 characters: a
name of 256 characters or more leaves its array without a terminator, and the
model, which keeps the first 256 characters, is of shorter names only. -/
def env_connect_async (e : Nat) (sourcename username password : String) (handle : Option Nat)
    (status0 : Int) : Lua (List LuaValue) := do
  let _ ← getenvironment e
  let w ← getWorld
  match handle with
  | none => do
    /- Alloc connection object -/
    let c := w.conns.length
    let tid := w.threads.length + 1
    /- fill in structure -/
    newConnection
      { closed := 1, auto_commit := 0, cur_counter := 0, env := e, svchp := NULL,
        srvhp := NULL, authp := NULL, errhp := NULL, tid := tid, connecting := 1,
        username := strncpy 256 username, password := strncpy 256 password,
        sourcename := strncpy 256 sourcename }
    call (.pthread_create c)
    fun w1 => .ok () (w1.withThreads (fun ts => ts ++ [{ exit := none, joined := false }]))
    pure [LuaValue.connection c, LuaValue.integer OCI_STILL_EXECUTING]
  | some c =>
    match w.conns[c]? with
    | none => luaL_argerror 5 (LUASQL_CONNECTION_OCI8 ++ " expected")
    | some conn =>
      if conn.connecting ≠ 0 then
        pure [LuaValue.connection c, LuaValue.integer OCI_STILL_EXECUTING]
      else do
        let status ← pthread_join conn.tid status0
        ASSERT_OCI status conn.errhp
        modifyConn c (fun cn => { cn with closed := 0, tid := 0 })
        modifyEnv e (fun en => { en with conn_counter := en.conn_counter + 1 })
        pure [LuaValue.connection c]

/-- Close environment object. -/
def env_close (e : Nat) : Lua (List LuaValue) := fun w =>
  match w.envs[e]? with
  | none => .raise (.argerror 1 (LUASQL_ENVIRONMENT_OCI8 ++ " expected")) w
  | some env =>
    if env.closed ≠ 0 then .ok [.boolean false] w
    else if 0 < env.conn_counter then
      .raise (.error (LUASQL_PREFIX ++ "there are open connections")) w
    else
      (do
        modifyEnv e (fun en => { en with closed := 1 })
        if env.envhp ≠ NULL then call (.OCIHandleFree env.envhp .ENV) else pure ()
        if env.errhp ≠ NULL then call (.OCIHandleFree env.errhp .ERROR) else pure ()
        pure [LuaValue.boolean true] : Lua (List LuaValue)) w

/-- What the native library answers while an environment is created. -/
structure EnvNative where
  envCreateStatus : Int
  envhp : Nat
  errAllocStatus : Int
  errhp : Nat

/-- Creates an Environment and returns it. -/
def create_environment (n : EnvNative) : Lua (List LuaValue) := do
  let w ← getWorld
  let e := w.envs.length
  /- fill in structure -/
  newEnvironment { closed := 0, conn_counter := 0, envhp := NULL, errhp := NULL }
  call .OCIEnvCreate
  modifyEnv e (fun en => { en with envhp := n.envhp })
  if n.envCreateStatus ≠ 0 then
    luaL_error (LUASQL_PREFIX ++ "couldn't create environment")
  else do
    /- error handler -/
    call (.OCIHandleAlloc .ERROR)
    modifyEnv e (fun en => { en with errhp := n.errhp })
    ASSERT_OCI n.errAllocStatus NULL
    pure [LuaValue.environment e]

/-! ## The public operations

The methods registered by `create_metatables` and the driver function `oci8`.
The finalizer `__gc` of each class is the `close` function of the class, so
the finalization of a handle object is the same step as closing it. -/

/-- One step of the system: a call of a public operation with its arguments
and the answers of the native library, or the run of a login thread. -/
inductive Op where
  | create_environment (n : EnvNative)
  | env_close (e : Nat)
  | env_connect (e : Nat) (sourcename username password : String) (n : ConnectNative)
  | env_connect_async (e : Nat) (sourcename username password : String) (handle : Option Nat)
      (status0 : Int)
  | async_open (c : Nat) (n : LoginNative)
  | conn_close (c : Nat)
  | conn_abort (c : Nat) (status : Int)
  | conn_reset (c : Nat) (status : Int)
  | conn_execute (c : Nat) (statement : String) (token : Option Nat) (n : ExecuteNative)
  | conn_commit (c : Nat) (status : Int)
  | conn_rollback (c : Nat) (status : Int)
  | conn_setautocommit (c : Nat) (flag : Bool) (status : Int)
  | cur_close (k : Nat)
  | cur_getcolnames (k : Nat)
  | cur_getcoltypes (k : Nat)
  | cur_getcolumns (k : Nat)
  | cur_fetch (k : Nat) (arg2 : LuaValue) (arg3 : Option String) (n : FetchNative)
  | cur_numrows (k : Nat)

/-- Whether the thread of the connection object at `c` is running. -/
def thread_running (c : Nat) (w : World) : Bool :=
  match w.conns[c]? with
  | none => false
  | some conn =>
    conn.connecting ≠ 0 && conn.tid ≠ 0 &&
      (w.threads[conn.tid - 1]?).any (fun t => t.exit.isNone)

/-- The state after one step; a step that raises keeps what it wrote. -/
def step (WITH_INT64 : Bool) (op : Op) (w : World) : World :=
  match op with
  | .create_environment n => (create_environment n w).world
  | .env_close e => (env_close e w).world
  | .env_connect e s u p n => (env_connect e s u p n w).world
  | .env_connect_async e s u p h status0 => (env_connect_async e s u p h status0 w).world
  | .async_open c n => if thread_running c w then async_open c n w else w
  | .conn_close c => (conn_close c w).world
  | .conn_abort c st => (conn_abort c st w).world
  | .conn_reset c st => (conn_reset c st w).world
  | .conn_execute c s t n => (conn_execute c s t n w).world
  | .conn_commit c st => (conn_commit c st w).world
  | .conn_rollback c st => (conn_rollback c st w).world
  | .conn_setautocommit c f st => (conn_setautocommit c f st w).world
  | .cur_close k => (cur_close k w).world
  | .cur_getcolnames k => (cur_getcolnames k w).world
  | .cur_getcoltypes k => (cur_getcoltypes WITH_INT64 k w).world
  | .cur_getcolumns k => (cur_getcolumns WITH_INT64 k w).world
  | .cur_fetch k a2 a3 n => (cur_fetch WITH_INT64 k a2 a3 n w).world
  | .cur_numrows k => (cur_numrows k w).world

/-- The state after a sequence of steps. -/
def run (WITH_INT64 : Bool) (ops : List Op) (w : World) : World :=
  ops.foldl (fun w1 op => step WITH_INT64 op w1) w

/-- The states the public operations can reach from the start of the program. -/
inductive Reachable (WITH_INT64 : Bool) : World → Prop where
  | start : Reachable WITH_INT64 World.empty
  | next (op : Op) (w : World) :
      Reachable WITH_INT64 w → Reachable WITH_INT64 (step WITH_INT64 op w)

/-! ## Successful native calls -/

/-- A status with which `ASSERT_OCI` returns instead of raising. -/
def passes (status : Int) : Prop :=
  status = OCI_SUCCESS ∨ status = OCI_SUCCESS_WITH_INFO

/-- The type tags for which `alloc_column_buffer` has a case. -/
def supported (ty : Nat) : Bool :=
  is_character ty || ty = SQLT_FLT || ty = SQLT_INT || ty = SQLT_UIN || is_decimal ty
    || is_datetime ty || ty = SQLT_CLOB

/-- The type of the column is supported, and every native call and allocation
that `alloc_column_buffer` makes for a column of that type succeeds: the size
attribute, the text buffer and the character set for a character type only,
the descriptor for a date, timestamp or CLOB type only. -/
def ColumnNative.succeeds (n : ColumnNative) : Prop :=
  passes n.paramGetStatus ∧ passes n.nameStatus ∧ passes n.typeStatus ∧ n.strndup_ok = true ∧
    supported n.type = true ∧
    (is_character n.type = true →
      passes n.sizeStatus ∧ n.calloc % 2 ^ 64 ≠ NULL ∧ passes n.charsetStatus) ∧
    (is_datetime n.type = true ∨ n.type = SQLT_CLOB → passes n.descriptorStatus) ∧
    passes n.defineStatus

/-- Every native call and allocation of a cursor creation succeeds, for each
of the columns `1 .. numcols`. -/
def CursorNative.succeeds (n : CursorNative) : Prop :=
  n.strdup_ok = true ∧ passes n.errAllocStatus ∧ passes n.countStatus ∧ n.calloc_ok = true ∧
    ∀ i, 1 ≤ i → i ≤ n.numcols → (n.column i).succeeds

/-- The statement is executed successfully: the native execute call returns
`OCI_SUCCESS` or `OCI_NO_DATA`, the two statuses with which `conn_execute` goes
on to its result, and no native call that `conn_execute` makes on its way
fails.  The calls made depend on the entry (with a continuation token no
statement handle is allocated or prepared) and on the statement kind (the row
count is read for a non-query, a Cursor is created for a query). -/
def ExecuteNative.succeeds (n : ExecuteNative) (token : Option Nat) : Prop :=
  (token = none → passes n.allocStatus ∧ passes n.prefetchStatus ∧ passes n.prepareStatus) ∧
    passes n.typeStatus ∧ (n.executeStatus = OCI_SUCCESS ∨ n.executeStatus = OCI_NO_DATA) ∧
    (n.type ≠ OCI_STMT_SELECT → passes n.rowCountStatus) ∧
    (n.type = OCI_STMT_SELECT → n.cursor.succeeds)

/-- The login thread runs to its end: every native call of it returns zero. -/
def LoginNative.succeeds (n : LoginNative) : Prop :=
  n.errAllocStatus = 0 ∧ n.srvAllocStatus = 0 ∧ n.svcAllocStatus = 0 ∧ n.attachStatus = 0 ∧
    n.setServerStatus = 0 ∧ n.authAllocStatus = 0 ∧ n.setUsernameStatus = 0 ∧
    n.setPasswordStatus = 0 ∧ n.sessionBeginStatus = 0 ∧ n.setSessionStatus = 0 ∧
    n.setNonblockingStatus = 0

/-- The state `w1` differs from `w` at most in the columns of the cursor
object at `k`, in the Lua tables and registry and in the record of calls. -/
def ColsFrame (k : Nat) (w w1 : World) : Prop :=
  w1.envs = w.envs ∧ w1.conns = w.conns ∧ w1.threads = w.threads ∧
    w1.curs.length = w.curs.length ∧
    (∀ j, j ≠ k → w1.curs[j]? = w.curs[j]?) ∧
    (∀ cu, w.curs[k]? = some cu → ∃ cols, w1.curs[k]? = some { cu with cols := cols })

/-- The computation returns normally, into a state that differs from the
initial one at most in the columns of the cursor object at `k`. -/
def OkCols {α : Type} (k : Nat) (m : Lua α) : Prop :=
  ∀ w, ∃ a w1, m w = .ok a w1 ∧ ColsFrame k w w1

/-- The cursor object at `k` is closed. -/
def CursorClosed (k : Nat) (w : World) : Prop :=
  ∃ cur, w.curs[k]? = some cur ∧ cur.closed ≠ 0

/-- The computation leaves a closed cursor object at `k` closed, whether it
returns or raises. -/
def KeepsClosed {α : Type} (k : Nat) (m : Lua α) : Prop :=
  ∀ w, CursorClosed k w → CursorClosed k (m w).world

/-- Whenever the computation returns a value, the value is not `nil`. -/
def NonNil (m : Lua LuaValue) : Prop :=
  ∀ w v w1, m w = .ok v w1 → v ≠ .nil

/-! ## Example states and answers of the native library -/

/-- Answers of a native library that succeeds in creating an environment. -/
def envNative_ok : EnvNative :=
  { envCreateStatus := OCI_SUCCESS, envhp := 1000, errAllocStatus := OCI_SUCCESS, errhp := 1001 }

/-- Answers of a native library that accepts a login. -/
def connectNative_ok : ConnectNative :=
  { errAllocStatus := OCI_SUCCESS, errhp := 2001, logonStatus := OCI_SUCCESS, svchp := 2002 }

/-- An open environment with one open connection that has no cursor. -/
def world_connected : World :=
  run true [.create_environment envNative_ok, .env_connect 0 "db" "u" "p" connectNative_ok]
    World.empty

/-- The connection of `world_connected`. -/
def conn_connected : conn_data :=
  { closed := 0, auto_commit := 0, cur_counter := 0, env := 0, svchp := 2002, srvhp := NULL,
    authp := NULL, errhp := 2001, tid := 0, connecting := 0, username := "u", password := "p",
    sourcename := "db" }

/-- Answers of a native library that describes a column of type `ty` named
`name` and binds its buffer. -/
def columnNative_ok (ty : Nat) (name : String) : ColumnNative :=
  { paramGetStatus := OCI_SUCCESS, nameStatus := OCI_SUCCESS, name := name,
    namelen := name.length, typeStatus := OCI_SUCCESS, type := ty, strndup_ok := true,
    sizeStatus := OCI_SUCCESS, max := 40, calloc := 5000, descriptorStatus := OCI_SUCCESS,
    descriptor := 5001, defineStatus := OCI_SUCCESS, define := 5002,
    charsetStatus := OCI_SUCCESS }

/-- Answers for the creation of a cursor with one column of type `ty`, the
error handle of the cursor being `errhp`. -/
def cursorNative_one (errhp : Nat) (ty : Nat) : CursorNative :=
  { strdup_ok := true, errAllocStatus := OCI_SUCCESS, errhp := errhp,
    countStatus := OCI_SUCCESS, numcols := 1, calloc_ok := true,
    column := fun _ => columnNative_ok ty "ONE" }

/-- Answers for the execution of a query with one column of type `ty`: the
statement handle is `stmthp`, the native execute call returns `status`. -/
def executeNative_query (stmthp : Nat) (status : Int) (ty : Nat) : ExecuteNative :=
  { allocStatus := OCI_SUCCESS, stmthp := stmthp, prefetchStatus := OCI_SUCCESS,
    prepareStatus := OCI_SUCCESS, typeStatus := OCI_SUCCESS, type := OCI_STMT_SELECT,
    executeStatus := status, rowCountStatus := OCI_SUCCESS, rows_affected := 0,
    cursor := cursorNative_one (stmthp + 1) ty }

/-- Answers for the execution of an update that affects `rows` rows: the
statement handle is `stmthp`, the native execute call returns `status`. -/
def executeNative_update (stmthp : Nat) (status : Int) (rows : Nat) : ExecuteNative :=
  { allocStatus := OCI_SUCCESS, stmthp := stmthp, prefetchStatus := OCI_SUCCESS,
    prepareStatus := OCI_SUCCESS, typeStatus := OCI_SUCCESS, type := 4,
    executeStatus := status, rowCountStatus := OCI_SUCCESS, rows_affected := rows,
    cursor := cursorNative_one (stmthp + 1) SQLT_NUM }

/-- The state `world_connected` after the query `SELECT 1 AS one FROM dual`:
the connection has one open cursor. -/
def world_cursor : World :=
  (conn_execute 0 "SELECT 1 AS one FROM dual" none
    (executeNative_query 3000 OCI_SUCCESS SQLT_NUM) world_connected).world

/-- The cursor of `world_cursor`. -/
def cur_one : cur_data :=
  { closed := 0, conn := 0, numcols := 1, colnames := LUA_NOREF, coltypes := LUA_NOREF,
    columns := LUA_NOREF, text := some "SELECT 1 AS one FROM dual", stmthp := 3000,
    errhp := 3001,
    cols := some [{ type := SQLT_NUM, name := some "one", namelen := 3, max := 0, null := 0,
                    define := 5002, val := 0 }] }

/-- The public operations that leave a Connection closed under an open Cursor:
a query gives Cursor 0; a second query, on a column of a type without decoding
rule (a BLOB), raises in `create_cursor` and leaves the Cursor object 1 behind;
the finalizer of that object runs; the Connection is closed. -/
def ops_close_under_cursor : List Op :=
  [ .create_environment envNative_ok,
    .env_connect 0 "db" "u" "p" connectNative_ok,
    .conn_execute 0 "SELECT 1 AS one FROM dual" none
      (executeNative_query 3000 OCI_SUCCESS SQLT_NUM),
    .conn_execute 0 "SELECT b FROM t" none (executeNative_query 3100 OCI_SUCCESS SQLT_BLOB),
    .cur_close 1,
    .conn_close 0 ]

/-- A native library whose decoding functions all succeed and give zeros. -/
def decodeNative_zero : DecodeNative :=
  { isInt := fun _ => (OCI_SUCCESS, true), fromInt := fun _ => (OCI_SUCCESS, 0),
    cmp := fun _ _ => (OCI_SUCCESS, 0), toInt := fun _ _ => (OCI_SUCCESS, 0),
    toReal := fun _ => (OCI_SUCCESS, 0), getDate := fun _ => (OCI_SUCCESS, 0, 0, 0),
    getTime := fun _ => (OCI_SUCCESS, 0, 0, 0, 0), lobGetLength := fun _ => (OCI_SUCCESS, 0),
    lobRead := fun _ _ => (OCI_SUCCESS, 0, ""), malloc := fun _ => 6000,
    cstring := fun _ => "" }

/-- Answers of a fetch past the last row: "no more rows", nothing written. -/
def fetchNative_no_data : FetchNative :=
  { status := OCI_NO_DATA, row := [], stack_ok := true, decode := decodeNative_zero }

/-- Answers for an execution whose native prepare call fails with `OCI_ERROR`
(as for an empty statement text). -/
def executeNative_prepare_error : ExecuteNative :=
  { allocStatus := OCI_SUCCESS, stmthp := 3000, prefetchStatus := OCI_SUCCESS,
    prepareStatus := OCI_ERROR, typeStatus := OCI_SUCCESS, type := 0,
    executeStatus := OCI_SUCCESS, rowCountStatus := OCI_SUCCESS, rows_affected := 0,
    cursor := cursorNative_one 3001 SQLT_NUM }

/-- Answers of a native library that accepts the asynchronous login. -/
def loginNative_ok : LoginNative :=
  { errAllocStatus := 0, errhp := 2001, srvAllocStatus := 0, srvhp := 2003, svcAllocStatus := 0,
    svchp := 2002, attachStatus := 0, setServerStatus := 0, authAllocStatus := 0, authp := 2004,
    setUsernameStatus := 0, setPasswordStatus := 0, sessionBeginStatus := 0,
    setSessionStatus := 0, setNonblockingStatus := 0 }

/-- An open environment and a connection handle whose asynchronous login has
been started and has not finished. -/
def world_pending : World :=
  run true [.create_environment envNative_ok, .env_connect_async 0 "db" "u" "p" none 0]
    World.empty

/-- The connection handle of `world_pending`. -/
def conn_pending : conn_data :=
  { closed := 1, auto_commit := 0, cur_counter := 0, env := 0, svchp := NULL, srvhp := NULL,
    authp := NULL, errhp := NULL, tid := 1, connecting := 1, username := "u", password := "p",
    sourcename := "db" }

/-- An asynchronous login that is joined twice: the handle is created, the
login thread runs to its end, `connect_async` is called with the handle and
joins the thread, and `connect_async` is called with the handle once more, the
local `status` of that call holding 0. -/
def ops_join_twice : List Op :=
  [ .create_environment envNative_ok,
    .env_connect_async 0 "db" "u" "p" none 0,
    .async_open 0 loginNative_ok,
    .env_connect_async 0 "db" "u" "p" (some 0) 0,
    .env_connect_async 0 "db" "u" "p" (some 0) 0 ]

/-- The state after the first four steps of `ops_join_twice`: the login thread
has been joined and the Connection is open. -/
def world_joined : World :=
  run true (ops_join_twice.take 4) World.empty

/-- The Connection of `world_joined`. -/
def conn_joined : conn_data :=
  { closed := 0, auto_commit := 0, cur_counter := 0, env := 0, svchp := 2002, srvhp := 2003,
    authp := 2004, errhp := 2001, tid := 0, connecting := 0, username := "u", password := "p",
    sourcename := "db" }

/-- The cursor of `world_cursor` after a fetch that found its column null:
the native library has set the null indicator to `-1`. -/
def world_null_row : World :=
  world_cursor.withCurs (fun ks => ks.modify
    (fun cu => { cu with cols := cu.cols.map (write_row [(-1, 0)]) }) 0)

/-- The cursor object of `world_null_row`. -/
def cur_null : cur_data :=
  { cur_one with
    cols := some [{ type := SQLT_NUM, name := some "one", namelen := 3, max := 0, null := -1,
                    define := 5002, val := 0 }] }

/-- The native decimal routines compute on the numbers the storages denote,
`value s` being the number denoted by the decimal storage `s`.  The routine
`OCINumberIsInt` tells whether the number is an integer, `OCINumberFromInt`
of zero gives a storage that denotes zero, `OCINumberCmp` gives the sign of
the comparison of the first number with the second, and `OCINumberToInt`
writes the 64 bits of an integer that fits the format asked for. -/
def DecodeNative.exact (n : DecodeNative) (value : Nat → ℚ) : Prop :=
  (∀ s, (n.isInt s).2 = true ↔ ∃ z : Int, value s = z) ∧
  value (n.fromInt 0).2 = 0 ∧
  (∀ s t, 0 ≤ (n.cmp s t).2 ↔ value t ≤ value s) ∧
  (∀ s (v : Nat), value s = v → v < 2 ^ 64 → column_value.u64 (n.toInt s false).2 = v) ∧
  (∀ s (v : Int), value s = v → -2 ^ 63 ≤ v → v < 2 ^ 63 →
    column_value.i64 (n.toInt s true).2 = v)

/-- Each native decimal routine computes on the numbers the storages denote
whenever it succeeds, `value s` being the number denoted by the decimal
storage `s`; nothing is said of a call that fails.  The routine
`OCINumberIsInt` tells whether the number is an integer, `OCINumberFromInt`
of zero gives a storage that denotes zero, `OCINumberCmp` gives the sign of
the comparison of the first number with the second, and `OCINumberToInt`
writes the 64 bits of an integer that fits the format asked for. -/
def DecodeNative.converts (n : DecodeNative) (value : Nat → ℚ) : Prop :=
  (∀ s, passes (n.isInt s).1 → ((n.isInt s).2 = true ↔ ∃ z : Int, value s = z)) ∧
  (passes (n.fromInt 0).1 → value (n.fromInt 0).2 = 0) ∧
  (∀ s t, passes (n.cmp s t).1 → (0 ≤ (n.cmp s t).2 ↔ value t ≤ value s)) ∧
  (∀ s (v : Nat), passes (n.toInt s false).1 → value s = v → v < 2 ^ 64 →
    column_value.u64 (n.toInt s false).2 = v) ∧
  (∀ s (v : Int), passes (n.toInt s true).1 → value s = v → -2 ^ 63 ≤ v → v < 2 ^ 63 →
    column_value.i64 (n.toInt s true).2 = v)

/-- The native calls that the decode of an integer decimal storage `s` makes
all succeed: the integer test, the making of zero, the comparison with zero
and the one conversion to an integer, unsigned or `signed`.  The conversion of
the other signedness and the conversion to a real are not called. -/
def DecodeNative.integer_passes (n : DecodeNative) (s : Nat) (signed : Bool) : Prop :=
  passes (n.isInt s).1 ∧ passes (n.fromInt 0).1 ∧ passes (n.cmp s (n.fromInt 0).2).1 ∧
    passes (n.toInt s signed).1

/-- An example reading of the decimal storage: the storage `s` denotes the
number `(s - 8) / 2`, so that halves and a few negative numbers have a
storage. -/
def value_half (s : Nat) : ℚ := ((s : ℚ) - 8) / 2

/-- Native decimal routines for the reading `value_half`; every call
succeeds.  The double written by the conversion to a real is left at the bits
of `0.5`. -/
def decodeNative_half : DecodeNative :=
  { decodeNative_zero with
    isInt := fun s => (OCI_SUCCESS, s % 2 = 0)
    fromInt := fun z => (OCI_SUCCESS, (2 * z + 8).toNat)
    cmp := fun s t => (OCI_SUCCESS, if s < t then -1 else if s = t then 0 else 1)
    toInt := fun s signed =>
      (OCI_SUCCESS, if signed then ((((s : Int) - 8) / 2) % 2 ^ 64).toNat else (s - 8) / 2)
    toReal := fun _ => (OCI_SUCCESS, 0x3FE0000000000000) }

/-- Native decimal routines for the reading `value_half` that refuse a
conversion out of range: the unsigned conversion of a negative number and the
signed conversion of a number from `2 ^ 63` on fail with `OCI_ERROR`. -/
def decodeNative_strict : DecodeNative :=
  { decodeNative_half with
    toInt := fun s signed =>
      if signed then
        if s < 2 ^ 64 + 8 then decodeNative_half.toInt s true else (OCI_ERROR, 0)
      else
        if 8 ≤ s then decodeNative_half.toInt s false else (OCI_ERROR, 0) }

/-- The state `world_cursor` after a fetch that wrote the storage `v` and the
null indicator `0` into the column of the cursor. -/
def world_row (v : column_value) : World :=
  world_cursor.withCurs (fun ks => ks.modify
    (fun cu => { cu with cols := cu.cols.map (write_row [(0, v)]) }) 0)

/-- The cursor object of `world_row v`. -/
def cur_row (v : column_value) : cur_data :=
  { cur_one with
    cols := some [{ type := SQLT_NUM, name := some "one", namelen := 3, max := 0, null := 0,
                    define := 5002, val := v }] }

/-- Every native call and allocation for the buffer of a column succeeds,
whatever the type of the column is. -/
def ColumnNative.calls_succeed (n : ColumnNative) : Prop :=
  passes n.paramGetStatus ∧ passes n.nameStatus ∧ passes n.typeStatus ∧ n.strndup_ok = true ∧
    passes n.sizeStatus ∧ n.calloc % 2 ^ 64 ≠ NULL ∧ passes n.descriptorStatus ∧
    passes n.defineStatus ∧ passes n.charsetStatus

/-- Every native call and allocation of a cursor creation succeeds, whatever
the types of the columns `1 .. numcols` are. -/
def CursorNative.calls_succeed (n : CursorNative) : Prop :=
  n.strdup_ok = true ∧ passes n.errAllocStatus ∧ passes n.countStatus ∧ n.calloc_ok = true ∧
    ∀ i, 1 ≤ i → i ≤ n.numcols → (n.column i).calls_succeed

/-- The computation, whether it returns or raises, leaves a state that is in
relation `R` to the state it started in. -/
def Frame (R : World → World → Prop) {α : Type} (m : Lua α) : Prop :=
  ∀ w, R w (m w).world

/-- When the computation raises, the state it leaves is in relation `R` to the
state it started in. -/
def RaiseFrame (R : World → World → Prop) {α : Type} (m : Lua α) : Prop :=
  ∀ w e w1, m w = .raise e w1 → R w w1

/-- The connection objects of `w1` are those of `w`. -/
def SameConns (w w1 : World) : Prop :=
  w1.conns = w.conns

/-- The record of calls of `w1` is that of `w` followed by calls that all
satisfy `P`. -/
def Adds (P : NativeCall → Prop) (w w1 : World) : Prop :=
  ∃ l, w1.calls = w.calls ++ l ∧ ∀ x ∈ l, P x

/-- The native calls that make a statement handle ready for execution: the
allocation of the handle and the prepare. -/
def NativeCall.prepares : NativeCall → Bool
  | .OCIHandleAlloc .STMT => true
  | .OCIStmtPrepare _ _ => true
  | _ => false

/-- The connection of `world_cursor`. -/
def conn_cursor : conn_data :=
  { conn_connected with cur_counter := 1 }

/-- Answers of a native library that accepts the asynchronous login with a
warning: the session begins with `OCI_SUCCESS_WITH_INFO` (as for a password
that is about to expire), every other call returns `OCI_SUCCESS`. -/
def loginNative_info : LoginNative :=
  { loginNative_ok with sessionBeginStatus := OCI_SUCCESS_WITH_INFO }

/-- The state in which the login thread of the connection handle 0 has ended
after the native session begin answered `OCI_SUCCESS_WITH_INFO`. -/
def world_info : World :=
  run true
    [ .create_environment envNative_ok,
      .env_connect_async 0 "db" "u" "p" none 0,
      .async_open 0 loginNative_info ]
    World.empty

/-- When the computation starts in a state with `P` and returns, it returns in
a state with `Q`. -/
def Triple {α : Type} (P : World → Prop) (m : Lua α) (Q : World → Prop) : Prop :=
  ∀ w, P w → ∀ a w1, m w = .ok a w1 → Q w1

/-- The computation raises, whatever state it starts in. -/
def Raises {α : Type} (m : Lua α) : Prop :=
  ∀ w, ∃ e w1, m w = .raise e w1

/-- The property `p` of the cursor objects holds in `w1` when it holds in
`w`. -/
def Preserves (p : List cur_data → Prop) (w w1 : World) : Prop :=
  p w.curs → p w1.curs

/-- Column `i` of the cursor object at `k`, when there is one, has the type
tag `ty`. -/
def ColType (k i ty : Nat) (ks : List cur_data) : Prop :=
  ∀ cu c, ks[k]? = some cu → (cu.cols.getD [])[i - 1]? = some c → c.type = ty

/-- The cursor object at `k` is open, belongs to the connection object at `c`
and has an array of `n` columns. -/
def Shape (k c n : Nat) (ks : List cur_data) : Prop :=
  ∃ cu l, ks[k]? = some cu ∧ cu.closed = 0 ∧ cu.conn = c ∧ cu.numcols = n ∧
    cu.cols = some l ∧ l.length = n

/-- The computation does not raise the error `msg`. -/
def Avoids {α : Type} (msg : String) (m : Lua α) : Prop :=
  ∀ w w1, m w ≠ .raise (.error msg) w1

/-- The decimal storage of the number 1 in the format of the native library:
the length byte 2, the exponent byte `0xC1` and the mantissa byte `0x02`. -/
def ociNumber_one : Nat := 0x02C102

/-- The decimal storage of the number 0: the length byte 1 and the exponent
byte `0x80`. -/
def ociNumber_zero : Nat := 0x8001

/-- Native decimal routines that know the storages of 0 and of 1 and report an
error for a storage that is neither. -/
def decodeNative_small : DecodeNative :=
  { decodeNative_zero with
    isInt := fun s =>
      if s = ociNumber_one ∨ s = ociNumber_zero then (OCI_SUCCESS, true) else (OCI_ERROR, false)
    fromInt := fun z => if z = 0 then (OCI_SUCCESS, ociNumber_zero) else (OCI_ERROR, 0)
    cmp := fun s t =>
      if s = ociNumber_one ∧ t = ociNumber_zero then (OCI_SUCCESS, 1)
      else if s = t then (OCI_SUCCESS, 0)
      else if s = ociNumber_zero ∧ t = ociNumber_one then (OCI_SUCCESS, -1)
      else (OCI_ERROR, 0)
    toInt := fun s _ =>
      if s = ociNumber_one then (OCI_SUCCESS, 1)
      else if s = ociNumber_zero then (OCI_SUCCESS, 0)
      else (OCI_ERROR, 0)
    toReal := fun s =>
      if s = ociNumber_one then (OCI_SUCCESS, 0x3FF0000000000000)
      else if s = ociNumber_zero then (OCI_SUCCESS, 0)
      else (OCI_ERROR, 0) }

/-- The Lua tables of `w` are still there in `w1`, unchanged; `w1` may have
further tables. -/
def TablesFrame (w w1 : World) : Prop :=
  w.tables.length ≤ w1.tables.length ∧ ∀ t, t < w.tables.length → w1.tables[t]? = w.tables[t]?

/-- When `t` is a table of `w`, it is a table of `w1` and has the same value
under `key`. -/
def KeepsKey (t : Nat) (key : LuaKey) (w w1 : World) : Prop :=
  t < w.tables.length →
    t < w1.tables.length ∧ (w1.tables.getD t []).get key = (w.tables.getD t []).get key

/-- The state `world_cursor` after the Lua program has made an empty table,
the table 0. -/
def world_container : World :=
  world_cursor.withTables (fun ts => ts ++ [[]])

/-- Answers of a fetch that finds a row: the decimal storage `v` is written
into the column, which is not null. -/
def fetchNative_row (v : column_value) (n : DecodeNative) : FetchNative :=
  { status := OCI_SUCCESS, row := [(0, v)], stack_ok := true, decode := n }

/-- The cursor object at `k` has no cached table of column names, types or
descriptions. -/
def NoRefs (k : Nat) (ks : List cur_data) : Prop :=
  ∃ cu, ks[k]? = some cu ∧ cu.colnames = LUA_NOREF ∧ cu.coltypes = LUA_NOREF ∧
    cu.columns = LUA_NOREF

/-! ## Counters and open handle objects -/

/-- The connection object a cursor object points to, and its `closed` flag. -/
def cur_owner_closed (cu : cur_data) : Nat × Int :=
  (cu.conn, cu.closed)

/-- The environment object a connection object points to, and its `closed`
flag. -/
def conn_owner_closed (cn : conn_data) : Nat × Int :=
  (cn.env, cn.closed)

/-- The number of cursor objects that point to the connection object at `c`
and are not closed. -/
def open_cursors (c : Nat) (w : World) : Nat :=
  w.curs.countP (fun cu => decide (cu.conn = c) && decide (cu.closed = 0))

/-- The number of connection objects that point to the environment object at
`e` and are not closed. -/
def open_connections (e : Nat) (w : World) : Nat :=
  w.conns.countP (fun cn => decide (cn.env = e) && decide (cn.closed = 0))

/-- Every `cur_counter` is the number of cursor objects of its connection
object that are not closed, and every `conn_counter` is the number of
connection objects of its environment object that are not closed. -/
def CountersExact (w : World) : Prop :=
  (∀ c conn, w.conns[c]? = some conn → conn.cur_counter = (open_cursors c w : Int)) ∧
  (∀ e env, w.envs[e]? = some env → env.conn_counter = (open_connections e w : Int))

/-- The cursor objects of `w1` point to the same connection objects and have
the same `closed` flags as those of `w`. -/
def SameOwners (w w1 : World) : Prop :=
  w1.curs.map cur_owner_closed = w.curs.map cur_owner_closed

/-- The environment objects of `w1` are those of `w`, and its connection
objects are those of `w`, with the environment object and `closed` flag they
had, followed by connection objects that are closed. -/
def ClosedAdded (w w1 : World) : Prop :=
  w1.envs = w.envs ∧
    ∃ l, w1.conns.map conn_owner_closed = w.conns.map conn_owner_closed ++ l ∧
      ∀ p ∈ l, p.2 ≠ 0

/-- A cursor creation that raises partway: on an open Connection, a query on a
column of a type without decoding rule (a BLOB) raises in `create_cursor`. -/
def ops_failed_creation : List Op :=
  [ .create_environment envNative_ok,
    .env_connect 0 "db" "u" "p" connectNative_ok,
    .conn_execute 0 "SELECT b FROM t" none (executeNative_query 3100 OCI_SUCCESS SQLT_BLOB) ]

/-- The operations of `ops_failed_creation`, followed by the finalizer of the
Cursor object that the creation left behind. -/
def ops_failed_creation_finalized : List Op :=
  ops_failed_creation ++ [.cur_close 0]

/-- Answers of a native library that succeeds in creating a second
environment. -/
def envNative_second : EnvNative :=
  { envCreateStatus := OCI_SUCCESS, envhp := 1100, errAllocStatus := OCI_SUCCESS, errhp := 1101 }

/-- An asynchronous login that is started on one Environment and joined on
another: two Environments are created, `connect_async` on Environment 0 gives
the handle 0, the login thread runs to its end, and `connect_async` is called
on Environment 1 with the handle. -/
def ops_foreign_join : List Op :=
  [ .create_environment envNative_ok,
    .create_environment envNative_second,
    .env_connect_async 0 "db" "u" "p" none 0,
    .async_open 0 loginNative_ok,
    .env_connect_async 1 "db" "u" "p" (some 0) 0 ]

/-- The operations of `ops_foreign_join`, followed by `close` of the
Connection. -/
def ops_foreign_join_closed : List Op :=
  ops_foreign_join ++ [.conn_close 0]

/-- The table `tb` holds the fields of the date and time the native library
reads from the descriptor `d`: `year`, `month` and `day` as `OCIDateTimeGetDate`
gives them, `hour`, `min`, `sec` and `fsec` as `OCIDateTimeGetTime` does. -/
def DateFields (n : DecodeNative) (d : Nat) (tb : LuaTable) : Prop :=
  tb.get (.str "year") = .number (.ofInt (n.getDate d).2.1) ∧
  tb.get (.str "month") = .number (.ofInt (n.getDate d).2.2.1) ∧
  tb.get (.str "day") = .number (.ofInt (n.getDate d).2.2.2) ∧
  tb.get (.str "hour") = .number (.ofInt (n.getTime d).2.1) ∧
  tb.get (.str "min") = .number (.ofInt (n.getTime d).2.2.1) ∧
  tb.get (.str "sec") = .number (.ofInt (n.getTime d).2.2.2.1) ∧
  tb.get (.str "fsec") = .number (.ofInt (n.getTime d).2.2.2.2)

/-- Whenever the computation returns, it returns the value `a`. -/
def Returns {α : Type} (m : Lua α) (a : α) : Prop :=
  ∀ w v w1, m w = .ok v w1 → v = a

/-- The state `world_connected` after a query with one TIMESTAMP column has
given Cursor 0. -/
def world_stamp : World :=
  (conn_execute 0 "SELECT ts AS one FROM t" none
    (executeNative_query 3000 OCI_SUCCESS SQLT_TIMESTAMP) world_connected).world

/-- The cursor of `world_stamp`; the column holds the descriptor 5001. -/
def cur_stamp : cur_data :=
  { closed := 0, conn := 0, numcols := 1, colnames := LUA_NOREF, coltypes := LUA_NOREF,
    columns := LUA_NOREF, text := some "SELECT ts AS one FROM t", stmthp := 3000,
    errhp := 3001,
    cols := some [{ type := SQLT_TIMESTAMP, name := some "one", namelen := 3, max := 0,
                    null := 0, define := 5002, val := 5001 }] }

/-- Whenever the computation returns, it has added calls to the record of
calls, the call `c` among them. -/
def Logs {α : Type} (c : NativeCall) (m : Lua α) : Prop :=
  ∀ w a w1, m w = .ok a w1 → ∃ l, w1.calls = w.calls ++ l ∧ c ∈ l

/-- The call is not a define call, or it is the define call of position `pos`
on the statement `stmthp` that binds the buffer `b` with the external type
`dty`. -/
def NativeCall.defines (stmthp pos : Nat) (b : Buffer) (dty : Nat) : NativeCall → Bool
  | .OCIDefineByPos s p b1 d => s = stmthp && p = pos && b1 = b && d = dty
  | _ => true

/-- Between the states `w` and `w1` the buffer `b` was bound to position `pos`
of the statement `stmthp` with the external type `dty`: that define call was
added to the record of calls, and no other define call was. -/
def Bound (stmthp pos : Nat) (b : Buffer) (dty : Nat) (w w1 : World) : Prop :=
  ∃ l, w1.calls = w.calls ++ l ∧ NativeCall.OCIDefineByPos stmthp pos b dty ∈ l ∧
    ∀ x ∈ l, x.defines stmthp pos b dty = true

/-! ## Evaluation lemmas -/

@[simp] theorem withEnvs_eq (w : World) (f : List env_data → List env_data) :
    w.withEnvs f = { w with envs := f w.envs } := rfl

@[simp] theorem withConns_eq (w : World) (f : List conn_data → List conn_data) :
    w.withConns f = { w with conns := f w.conns } := rfl

@[simp] theorem withCurs_eq (w : World) (f : List cur_data → List cur_data) :
    w.withCurs f = { w with curs := f w.curs } := rfl

@[simp] theorem withThreads_eq (w : World) (f : List thread_data → List thread_data) :
    w.withThreads f = { w with threads := f w.threads } := rfl

@[simp] theorem withTables_eq (w : World) (f : List LuaTable → List LuaTable) :
    w.withTables f = { w with tables := f w.tables } := rfl

@[simp] theorem withRegistry_eq (w : World)
    (f : List (Option LuaValue) → List (Option LuaValue)) :
    w.withRegistry f = { w with registry := f w.registry } := rfl

@[simp] theorem withCalls_eq (w : World) (f : List NativeCall → List NativeCall) :
    w.withCalls f = { w with calls := f w.calls } := rfl

theorem bind_eq {α β : Type} (m : Lua α) (f : α → Lua β) : (m >>= f) = Lua.bind m f := rfl

theorem pure_eq {α : Type} (a : α) : (pure a : Lua α) = Lua.pure a := rfl

theorem call_eq (c : NativeCall) (w : World) :
    call c w = .ok () { w with calls := w.calls ++ [c] } := rfl

theorem modifyEnv_eq (e : Nat) (f : env_data → env_data) (w : World) :
    modifyEnv e f w = .ok () { w with envs := w.envs.modify f e } := rfl

theorem modifyConn_eq (c : Nat) (f : conn_data → conn_data) (w : World) :
    modifyConn c f w = .ok () { w with conns := w.conns.modify f c } := rfl

theorem modifyCur_eq (k : Nat) (f : cur_data → cur_data) (w : World) :
    modifyCur k f w = .ok () { w with curs := w.curs.modify f k } := rfl

theorem newCursor_eq (cur : cur_data) (w : World) :
    newCursor cur w = .ok () { w with curs := w.curs ++ [cur] } := rfl

theorem free_column_buffers_eq (k i : Nat) (w : World) :
    ∃ cs, free_column_buffers k i w = .ok () { w with calls := w.calls ++ cs } := by
  unfold free_column_buffers
  simp only [bind_eq, Lua.bind, theCursor]
  split_ifs <;> (try simp only [Lua.bind, call_eq, pure_eq, Lua.pure, List.append_assoc]) <;>
    first | exact ⟨_, rfl⟩ | exact ⟨[], by simp⟩

theorem for_each_free_eq (k : Nat) (l : List Nat) (w : World) :
    ∃ cs, for_each (free_column_buffers k) l w = .ok () { w with calls := w.calls ++ cs } := by
  induction l generalizing w with
  | nil => exact ⟨[], by simp [for_each, Lua.pure]⟩
  | cons i rest ih =>
    obtain ⟨cs, h⟩ := free_column_buffers_eq k i w
    obtain ⟨cs2, h2⟩ := ih { w with calls := w.calls ++ cs }
    refine ⟨cs ++ cs2, ?_⟩
    simp only [for_each, Lua.bind, h, h2, List.append_assoc]

theorem env_close_eval (w : World) (e : Nat) (env : env_data) (he : w.envs[e]? = some env)
    (h0 : env.closed = 0) (hc : ¬ 0 < env.conn_counter) :
    env_close e w = .ok [.boolean true]
      { w with
        envs := w.envs.modify (fun en => { en with closed := 1 }) e
        calls := (w.calls ++ (if env.envhp ≠ NULL then [.OCIHandleFree env.envhp .ENV] else []))
          ++ (if env.errhp ≠ NULL then [.OCIHandleFree env.errhp .ERROR] else []) } := by
  unfold env_close
  simp only [he, h0, hc, ne_eq, not_true_eq_false, if_false, bind_eq, Lua.bind, modifyEnv_eq,
    pure_eq]
  split_ifs <;> simp [Lua.bind, call_eq, Lua.pure]

/-- C9: the function `env_close` has exactly three outcomes.  On a closed
Environment it returns false and changes nothing; on an open Environment with
`conn_counter > 0` it raises "there are open connections" and changes nothing;
on an open Environment with `conn_counter = 0` it marks the Environment closed
and returns true.  Every call on an Environment ends in one of the three. -/
theorem env_close_three_outcomes (w : World) (e : Nat) (env : env_data)
    (he : w.envs[e]? = some env) :
    (env.closed ≠ 0 → env_close e w = .ok [.boolean false] w) ∧
    (env.closed = 0 → 0 < env.conn_counter →
      env_close e w = .raise (.error (LUASQL_PREFIX ++ "there are open connections")) w) ∧
    (env.closed = 0 → env.conn_counter = 0 →
      ∃ w1, env_close e w = .ok [.boolean true] w1 ∧
        w1.envs[e]? = some { env with closed := 1 } ∧
        w1.envs = w.envs.modify (fun en => { en with closed := 1 }) e ∧
        w1.conns = w.conns ∧ w1.curs = w.curs) ∧
    (env_close e w = .ok [.boolean false] w ∨
      env_close e w = .raise (.error (LUASQL_PREFIX ++ "there are open connections")) w ∨
      ∃ w1, env_close e w = .ok [.boolean true] w1 ∧
        w1.envs[e]? = some { env with closed := 1 }) := by
  refine ⟨?_, ?_, ?_, ?_⟩
  · intro h
    unfold env_close
    simp [he, h]
  · intro h0 hc
    unfold env_close
    simp [he, h0, hc]
  · intro h0 hc
    exact ⟨_, env_close_eval w e env he h0 (by omega), by simp [he], rfl, rfl, rfl⟩
  · by_cases h0 : env.closed = 0
    · by_cases hc : 0 < env.conn_counter
      · right; left
        unfold env_close
        simp [he, h0, hc]
      · right; right
        exact ⟨_, env_close_eval w e env he h0 hc, by simp [he]⟩
    · left
      unfold env_close
      simp [he, h0]

/-- Witness of `env_close_three_outcomes`: the environment of `world_connected`
is open and has one open connection, so closing it raises. -/
theorem env_close_three_outcomes_witness :
    world_connected.envs[0]?
        = some { closed := 0, conn_counter := 1, envhp := 1000, errhp := 1001 } ∧
      env_close 0 world_connected
        = .raise (.error (LUASQL_PREFIX ++ "there are open connections")) world_connected :=
  ⟨rfl,
    (env_close_three_outcomes world_connected 0
      { closed := 0, conn_counter := 1, envhp := 1000, errhp := 1001 } rfl).2.1
      (by decide) (by decide)⟩

theorem luaL_unref_eq (r : Int) (w : World) :
    luaL_unref r w = .ok ()
      { w with registry := if 0 < r then w.registry.set (r.toNat - 1) none else w.registry } := by
  unfold luaL_unref
  split_ifs <;> simp

theorem conn_close_eval (w : World) (c : Nat) (conn : conn_data) (hc : w.conns[c]? = some conn)
    (h0 : conn.closed = 0) (hn : ¬ 0 < conn.cur_counter) :
    ∃ cs, conn_close c w = .ok [.boolean true]
      { w with
        conns := w.conns.modify (fun cn =>
          { cn with closed := 1, srvhp := NULL, svchp := NULL, authp := NULL, errhp := NULL }) c
        envs := w.envs.modify (fun en => { en with conn_counter := en.conn_counter - 1 }) conn.env
        calls := w.calls ++ cs } := by
  unfold conn_close
  simp only [hc, h0, hn, ne_eq, not_true_eq_false, if_false, bind_eq, Lua.bind, modifyEnv_eq,
    modifyConn_eq, pure_eq, call_eq]
  split_ifs <;> simp only [Lua.bind, call_eq, Lua.pure, List.append_assoc] <;> exact ⟨_, rfl⟩

/-- C1: the function `conn_close` on an open Connection.  With
`cur_counter > 0` it raises "there are open cursors" and the state is the one
before the call (Connection and Environment unchanged, no native call made, so
no handle freed).  With `cur_counter = 0` it returns true, the Connection is
marked closed and the `conn_counter` of its Environment is one less; no other
Connection, Environment or Cursor changes. -/
theorem conn_close_open (w : World) (c : Nat) (conn : conn_data)
    (hc : w.conns[c]? = some conn) (hopen : conn.closed = 0) :
    (0 < conn.cur_counter →
      conn_close c w = .raise (.error (LUASQL_PREFIX ++ "there are open cursors")) w) ∧
    (conn.cur_counter = 0 →
      ∃ w1, conn_close c w = .ok [.boolean true] w1 ∧
        w1.conns[c]? = some { conn with closed := 1, srvhp := NULL, svchp := NULL,
                                        authp := NULL, errhp := NULL } ∧
        (∀ c1, c1 ≠ c → w1.conns[c1]? = w.conns[c1]?) ∧
        (∀ env, w.envs[conn.env]? = some env →
          w1.envs[conn.env]? = some { env with conn_counter := env.conn_counter - 1 }) ∧
        (∀ e1, e1 ≠ conn.env → w1.envs[e1]? = w.envs[e1]?) ∧
        w1.curs = w.curs) := by
  constructor
  · intro h
    unfold conn_close
    simp [hc, hopen, h]
  · intro h
    obtain ⟨cs, hcs⟩ := conn_close_eval w c conn hc hopen (by omega)
    refine ⟨_, hcs, ?_, ?_, ?_, ?_, rfl⟩
    · simp [hc]
    · intro c1 h1
      simp [List.getElem?_modify_ne _ _ (Ne.symm h1)]
    · intro env he
      simp [he]
    · intro e1 h1
      simp [List.getElem?_modify_ne _ _ (Ne.symm h1)]

/-- Witness of `conn_close_open`: the connection of `world_connected` is open
and has no cursor; closing it returns true and leaves it closed. -/
theorem conn_close_open_witness :
    world_connected.conns[0]? = some conn_connected ∧ conn_connected.closed = 0 ∧
      conn_connected.cur_counter = 0 ∧
      ∃ w1, conn_close 0 world_connected = .ok [.boolean true] w1 ∧
        w1.conns[0]? = some { conn_connected with closed := 1, srvhp := NULL, svchp := NULL,
                                                  authp := NULL, errhp := NULL } :=
  ⟨rfl, rfl, rfl,
    match (conn_close_open world_connected 0 conn_connected rfl rfl).2 rfl with
    | ⟨w1, h1, h2, _⟩ => ⟨w1, h1, h2⟩⟩

theorem cur_close_eval (w : World) (k : Nat) (cur : cur_data) (hk : w.curs[k]? = some cur)
    (h0 : cur.closed = 0) :
    ∃ cs reg, cur_close k w = .ok [.boolean true]
      { w with
        curs := w.curs.modify (fun cu =>
          { cu with closed := 1, colnames := LUA_NOREF, coltypes := LUA_NOREF,
                    columns := LUA_NOREF }) k
        conns := w.conns.modify (fun cn => { cn with cur_counter := cn.cur_counter - 1 }) cur.conn
        registry := reg
        calls := w.calls ++ cs } := by
  unfold cur_close
  obtain ⟨cs, hcs⟩ := for_each_free_eq k (List.range' 1 cur.numcols) w
  simp only [hk, h0, ne_eq, not_true_eq_false, if_false, bind_eq, Lua.bind, hcs, modifyCur_eq,
    modifyConn_eq, pure_eq, luaL_unref_eq]
  split_ifs <;>
    simp only [Lua.bind, call_eq, Lua.pure, List.append_assoc, luaL_unref_eq] <;>
    exact ⟨_, _, rfl⟩

theorem reachable_run (b : Bool) (ops : List Op) (w : World) (h : Reachable b w) :
    Reachable b (run b ops w) := by
  induction ops generalizing w with
  | nil => exact h
  | cons op rest ih => exact ih _ (Reachable.next op w h)

/-- C2: a state reached through the public operations in which a Connection is
closed while one of its Cursors is open.  After `ops_close_under_cursor`
(a query; a second query that raises during cursor creation; the finalizer of
the Cursor object left behind; `close` of the Connection), Connection 0 is
closed and Cursor 0, which belongs to it, is open. -/
theorem conn_closed_under_open_cursor :
    Reachable true (run true ops_close_under_cursor World.empty) ∧
      (run true ops_close_under_cursor World.empty).curs[0]? = some cur_one ∧
      cur_one.closed = 0 ∧ cur_one.conn = 0 ∧
      ((run true ops_close_under_cursor World.empty).conns[0]?).map (fun cn => cn.closed)
        = some 1 :=
  ⟨reachable_run true _ _ Reachable.start, rfl, rfl, rfl, rfl⟩

theorem getcursor_open (w : World) (k : Nat) (cur : cur_data) (hk : w.curs[k]? = some cur)
    (h0 : cur.closed = 0) : getcursor k w = .ok cur w := by
  unfold getcursor
  simp [hk, h0]

theorem getcursor_closed (w : World) (k : Nat) (cur : cur_data) (hk : w.curs[k]? = some cur)
    (h0 : cur.closed ≠ 0) :
    getcursor k w = .raise (.argerror 1 (LUASQL_PREFIX ++ "cursor is closed")) w := by
  unfold getcursor
  simp [hk, h0]

theorem cur_fetch_no_data_eval (b : Bool) (w : World) (k : Nat) (cur : cur_data)
    (arg2 : LuaValue) (arg3 : Option String) (n : FetchNative)
    (hk : w.curs[k]? = some cur) (h0 : cur.closed = 0) (hn : n.status = OCI_NO_DATA) :
    ∃ cs reg cols, cur_fetch b k arg2 arg3 n w = .ok [.nil]
      { w with
        curs := w.curs.set k
          { cur with closed := 1, colnames := LUA_NOREF, coltypes := LUA_NOREF,
                     columns := LUA_NOREF, cols := cols }
        conns := w.conns.modify (fun cn => { cn with cur_counter := cn.cur_counter - 1 }) cur.conn
        registry := reg
        calls := w.calls ++ cs } := by
  have hne : OCI_NO_DATA ≠ OCI_STILL_EXECUTING := by decide
  obtain ⟨cs, reg, h⟩ := cur_close_eval
    { w with
      calls := w.calls ++ [.OCIStmtFetch cur.stmthp]
      curs := w.curs.modify (fun cu => { cu with cols := cu.cols.map (write_row n.row) }) k }
    k { cur with cols := cur.cols.map (write_row n.row) } (by simp [hk]) h0
  refine ⟨[.OCIStmtFetch cur.stmthp] ++ cs, reg, cur.cols.map (write_row n.row), ?_⟩
  unfold cur_fetch
  simp only [bind_eq, Lua.bind, getcursor_open w k cur hk h0, call_eq, modifyCur_eq, hn, hne,
    if_false, if_true, h, pure_eq, Lua.pure, List.append_assoc]
  have hlt : k < w.curs.length := by
    rcases Nat.lt_or_ge k w.curs.length with hlt | hge
    · exact hlt
    · rw [List.getElem?_eq_none hge] at hk
      cases hk
  have hget : w.curs[k] = cur := by
    rw [List.getElem?_eq_getElem hlt] at hk
    exact Option.some.inj hk
  congr 2
  apply List.ext_getElem?
  intro m
  by_cases hm : k = m
  · subst hm
    simp [hlt, hget]
  · simp [List.getElem?_modify_ne _ _ hm, List.getElem?_set_ne hm]

theorem ASSERT_OCI_passes (status : Int) (errhp : Nat) (h : passes status) :
    ASSERT_OCI status errhp = Lua.pure () := by
  rcases h with h | h <;> subst h <;> simp [ASSERT_OCI, OCI_SUCCESS, OCI_SUCCESS_WITH_INFO, pure_eq]

theorem modifyCol_eq (k i : Nat) (f : column_data → column_data) (w : World) :
    modifyCol k i f w = .ok () (w.withCurs (fun ks => ks.modify
      (fun cur => { cur with cols := cur.cols.map (fun cs => cs.modify f (i - 1)) }) k)) :=
  rfl

theorem colsFrame_refl (k : Nat) (w : World) : ColsFrame k w w :=
  ⟨rfl, rfl, rfl, rfl, fun _ _ => rfl, fun cu h => ⟨cu.cols, h⟩⟩

theorem colsFrame_trans {k : Nat} {w w1 w2 : World} (h1 : ColsFrame k w w1)
    (h2 : ColsFrame k w1 w2) : ColsFrame k w w2 := by
  obtain ⟨a1, b1, c1, d1, e1, f1⟩ := h1
  obtain ⟨a2, b2, c2, d2, e2, f2⟩ := h2
  refine ⟨a2.trans a1, b2.trans b1, c2.trans c1, d2.trans d1, ?_, ?_⟩
  · intro j hj
    rw [e2 j hj, e1 j hj]
  · intro cu hcu
    obtain ⟨cols, h⟩ := f1 cu hcu
    obtain ⟨cols2, h'⟩ := f2 _ h
    exact ⟨cols2, h'⟩

theorem colsFrame_call (k : Nat) (w : World) (cs : List NativeCall) :
    ColsFrame k w { w with calls := w.calls ++ cs } :=
  ⟨rfl, rfl, rfl, rfl, fun _ _ => rfl, fun cu h => ⟨cu.cols, h⟩⟩

theorem colsFrame_modifyCol (k : Nat) (w : World)
    (g : Option (List column_data) → Option (List column_data)) :
    ColsFrame k w
      { w with curs := w.curs.modify (fun cur => { cur with cols := g cur.cols }) k } := by
  refine ⟨rfl, rfl, rfl, by simp, ?_, ?_⟩
  · intro j hj
    simp [List.getElem?_modify_ne _ _ (Ne.symm hj)]
  · intro cu hcu
    exact ⟨g cu.cols, by simp [hcu]⟩

theorem okCols_bind {α β : Type} {k : Nat} {m : Lua α} {f : α → Lua β} (hm : OkCols k m)
    (hf : ∀ a, OkCols k (f a)) : OkCols k (Lua.bind m f) := by
  intro w
  obtain ⟨a, w1, h1, r1⟩ := hm w
  obtain ⟨b, w2, h2, r2⟩ := hf a w1
  exact ⟨b, w2, by simp [Lua.bind, h1, h2], colsFrame_trans r1 r2⟩

theorem okCols_pure {α : Type} (k : Nat) (a : α) : OkCols k (Lua.pure a) :=
  fun w => ⟨a, w, rfl, colsFrame_refl k w⟩

theorem okCols_call (k : Nat) (c : NativeCall) : OkCols k (call c) :=
  fun w => ⟨(), _, call_eq c w, colsFrame_call k w [c]⟩

theorem okCols_theCursor (k j : Nat) : OkCols k (theCursor j) :=
  fun w => ⟨_, w, rfl, colsFrame_refl k w⟩

theorem okCols_modifyCol (k i : Nat) (f : column_data → column_data) :
    OkCols k (modifyCol k i f) := by
  intro w
  refine ⟨(), _, modifyCol_eq k i f w, ?_⟩
  rw [withCurs_eq]
  exact colsFrame_modifyCol k w
    (fun cols => cols.map (fun cs : List column_data => cs.modify f (i - 1)))

theorem okCols_assert_oci (k : Nat) (status : Int) (errhp : Nat) (h : passes status) :
    OkCols k (ASSERT_OCI status errhp) := by
  rw [ASSERT_OCI_passes status errhp h]
  exact okCols_pure k ()

theorem okCols_assert_ptr (k : Nat) (p : Nat) (h : p ≠ NULL) : OkCols k (ASSERT_PTR p) := by
  unfold ASSERT_PTR
  simp only [h, if_false, pure_eq]
  exact okCols_pure k ()

theorem alloc_column_buffer_ok (k i : Nat) (n : ColumnNative) (h : n.succeeds) :
    OkCols k (alloc_column_buffer k i n) := by
  obtain ⟨h1, h2, h3, h4, h5, h6, h7, h8⟩ := h
  unfold alloc_column_buffer copy_column_name
  simp only [bind_eq, pure_eq, h4, if_true]
  simp only [supported, Bool.or_eq_true, decide_eq_true_eq] at h5
  have one : (1 : Nat) ≠ NULL := by decide
  repeat' first
    | exact okCols_call _ _
    | exact okCols_theCursor _ _
    | exact okCols_modifyCol _ _ _
    | exact okCols_assert_oci _ _ _ (by assumption)
    | exact okCols_assert_ptr _ _ (by assumption)
    | exact okCols_assert_oci _ _ _ (h6 (by assumption)).1
    | exact okCols_assert_oci _ _ _ (h6 (by assumption)).2.2
    | exact okCols_assert_ptr _ _ (h6 (by assumption)).2.1
    | exact okCols_assert_oci _ _ _ (h7 (Or.inl (by assumption)))
    | exact okCols_assert_oci _ _ _ (h7 (Or.inr (by assumption)))
    | exact okCols_pure _ _
    | refine okCols_bind ?_ (fun _ => ?_)
    | split_ifs
    | (exfalso; tauto)

theorem ASSERT_PTR_ok (p : Nat) (h : p ≠ NULL) : ASSERT_PTR p = Lua.pure () := by
  unfold ASSERT_PTR
  simp only [h, if_false, pure_eq]

theorem alloc_loop_ok (k : Nat) (n : CursorNative) (l : List Nat)
    (h : ∀ i ∈ l, (n.column i).succeeds) :
    OkCols k (for_each (fun i => alloc_column_buffer k i (n.column i)) l) := by
  induction l with
  | nil => exact okCols_pure k ()
  | cons i rest ih =>
    unfold for_each
    exact okCols_bind (alloc_column_buffer_ok k i _ (h i (List.mem_cons_self i rest)))
      (fun _ => ih (fun j hj => h j (List.mem_cons_of_mem i hj)))

theorem modify_append_last {α : Type} (f : α → α) (l : List α) (a : α) :
    (l ++ [a]).modify f l.length = l ++ [f a] := by
  induction l with
  | nil => rfl
  | cons b rest ih => simp [ih]

theorem create_cursor_ok (c stmt : Nat) (text : String) (n : CursorNative) (w : World)
    (h : n.succeeds) :
    ∃ w1 cols, create_cursor c stmt text n w = .ok [.cursor w.curs.length] w1 ∧
      w1.curs = w.curs ++
        [{ closed := 0, conn := c, numcols := n.numcols, colnames := LUA_NOREF,
           coltypes := LUA_NOREF, columns := LUA_NOREF, text := some text, stmthp := stmt,
           errhp := n.errhp, cols := cols }] ∧
      w1.conns = w.conns.modify (fun cn => { cn with cur_counter := cn.cur_counter + 1 }) c ∧
      w1.envs = w.envs := by
  obtain ⟨h1, h2, h3, h4, h5⟩ := h
  have one : (1 : Nat) ≠ NULL := by decide
  have hloop := alloc_loop_ok w.curs.length n (List.range' 1 n.numcols) (by
    intro i hi
    rw [List.mem_range'_1] at hi
    exact h5 i hi.1 (by omega))
  unfold create_cursor
  simp only [bind_eq, Lua.bind, getWorld, newCursor_eq, h1, h4, if_true, ASSERT_PTR_ok 1 one,
    ASSERT_OCI_passes _ _ h2, ASSERT_OCI_passes _ _ h3, Lua.pure, call_eq, modifyCur_eq,
    modifyConn_eq, pure_eq, modify_append_last]
  obtain ⟨a, w2, hw2, e1, e2, e3, e4, e5, e6⟩ := hloop
    { w with
      curs := w.curs ++
        [{ closed := 0, conn := c, numcols := n.numcols, colnames := LUA_NOREF,
           coltypes := LUA_NOREF, columns := LUA_NOREF, text := some text, stmthp := stmt,
           errhp := n.errhp, cols := some (List.replicate n.numcols column_data.zero) }]
      calls := w.calls ++ [.OCIHandleAlloc .ERROR] ++ [.OCIAttrGet stmt .PARAM_COUNT] }
  simp only [List.append_assoc] at hw2 ⊢
  rw [hw2]
  obtain ⟨cols, hcols⟩ := e6 _ (List.getElem?_concat_length _ _)
  refine ⟨_, cols, rfl, ?_, ?_, ?_⟩
  · apply List.ext_getElem?
    intro j
    by_cases hj : j = w.curs.length
    · subst hj
      rw [hcols, List.getElem?_concat_length]
    · rw [e5 j hj]
      rcases Nat.lt_or_ge j w.curs.length with hlt | hge
      · simp [List.getElem?_append_left hlt]
      · have : w.curs.length + 1 ≤ j := by omega
        simp [List.getElem?_eq_none, this]
  · simp [e2]
  · simp [e1]

theorem getconnection_open (w : World) (c : Nat) (conn : conn_data)
    (hc : w.conns[c]? = some conn) (h0 : conn.closed = 0) : getconnection c w = .ok conn w := by
  unfold getconnection
  simp [hc, h0]

theorem int_of_ub4_small (v : Nat) (h : v < 2 ^ 31) : int_of_ub4 v = v := by
  have h1 : v % 2 ^ 32 = v := Nat.mod_eq_of_lt (by omega)
  unfold int_of_ub4
  rw [h1, if_pos h]

theorem int_of_ub4_large (v : Nat) (h1 : 2 ^ 31 ≤ v) (h2 : v < 2 ^ 32) :
    int_of_ub4 v = (v : Int) - 2 ^ 32 := by
  have h3 : v % 2 ^ 32 = v := Nat.mod_eq_of_lt h2
  unfold int_of_ub4
  rw [h3, if_neg (by omega)]

/-- What `conn_execute` returns for a successfully executed statement.  A
non-query returns exactly one value, the number that the C `int` holds into
which the native row count was read; it creates no Cursor and leaves every
Connection, so `cur_counter`, as it is.  A query returns exactly one value, a
new open Cursor of the Connection, and adds one to the `cur_counter` of the
Connection, leaving the other Connections as they are. -/
theorem conn_execute_succeeds (w : World) (c : Nat) (conn : conn_data) (statement : String)
    (token : Option Nat) (n : ExecuteNative)
    (hc : w.conns[c]? = some conn) (hopen : conn.closed = 0) (hn : n.succeeds token) :
    (n.type ≠ OCI_STMT_SELECT →
      ∃ w1, conn_execute c statement token n w =
          .ok [.number (.ofInt (int_of_ub4 n.rows_affected))] w1 ∧
        w1.curs = w.curs ∧ w1.conns = w.conns ∧ w1.envs = w.envs) ∧
    (n.type = OCI_STMT_SELECT →
      ∃ w1 cur, conn_execute c statement token n w = .ok [.cursor w.curs.length] w1 ∧
        w1.curs = w.curs ++ [cur] ∧ cur.closed = 0 ∧ cur.conn = c ∧
        w1.conns[c]? = some { conn with cur_counter := conn.cur_counter + 1 } ∧
        (∀ c1, c1 ≠ c → w1.conns[c1]? = w.conns[c1]?) ∧ w1.envs = w.envs) := by
  obtain ⟨h1, h4, h5, h6, h7⟩ := hn
  have e1 : n.executeStatus ≠ OCI_STILL_EXECUTING := by
    rcases h5 with h | h <;> rw [h] <;> decide
  have e2 : ¬ (n.executeStatus ≠ 0 ∧ n.executeStatus ≠ OCI_NO_DATA) := by
    rcases h5 with h | h <;> rw [h] <;> decide
  constructor
  · intro hq
    have h6 := h6 hq
    cases token with
    | none =>
      obtain ⟨a1, a2, a3⟩ := h1 rfl
      unfold conn_execute
      simp only [bind_eq, Lua.bind, getconnection_open w c conn hc hopen, call_eq, pure_eq,
        Lua.pure, ASSERT_OCI_passes _ _ a1, ASSERT_OCI_passes _ _ a2, ASSERT_OCI_passes _ _ a3,
        ASSERT_OCI_passes _ _ h4, ASSERT_OCI_passes _ _ h6, e1, e2, hq, if_false]
      exact ⟨_, rfl, rfl, rfl, rfl⟩
    | some t =>
      unfold conn_execute
      simp only [bind_eq, Lua.bind, getconnection_open w c conn hc hopen, call_eq, pure_eq,
        Lua.pure, ASSERT_OCI_passes _ _ h4, ASSERT_OCI_passes _ _ h6, e1, e2, hq, if_false]
      exact ⟨_, rfl, rfl, rfl, rfl⟩
  · intro hq
    have h7 := h7 hq
    have key : ∀ (stmthp : Nat) (w0 : World), w0.curs = w.curs → w0.conns = w.conns →
        w0.envs = w.envs →
        ∃ w1 cur, create_cursor c stmthp statement n.cursor w0 = .ok [.cursor w.curs.length] w1 ∧
          w1.curs = w.curs ++ [cur] ∧ cur.closed = 0 ∧ cur.conn = c ∧
          w1.conns[c]? = some { conn with cur_counter := conn.cur_counter + 1 } ∧
          (∀ c1, c1 ≠ c → w1.conns[c1]? = w.conns[c1]?) ∧ w1.envs = w.envs := by
      intro stmthp w0 k1 k2 k3
      obtain ⟨w1, cols, r1, r2, r3, r4⟩ := create_cursor_ok c stmthp statement n.cursor w0 h7
      rw [k1] at r1 r2
      rw [k2] at r3
      rw [k3] at r4
      refine ⟨w1, _, r1, r2, rfl, rfl, ?_, ?_, r4⟩
      · rw [r3]
        simp [hc]
      · intro c1 hc1
        rw [r3]
        simp [List.getElem?_modify_ne _ _ (Ne.symm hc1)]
    cases token with
    | none =>
      obtain ⟨a1, a2, a3⟩ := h1 rfl
      unfold conn_execute
      simp only [bind_eq, Lua.bind, getconnection_open w c conn hc hopen, call_eq, pure_eq,
        Lua.pure, ASSERT_OCI_passes _ _ a1, ASSERT_OCI_passes _ _ a2, ASSERT_OCI_passes _ _ a3,
        ASSERT_OCI_passes _ _ h4, e1, e2, hq, if_false, if_true]
      exact key _ _ rfl rfl rfl
    | some t =>
      unfold conn_execute
      simp only [bind_eq, Lua.bind, getconnection_open w c conn hc hopen, call_eq, pure_eq,
        Lua.pure, ASSERT_OCI_passes _ _ h4, e1, e2, hq, if_false, if_true]
      exact key _ _ rfl rfl rfl

theorem columnNative_ok_succeeds (ty : Nat) (name : String) (h : supported ty = true) :
    (columnNative_ok ty name).succeeds :=
  ⟨Or.inl rfl, Or.inl rfl, Or.inl rfl, rfl, h,
    fun _ => ⟨Or.inl rfl, (by decide : (5000 : Nat) % 2 ^ 64 ≠ NULL), Or.inl rfl⟩,
    fun _ => Or.inl rfl, Or.inl rfl⟩

theorem executeNative_update_succeeds (stmthp : Nat) (rows : Nat) (token : Option Nat) :
    (executeNative_update stmthp OCI_SUCCESS rows).succeeds token :=
  ⟨fun _ => ⟨Or.inl rfl, Or.inl rfl, Or.inl rfl⟩, Or.inl rfl, Or.inl rfl, fun _ => Or.inl rfl,
    fun h => absurd h (by decide : (4 : Nat) ≠ OCI_STMT_SELECT)⟩

/-- C7: the number `conn_execute` returns for a non-query is not always the
native affected-row count.  The native library stores the count as a `ub4` and
`conn_execute` reads it into the local `int rows_affected`, which it pushes.
For every successfully executed statement (the native execute call returns
`OCI_SUCCESS` or `OCI_NO_DATA` and no native call made on the way fails) the
kind of the result is fixed by the statement kind: a non-query returns exactly
one value, a number, creates no Cursor and leaves every Connection, so
`cur_counter`, as it is; a query returns exactly one value, a new open Cursor
of the Connection, and adds one to the `cur_counter` of the Connection.  The
number returned for a non-query is the count when the count is below `2 ^ 31`
(an update affecting 3 rows returns 3) and the count minus `2 ^ 32` from there
on: an update affecting 3000000000 rows returns -1294967296. -/
theorem conn_execute_row_count_wraps :
    (∀ (w : World) (c : Nat) (conn : conn_data) (statement : String) (token : Option Nat)
        (n : ExecuteNative),
      w.conns[c]? = some conn → conn.closed = 0 → n.succeeds token →
      (n.type ≠ OCI_STMT_SELECT →
        ∃ w1, conn_execute c statement token n w =
            .ok [.number (.ofInt (int_of_ub4 n.rows_affected))] w1 ∧
          w1.curs = w.curs ∧ w1.conns = w.conns ∧ w1.envs = w.envs) ∧
      (n.type = OCI_STMT_SELECT →
        ∃ w1 cur, conn_execute c statement token n w = .ok [.cursor w.curs.length] w1 ∧
          w1.curs = w.curs ++ [cur] ∧ cur.closed = 0 ∧ cur.conn = c ∧
          w1.conns[c]? = some { conn with cur_counter := conn.cur_counter + 1 } ∧
          (∀ c1, c1 ≠ c → w1.conns[c1]? = w.conns[c1]?) ∧ w1.envs = w.envs)) ∧
    (∀ v : Nat, v < 2 ^ 31 → int_of_ub4 v = v) ∧
    (∀ v : Nat, 2 ^ 31 ≤ v → v < 2 ^ 32 → int_of_ub4 v = (v : Int) - 2 ^ 32) ∧
    ((executeNative_update 3000 OCI_SUCCESS 3).succeeds none ∧
      ∃ w1, conn_execute 0 "UPDATE t SET a = 1" none (executeNative_update 3000 OCI_SUCCESS 3)
          world_connected = .ok [.number (.ofInt 3)] w1 ∧
        w1.curs = world_connected.curs ∧ w1.conns = world_connected.conns) ∧
    ((executeNative_update 3000 OCI_SUCCESS 3000000000).succeeds none ∧
      ∃ w1, conn_execute 0 "UPDATE t SET a = 1" none
          (executeNative_update 3000 OCI_SUCCESS 3000000000) world_connected
            = .ok [.number (.ofInt (-1294967296))] w1 ∧
        w1.curs = world_connected.curs ∧ w1.conns = world_connected.conns) :=
  ⟨conn_execute_succeeds, int_of_ub4_small, int_of_ub4_large,
    ⟨executeNative_update_succeeds 3000 3 none,
      (conn_execute 0 "UPDATE t SET a = 1" none (executeNative_update 3000 OCI_SUCCESS 3)
        world_connected).world, rfl, rfl, rfl⟩,
    ⟨executeNative_update_succeeds 3000 3000000000 none,
      (conn_execute 0 "UPDATE t SET a = 1" none
        (executeNative_update 3000 OCI_SUCCESS 3000000000) world_connected).world,
      by decide, rfl, rfl⟩⟩

/-- C4: the behaviour of `conn_execute` when the native execute call returns
`OCI_SUCCESS_WITH_INFO`, on the connection of `world_connected`.  For a query
the statement handle is freed and the call returns no value: no Cursor is
created and `cur_counter` stays 0, where with `OCI_SUCCESS` the same call
returns Cursor 0 and `cur_counter` becomes 1.  For an update affecting 3 rows
the handle is freed before the row count is read and the call returns no
value, where with `OCI_SUCCESS` it returns the number 3. -/
theorem conn_execute_success_with_info :
    (∃ w1, conn_execute 0 "SELECT 1 AS one FROM dual" none
        (executeNative_query 3000 OCI_SUCCESS_WITH_INFO SQLT_NUM) world_connected = .ok [] w1 ∧
      NativeCall.OCIHandleFree 3000 .STMT ∈ w1.calls ∧ w1.curs = [] ∧
      w1.conns.map (fun cn => cn.cur_counter) = [0]) ∧
    (∃ w1, conn_execute 0 "SELECT 1 AS one FROM dual" none
        (executeNative_query 3000 OCI_SUCCESS SQLT_NUM) world_connected = .ok [.cursor 0] w1 ∧
      NativeCall.OCIHandleFree 3000 .STMT ∉ w1.calls ∧ w1.curs = [cur_one] ∧
      w1.conns.map (fun cn => cn.cur_counter) = [1]) ∧
    (∃ w1, conn_execute 0 "UPDATE t SET a = 1" none
        (executeNative_update 3000 OCI_SUCCESS_WITH_INFO 3) world_connected = .ok [] w1 ∧
      NativeCall.OCIAttrGet 3000 .ROW_COUNT ∉ w1.calls) ∧
    (∃ w1, conn_execute 0 "UPDATE t SET a = 1" none
        (executeNative_update 3000 OCI_SUCCESS 3) world_connected
          = .ok [.number (.ofInt 3)] w1) :=
  ⟨⟨(conn_execute 0 "SELECT 1 AS one FROM dual" none
        (executeNative_query 3000 OCI_SUCCESS_WITH_INFO SQLT_NUM) world_connected).world,
      rfl, by decide, rfl, rfl⟩,
    ⟨world_cursor, rfl, by decide, rfl, rfl⟩,
    ⟨(conn_execute 0 "UPDATE t SET a = 1" none
        (executeNative_update 3000 OCI_SUCCESS_WITH_INFO 3) world_connected).world,
      rfl, by decide⟩,
    ⟨(conn_execute 0 "UPDATE t SET a = 1" none
        (executeNative_update 3000 OCI_SUCCESS 3) world_connected).world, rfl⟩⟩

/-- C6: a native error of `conn_execute` before the execute call leaves the
statement handle allocated.  On the connection of `world_connected`, when the
native prepare call fails the call raises the database error, the statement
handle 3000 has been allocated and is not freed; no Cursor is created and the
Connection is unchanged.  When it is the native execute call that fails, the
handle is freed before the error is raised. -/
theorem conn_execute_prepare_error_keeps_handle :
    (∃ w1, conn_execute 0 "" none executeNative_prepare_error world_connected
        = .raise (.database 2001) w1 ∧
      NativeCall.OCIHandleAlloc .STMT ∈ w1.calls ∧
      NativeCall.OCIStmtPrepare 3000 "" ∈ w1.calls ∧
      NativeCall.OCIHandleFree 3000 .STMT ∉ w1.calls ∧
      w1.curs = [] ∧ w1.conns = world_connected.conns) ∧
    (∃ w1, conn_execute 0 "UPDATE t SET a = 1" none (executeNative_update 3000 OCI_ERROR 0)
        world_connected = .raise (.database 2001) w1 ∧
      NativeCall.OCIHandleFree 3000 .STMT ∈ w1.calls) :=
  ⟨⟨(conn_execute 0 "" none executeNative_prepare_error world_connected).world,
      rfl, by decide, by decide, by decide, rfl, rfl⟩,
    ⟨(conn_execute 0 "UPDATE t SET a = 1" none (executeNative_update 3000 OCI_ERROR 0)
        world_connected).world, rfl, by decide⟩⟩

theorem getenvironment_open (w : World) (e : Nat) (env : env_data)
    (he : w.envs[e]? = some env) (h0 : env.closed = 0) : getenvironment e w = .ok env w := by
  unfold getenvironment
  simp [he, h0]

theorem connect_async_pending (w : World) (e c : Nat) (env : env_data) (conn : conn_data)
    (s u p : String) (status0 : Int)
    (he : w.envs[e]? = some env) (hopen : env.closed = 0)
    (hc : w.conns[c]? = some conn) (hp : conn.connecting ≠ 0) :
    env_connect_async e s u p (some c) status0 w
      = .ok [.connection c, .integer OCI_STILL_EXECUTING] w := by
  unfold env_connect_async
  simp only [bind_eq, Lua.bind, getenvironment_open w e env he hopen, getWorld, hc, hp, ne_eq,
    not_false_eq_true, if_true, pure_eq, Lua.pure]

theorem connect_async_join (w : World) (e c : Nat) (env : env_data) (conn : conn_data)
    (s u p : String) (status0 : Int)
    (he : w.envs[e]? = some env) (hopen : env.closed = 0)
    (hc : w.conns[c]? = some conn) (hp : conn.connecting = 0) (ht : conn.tid ≠ 0)
    (hthr : w.threads[conn.tid - 1]? = some { exit := some OCI_SUCCESS, joined := false }) :
    env_connect_async e s u p (some c) status0 w = .ok [.connection c]
      { w with
        calls := w.calls ++ [.pthread_join conn.tid]
        threads := w.threads.modify (fun t => { t with joined := true }) (conn.tid - 1)
        conns := w.conns.modify (fun cn => { cn with closed := 0, tid := 0 }) c
        envs := w.envs.modify (fun en => { en with conn_counter := en.conn_counter + 1 }) e } := by
  unfold env_connect_async
  simp only [bind_eq, Lua.bind, getenvironment_open w e env he hopen, getWorld, hc, hp, ne_eq,
    not_true_eq_false, if_false, pure_eq, Lua.pure, pthread_join, ht, hthr,
    ASSERT_OCI_passes _ _ (Or.inl rfl), modifyConn_eq, modifyEnv_eq, withCalls_eq,
    withThreads_eq]

theorem connect_async_rejoin (w : World) (e c : Nat) (env : env_data) (conn : conn_data)
    (s u p : String) (status0 : Int)
    (he : w.envs[e]? = some env) (hopen : env.closed = 0)
    (hc : w.conns[c]? = some conn) (hp : conn.connecting = 0) (ht : conn.tid = 0) :
    (passes status0 →
      env_connect_async e s u p (some c) status0 w = .ok [.connection c]
        { w with
          calls := w.calls ++ [.pthread_join 0]
          conns := w.conns.modify (fun cn => { cn with closed := 0, tid := 0 }) c
          envs := w.envs.modify (fun en => { en with conn_counter := en.conn_counter + 1 }) e })
    ∧ (¬ passes status0 →
      ∃ err w1, env_connect_async e s u p (some c) status0 w = .raise err w1) := by
  constructor
  · intro hs
    unfold env_connect_async
    simp only [bind_eq, Lua.bind, getenvironment_open w e env he hopen, getWorld, hc, hp, ne_eq,
      not_true_eq_false, if_false, if_true, pure_eq, Lua.pure, pthread_join, ht,
      ASSERT_OCI_passes _ _ hs, modifyConn_eq, modifyEnv_eq, withCalls_eq]
  · intro hs
    have h1 : status0 ≠ OCI_SUCCESS := fun h => hs (Or.inl h)
    have h2 : status0 ≠ OCI_SUCCESS_WITH_INFO := fun h => hs (Or.inr h)
    unfold env_connect_async
    simp only [bind_eq, Lua.bind, getenvironment_open w e env he hopen, getWorld, hc, hp, ne_eq,
      not_true_eq_false, if_false, if_true, pure_eq, Lua.pure, pthread_join, ht, withCalls_eq,
      ASSERT_OCI, h1, h2, luaL_error, call_eq]
    split_ifs <;> exact ⟨_, _, rfl⟩

theorem async_open_succeeds (w : World) (c : Nat) (conn : conn_data) (n : LoginNative)
    (hc : w.conns[c]? = some conn) (hn : n.succeeds) :
    (async_open c n w).envs = w.envs ∧
    (async_open c n w).conns[c]? = some
      { conn with errhp := n.errhp, srvhp := n.srvhp, svchp := n.svchp, authp := n.authp,
                  connecting := 0 } ∧
    (async_open c n w).threads
      = w.threads.modify (fun t => { t with exit := some OCI_SUCCESS }) (conn.tid - 1) := by
  obtain ⟨h1, h2, h3, h4, h5, h6, h7, h8, h9, h10, h11⟩ := hn
  unfold async_open
  simp only [hc, OCI_THR_CHECK, h1, h2, h3, h4, h5, h6, h7, h8, h9, h10, h11, ne_eq,
    not_true_eq_false, if_false, native_write, withCalls_eq, withConns_eq, withThreads_eq]
  refine ⟨trivial, ?_, trivial⟩
  simp [hc]

theorem run_append (b : Bool) (l1 l2 : List Op) (w : World) :
    run b (l1 ++ l2) w = run b l2 (run b l1 w) := by
  unfold run
  rw [List.foldl_append]

theorem run_polls (b : Bool) (w : World) (e c : Nat) (env : env_data) (conn : conn_data)
    (s u p : String) (status0 : Int)
    (he : w.envs[e]? = some env) (hopen : env.closed = 0)
    (hc : w.conns[c]? = some conn) (hp : conn.connecting ≠ 0) (m : Nat) :
    run b (List.replicate m (.env_connect_async e s u p (some c) status0)) w = w := by
  induction m with
  | zero => rfl
  | succ m ih =>
    rw [List.replicate_succ]
    show run b _ (step b _ w) = w
    have : step b (.env_connect_async e s u p (some c) status0) w = w := by
      simp only [step, connect_async_pending w e c env conn s u p status0 he hopen hc hp,
        Outcome.world]
    rw [this]
    exact ih

/-- C5: a connection handle is opened again by every further `connect_async`
call once it has been joined, so that the `conn_counter` of the Environment
does not increase by exactly one.  While the login of a handle is pending,
every call passing the handle returns the handle and `OCI_STILL_EXECUTING` and
changes no state.  `env_connect_async` has no guard for a handle that has been
joined already: in every state in which the handle is joined (`connecting` and
`tid` are 0), a further call runs `pthread_join` on the thread 0, which stores
no status, and when the local `status`, which the code never set, holds a value
that `ASSERT_OCI` accepts, the call returns the Connection and adds one to
`conn_counter` again.  The run `ops_join_twice`: in `world_joined` the login
thread has been joined, the Connection is open and `conn_counter` is 1; a
further call with the handle, the local `status` holding 0, returns the
Connection and leaves `conn_counter` at 2; whatever the local `status` holds, a
further call that returns the Connection has added one to `conn_counter`. -/
theorem connect_async_joined_twice :
    (∀ (w : World) (e c : Nat) (env : env_data) (conn : conn_data) (s u p : String)
        (status0 : Int),
      w.envs[e]? = some env → env.closed = 0 → w.conns[c]? = some conn →
      conn.connecting ≠ 0 →
      env_connect_async e s u p (some c) status0 w
        = .ok [.connection c, .integer OCI_STILL_EXECUTING] w) ∧
    (∀ (w : World) (e c : Nat) (env : env_data) (conn : conn_data) (s u p : String)
        (status0 : Int),
      w.envs[e]? = some env → env.closed = 0 → w.conns[c]? = some conn →
      conn.connecting = 0 → conn.tid = 0 → passes status0 →
      ∃ w1, env_connect_async e s u p (some c) status0 w = .ok [.connection c] w1 ∧
        w1.envs[e]? = some { env with conn_counter := env.conn_counter + 1 }) ∧
    world_joined.envs.map (fun en => en.conn_counter) = [1] ∧
    world_joined.conns[0]? = some conn_joined ∧
    (∃ w1, env_connect_async 0 "db" "u" "p" (some 0) 0 world_joined = .ok [.connection 0] w1 ∧
      w1 = run true ops_join_twice World.empty ∧
      w1.envs.map (fun en => en.conn_counter) = [2]) ∧
    ∀ status0 w1,
      env_connect_async 0 "db" "u" "p" (some 0) status0 world_joined = .ok [.connection 0] w1 →
      w1.envs.map (fun en => en.conn_counter) = [2] := by
  refine ⟨?_, ?_, rfl, rfl, ⟨_, rfl, rfl, rfl⟩, ?_⟩
  · intro w e c env conn s u p status0 he hopen hc hp
    exact connect_async_pending w e c env conn s u p status0 he hopen hc hp
  · intro w e c env conn s u p status0 he hopen hc hp ht hs
    refine ⟨_, (connect_async_rejoin w e c env conn s u p status0 he hopen hc hp ht).1 hs, ?_⟩
    simp [he]
  · intro status0 w1 h
    have hr := connect_async_rejoin world_joined 0 0
      { closed := 0, conn_counter := 1, envhp := 1000, errhp := 1001 } conn_joined "db" "u" "p"
      status0 rfl rfl rfl rfl rfl
    by_cases hs : passes status0
    · rw [hr.1 hs] at h
      cases h
      rfl
    · obtain ⟨err, w2, h2⟩ := hr.2 hs
      rw [h2] at h
      cases h

theorem theCursor_bind {α : Type} (w : World) (k : Nat) (cur : cur_data)
    (hk : w.curs[k]? = some cur) (f : cur_data → Lua α) :
    Lua.bind (theCursor k) f w = f cur w := by
  simp [Lua.bind, theCursor, List.getD_eq_getElem?_getD, hk]

theorem nonNil_pure (v : LuaValue) (h : v ≠ .nil) : NonNil (Lua.pure v) := by
  intro w v1 w1 h1
  cases h1
  exact h

theorem nonNil_bind {α : Type} (m : Lua α) (f : α → Lua LuaValue) (h : ∀ a, NonNil (f a)) :
    NonNil (Lua.bind m f) := by
  intro w v w1 h1
  unfold Lua.bind at h1
  split at h1
  · exact h _ _ _ _ h1
  · cases h1

theorem nonNil_error (msg : String) : NonNil (luaL_error msg) := by
  intro w v w1 h1
  cases h1

/-- C10: the null gate of `pushvalue`.  For every type tag, supported or not,
and every build configuration: when the null indicator of the column is not
zero, negative or positive, `pushvalue` yields `nil` and the state is the one
before the call, so no native call and no decoding was done.  When the
indicator is zero and the text buffer of a character column is allocated (as
`alloc_column_buffer` leaves it), a decode that returns never yields `nil`. -/
theorem pushvalue_null_gate (b : Bool) (w : World) (k i : Nat) (cur : cur_data)
    (n : DecodeNative) (hk : w.curs[k]? = some cur) :
    ((cur.col i).null ≠ 0 → pushvalue b k i n w = .ok .nil w) ∧
    ((cur.col i).null = 0 →
      (is_character (cur.col i).type = true → (cur.col i).val.text ≠ NULL) →
      ∀ v w1, pushvalue b k i n w = .ok v w1 → v ≠ .nil) := by
  constructor
  · intro hnull
    unfold pushvalue
    rw [bind_eq, theCursor_bind w k cur hk]
    simp only [hnull, ne_eq, not_false_eq_true, if_true, pure_eq, Lua.pure]
  · intro hnull htext v w1 h
    unfold pushvalue at h
    rw [bind_eq, theCursor_bind w k cur hk] at h
    simp only [hnull, ne_eq, not_true_eq_false, if_false, bind_eq, pure_eq] at h
    refine (?_ : NonNil _) w v w1 h
    repeat' first
      | exact nonNil_error _
      | (refine nonNil_pure _ ?_
         intro hv
         cases hv)
      | (refine nonNil_pure _ ?_
         have ht := htext (by assumption)
         simp [lua_pushstring, ht])
      | refine nonNil_bind _ _ (fun _ => ?_)
      | split_ifs

/-- Witness of `pushvalue_null_gate`: the column of `world_null_row` has the
null indicator `-1`; its decode yields `nil` and changes nothing. -/
theorem pushvalue_null_gate_witness :
    world_null_row.curs[0]? = some cur_null ∧ (cur_null.col 1).null ≠ 0 ∧
      pushvalue true 0 1 decodeNative_zero world_null_row = .ok .nil world_null_row :=
  ⟨rfl, by decide,
    (pushvalue_null_gate true world_null_row 0 1 cur_null decodeNative_zero rfl).1 (by decide)⟩

/-! ## A closed cursor stays closed -/

theorem keeps_of_curs {α : Type} (k : Nat) (m : Lua α) (h : ∀ w, (m w).world.curs = w.curs) :
    KeepsClosed k m := by
  intro w hw
  unfold CursorClosed
  rw [h w]
  exact hw

theorem keeps_bind {α β : Type} {k : Nat} {m : Lua α} {f : α → Lua β} (hm : KeepsClosed k m)
    (hf : ∀ a, KeepsClosed k (f a)) : KeepsClosed k (Lua.bind m f) := by
  intro w hw
  have h1 := hm w hw
  unfold Lua.bind
  split
  · rename_i a w1 heq
    rw [heq] at h1
    exact hf a w1 h1
  · rename_i e w1 heq
    rw [heq] at h1
    exact h1

theorem keeps_pure {α : Type} (k : Nat) (a : α) : KeepsClosed k (Lua.pure a) :=
  fun _ hw => hw

theorem keeps_raise {α : Type} (k : Nat) (e : LuaError) :
    KeepsClosed k (fun w => (Outcome.raise e w : Outcome α)) :=
  fun _ hw => hw

theorem closed_modify (k j : Nat) (f : cur_data → cur_data) (l : List cur_data)
    (hf : ∀ cu, cu.closed ≠ 0 → (f cu).closed ≠ 0)
    (h : ∃ cur, l[k]? = some cur ∧ cur.closed ≠ 0) :
    ∃ cur, (l.modify f j)[k]? = some cur ∧ cur.closed ≠ 0 := by
  obtain ⟨cur, h1, h2⟩ := h
  by_cases hj : j = k
  · subst hj
    exact ⟨f cur, by simp [h1], hf cur h2⟩
  · exact ⟨cur, by simp [List.getElem?_modify_ne _ _ hj, h1], h2⟩

theorem keeps_modifyCur (k j : Nat) (f : cur_data → cur_data)
    (hf : ∀ cu, cu.closed ≠ 0 → (f cu).closed ≠ 0) : KeepsClosed k (modifyCur j f) := by
  intro w hw
  exact closed_modify k j f w.curs hf hw

theorem keeps_modifyCol (k j i : Nat) (f : column_data → column_data) :
    KeepsClosed k (modifyCol j i f) := by
  intro w hw
  exact closed_modify k j _ w.curs (fun _ h => h) hw

theorem keeps_newCursor (k : Nat) (cur : cur_data) : KeepsClosed k (newCursor cur) := by
  intro w hw
  obtain ⟨cu, h1, h2⟩ := hw
  refine ⟨cu, ?_, h2⟩
  have hlt : k < w.curs.length := by
    rcases Nat.lt_or_ge k w.curs.length with hlt | hge
    · exact hlt
    · rw [List.getElem?_eq_none hge] at h1
      cases h1
  show (w.curs ++ [cur])[k]? = some cu
  rw [List.getElem?_append_left hlt]
  exact h1

theorem keeps_luaL_ref (k : Nat) (v : LuaValue) : KeepsClosed k (luaL_ref v) := by
  refine keeps_of_curs k _ (fun w => ?_)
  unfold luaL_ref
  split_ifs <;> rfl

theorem keeps_luaL_unref (k : Nat) (r : Int) : KeepsClosed k (luaL_unref r) := by
  refine keeps_of_curs k _ (fun w => ?_)
  unfold luaL_unref
  split_ifs <;> rfl

theorem keeps_registry_get (k : Nat) (r : Int) : KeepsClosed k (registry_get r) := by
  refine keeps_of_curs k _ (fun w => ?_)
  unfold registry_get
  split_ifs <;> rfl

theorem keeps_getcursor (k j : Nat) : KeepsClosed k (getcursor j) := by
  refine keeps_of_curs k _ (fun w => ?_)
  unfold getcursor
  split
  · rfl
  · split_ifs <;> rfl

theorem keeps_getconnection (k j : Nat) : KeepsClosed k (getconnection j) := by
  refine keeps_of_curs k _ (fun w => ?_)
  unfold getconnection
  split
  · rfl
  · split_ifs <;> rfl

theorem keeps_getenvironment (k j : Nat) : KeepsClosed k (getenvironment j) := by
  refine keeps_of_curs k _ (fun w => ?_)
  unfold getenvironment
  split
  · rfl
  · split_ifs <;> rfl

theorem keeps_pthread_join (k tid : Nat) (status0 : Int) :
    KeepsClosed k (pthread_join tid status0) := by
  refine keeps_of_curs k _ (fun w => ?_)
  unfold pthread_join
  split_ifs
  · rfl
  · split <;> rfl

theorem keeps_assert_ptr (k p : Nat) : KeepsClosed k (ASSERT_PTR p) := by
  unfold ASSERT_PTR
  split_ifs
  · exact keeps_raise k _
  · exact keeps_pure k ()

theorem keeps_assert_oci (k : Nat) (status : Int) (errhp : Nat) :
    KeepsClosed k (ASSERT_OCI status errhp) := by
  unfold ASSERT_OCI
  simp only [bind_eq, pure_eq]
  repeat' first
    | exact keeps_pure _ _
    | exact keeps_raise _ _
    | exact keeps_of_curs _ _ (fun _ => rfl)
    | refine keeps_bind ?_ (fun _ => ?_)
    | split_ifs

theorem keeps_for_each (k : Nat) (body : Nat → Lua Unit) (h : ∀ i, KeepsClosed k (body i))
    (l : List Nat) : KeepsClosed k (for_each body l) := by
  induction l with
  | nil => exact keeps_pure k ()
  | cons i rest ih =>
    unfold for_each
    exact keeps_bind (h i) (fun _ => ih)

theorem keeps_for_collect {α : Type} (k : Nat) (body : Nat → Lua α)
    (h : ∀ i, KeepsClosed k (body i)) (l : List Nat) : KeepsClosed k (for_collect body l) := by
  induction l with
  | nil => exact keeps_pure k []
  | cons i rest ih =>
    unfold for_collect
    exact keeps_bind (h i) (fun _ => keeps_bind ih (fun _ => keeps_pure k _))

theorem keeps_call (k : Nat) (c : NativeCall) : KeepsClosed k (call c) :=
  keeps_of_curs k _ (fun _ => rfl)

theorem keeps_modifyConn (k c : Nat) (f : conn_data → conn_data) :
    KeepsClosed k (modifyConn c f) :=
  keeps_of_curs k _ (fun _ => rfl)

theorem keeps_modifyEnv (k e : Nat) (f : env_data → env_data) : KeepsClosed k (modifyEnv e f) :=
  keeps_of_curs k _ (fun _ => rfl)

theorem keeps_newConnection (k : Nat) (conn : conn_data) : KeepsClosed k (newConnection conn) :=
  keeps_of_curs k _ (fun _ => rfl)

theorem keeps_newEnvironment (k : Nat) (env : env_data) : KeepsClosed k (newEnvironment env) :=
  keeps_of_curs k _ (fun _ => rfl)

theorem keeps_newtable (k : Nat) : KeepsClosed k newtable :=
  keeps_of_curs k _ (fun _ => rfl)

theorem keeps_rawset (k t : Nat) (key : LuaKey) (v : LuaValue) : KeepsClosed k (rawset t key v) :=
  keeps_of_curs k _ (fun _ => rfl)

theorem keeps_getWorld (k : Nat) : KeepsClosed k getWorld :=
  keeps_of_curs k _ (fun _ => rfl)

theorem keeps_theCursor (k j : Nat) : KeepsClosed k (theCursor j) :=
  keeps_of_curs k _ (fun _ => rfl)

theorem keeps_luaL_error {α : Type} (k : Nat) (msg : String) :
    KeepsClosed k (luaL_error msg : Lua α) :=
  keeps_of_curs k _ (fun _ => rfl)

theorem keeps_luaL_argerror {α : Type} (k narg : Nat) (msg : String) :
    KeepsClosed k (luaL_argerror narg msg : Lua α) :=
  keeps_of_curs k _ (fun _ => rfl)

theorem keeps_withThreads (k : Nat) (f : List thread_data → List thread_data) :
    KeepsClosed k (fun w => (Outcome.ok () (w.withThreads f) : Outcome Unit)) :=
  keeps_of_curs k _ (fun _ => rfl)

theorem keeps_ite {α : Type} (k : Nat) (c : Prop) [Decidable c] (a b : Lua α)
    (ha : KeepsClosed k a) (hb : KeepsClosed k b) : KeepsClosed k (if c then a else b) := by
  split_ifs
  · exact ha
  · exact hb

theorem keeps_modifyCur_close (k j : Nat) (f : cur_data → cur_data)
    (hf : ∀ cu, (f cu).closed = 1) : KeepsClosed k (modifyCur j f) :=
  keeps_modifyCur k j f (fun cu _ => by rw [hf cu]; decide)

theorem keeps_free_column_buffers (k j i : Nat) :
    KeepsClosed k (free_column_buffers j i) := by
  unfold free_column_buffers
  simp only [bind_eq, pure_eq]
  repeat' with_reducible first
    | exact keeps_pure _ _
    | exact keeps_call _ _
    | exact keeps_theCursor _ _
    | refine keeps_bind ?_ (fun _ => ?_)
    | refine keeps_ite _ _ _ _ ?_ ?_

theorem keeps_alloc_column_buffer (k j i : Nat) (n : ColumnNative) :
    KeepsClosed k (alloc_column_buffer j i n) := by
  unfold alloc_column_buffer copy_column_name
  simp only [bind_eq, pure_eq]
  repeat' with_reducible first
    | exact keeps_assert_oci _ _ _
    | exact keeps_assert_ptr _ _
    | exact keeps_modifyCol _ _ _ _
    | exact keeps_call _ _
    | exact keeps_theCursor _ _
    | exact keeps_luaL_error _ _
    | refine keeps_bind ?_ (fun _ => ?_)
    | refine keeps_ite _ _ _ _ ?_ ?_

theorem keeps_pushvalue (k : Nat) (b : Bool) (j i : Nat) (n : DecodeNative) :
    KeepsClosed k (pushvalue b j i n) := by
  unfold pushvalue
  simp only [bind_eq, pure_eq]
  repeat' with_reducible first
    | exact keeps_pure _ _
    | exact keeps_assert_oci _ _ _
    | exact keeps_assert_ptr _ _
    | exact keeps_modifyCol _ _ _ _
    | exact keeps_call _ _
    | exact keeps_newtable _
    | exact keeps_rawset _ _ _ _
    | exact keeps_theCursor _ _
    | exact keeps_luaL_error _ _
    | refine keeps_bind ?_ (fun _ => ?_)
    | refine keeps_ite _ _ _ _ ?_ ?_

theorem keeps_cur_close (k j : Nat) : KeepsClosed k (cur_close j) := by
  intro w hw
  unfold cur_close
  split
  · exact hw
  · rename_i cur heq
    by_cases hc : cur.closed ≠ 0
    · rw [if_pos hc]
      exact hw
    · rw [if_neg hc]
      refine (?_ : KeepsClosed k _) w hw
      simp only [bind_eq, pure_eq]
      repeat' with_reducible first
        | exact keeps_free_column_buffers _ _ _
        | exact keeps_modifyCur_close _ _ _ (fun _ => rfl)
        | exact keeps_pure _ _
        | exact keeps_raise _ _
        | exact keeps_modifyCur _ _ _ (fun _ h => h)
        | exact keeps_luaL_unref _ _
        | exact keeps_call _ _
        | exact keeps_modifyConn _ _ _
        | refine keeps_for_each _ _ (fun _ => ?_) _
        | refine keeps_bind ?_ (fun _ => ?_)
        | refine keeps_ite _ _ _ _ ?_ ?_

theorem keeps_conn_close (k j : Nat) : KeepsClosed k (conn_close j) := by
  intro w hw
  unfold conn_close
  split
  · exact hw
  · rename_i conn heq
    by_cases hc : conn.closed ≠ 0
    · rw [if_pos hc]
      exact hw
    · by_cases hn : 0 < conn.cur_counter
      · rw [if_neg hc, if_pos hn]
        exact hw
      · rw [if_neg hc, if_neg hn]
        refine (?_ : KeepsClosed k _) w hw
        simp only [bind_eq, pure_eq]
        repeat' with_reducible first
          | exact keeps_pure _ _
          | exact keeps_raise _ _
          | exact keeps_call _ _
          | exact keeps_modifyConn _ _ _
          | exact keeps_modifyEnv _ _ _
          | refine keeps_bind ?_ (fun _ => ?_)
          | refine keeps_ite _ _ _ _ ?_ ?_

theorem keeps_env_close (k j : Nat) : KeepsClosed k (env_close j) := by
  intro w hw
  unfold env_close
  split
  · exact hw
  · rename_i env heq
    by_cases hc : env.closed ≠ 0
    · rw [if_pos hc]
      exact hw
    · by_cases hn : 0 < env.conn_counter
      · rw [if_neg hc, if_pos hn]
        exact hw
      · rw [if_neg hc, if_neg hn]
        refine (?_ : KeepsClosed k _) w hw
        simp only [bind_eq, pure_eq]
        repeat' with_reducible first
          | exact keeps_pure _ _
          | exact keeps_raise _ _
          | exact keeps_call _ _
          | exact keeps_modifyEnv _ _ _
          | refine keeps_bind ?_ (fun _ => ?_)
          | refine keeps_ite _ _ _ _ ?_ ?_

theorem keeps_cur_fetch (k : Nat) (b : Bool) (j : Nat) (arg2 : LuaValue) (arg3 : Option String)
    (n : FetchNative) :
    KeepsClosed k (cur_fetch b j arg2 arg3 n) := by
  unfold cur_fetch
  simp only [bind_eq, pure_eq]
  repeat' first
    | with_reducible first
        | exact keeps_cur_close _ _
        | exact keeps_pushvalue _ _ _ _ _
        | exact keeps_pure _ _
        | exact keeps_assert_oci _ _ _
        | exact keeps_getcursor _ _
        | exact keeps_modifyCur _ _ _ (fun _ h => h)
        | exact keeps_call _ _
        | exact keeps_rawset _ _ _ _
        | exact keeps_theCursor _ _
        | exact keeps_luaL_error _ _
        | refine keeps_for_each _ _ (fun _ => ?_) _
        | refine keeps_for_collect _ _ (fun _ => ?_) _
        | refine keeps_bind ?_ (fun _ => ?_)
        | refine keeps_ite _ _ _ _ ?_ ?_
    | split

theorem keeps_cur_getcolnames (k j : Nat) :
    KeepsClosed k (cur_getcolnames j) := by
  unfold cur_getcolnames
  simp only [bind_eq, pure_eq]
  repeat' with_reducible first
    | exact keeps_pure _ _
    | exact keeps_getcursor _ _
    | exact keeps_modifyCur _ _ _ (fun _ h => h)
    | exact keeps_luaL_ref _ _
    | exact keeps_registry_get _ _
    | exact keeps_newtable _
    | exact keeps_rawset _ _ _ _
    | refine keeps_for_each _ _ (fun _ => ?_) _
    | refine keeps_bind ?_ (fun _ => ?_)
    | refine keeps_ite _ _ _ _ ?_ ?_

theorem keeps_cur_getcoltypes (k : Nat) (b : Bool) (j : Nat) :
    KeepsClosed k (cur_getcoltypes b j) := by
  unfold cur_getcoltypes
  simp only [bind_eq, pure_eq]
  repeat' with_reducible first
    | exact keeps_pure _ _
    | exact keeps_getcursor _ _
    | exact keeps_modifyCur _ _ _ (fun _ h => h)
    | exact keeps_luaL_ref _ _
    | exact keeps_registry_get _ _
    | exact keeps_newtable _
    | exact keeps_rawset _ _ _ _
    | refine keeps_for_each _ _ (fun _ => ?_) _
    | refine keeps_bind ?_ (fun _ => ?_)
    | refine keeps_ite _ _ _ _ ?_ ?_

theorem keeps_cur_getcolumns (k : Nat) (b : Bool) (j : Nat) :
    KeepsClosed k (cur_getcolumns b j) := by
  unfold cur_getcolumns
  simp only [bind_eq, pure_eq]
  repeat' with_reducible first
    | exact keeps_pure _ _
    | exact keeps_getcursor _ _
    | exact keeps_modifyCur _ _ _ (fun _ h => h)
    | exact keeps_luaL_ref _ _
    | exact keeps_registry_get _ _
    | exact keeps_newtable _
    | exact keeps_rawset _ _ _ _
    | refine keeps_for_each _ _ (fun _ => ?_) _
    | refine keeps_bind ?_ (fun _ => ?_)
    | refine keeps_ite _ _ _ _ ?_ ?_

theorem keeps_create_cursor (k c stmt : Nat) (text : String) (n : CursorNative) :
    KeepsClosed k (create_cursor c stmt text n) := by
  unfold create_cursor
  simp only [bind_eq, pure_eq]
  repeat' with_reducible first
    | exact keeps_alloc_column_buffer _ _ _ _
    | exact keeps_pure _ _
    | exact keeps_assert_oci _ _ _
    | exact keeps_assert_ptr _ _
    | exact keeps_modifyCur _ _ _ (fun _ h => h)
    | exact keeps_newCursor _ _
    | exact keeps_call _ _
    | exact keeps_modifyConn _ _ _
    | exact keeps_getWorld _
    | refine keeps_for_each _ _ (fun _ => ?_) _
    | refine keeps_bind ?_ (fun _ => ?_)

theorem keeps_conn_execute (k c : Nat) (statement : String) (token : Option Nat)
    (n : ExecuteNative) :
    KeepsClosed k (conn_execute c statement token n) := by
  unfold conn_execute
  simp only [bind_eq, pure_eq]
  repeat' first
    | with_reducible first
        | exact keeps_create_cursor _ _ _ _ _
        | exact keeps_pure _ _
        | exact keeps_assert_oci _ _ _
        | exact keeps_getconnection _ _
        | exact keeps_call _ _
        | refine keeps_bind ?_ (fun _ => ?_)
        | refine keeps_ite _ _ _ _ ?_ ?_
    | split

theorem keeps_conn_abort (k c : Nat) (status : Int) :
    KeepsClosed k (conn_abort c status) := by
  unfold conn_abort
  simp only [bind_eq, pure_eq]
  repeat' with_reducible first
    | exact keeps_pure _ _
    | exact keeps_assert_oci _ _ _
    | exact keeps_getconnection _ _
    | exact keeps_call _ _
    | refine keeps_bind ?_ (fun _ => ?_)

theorem keeps_conn_reset (k c : Nat) (status : Int) :
    KeepsClosed k (conn_reset c status) := by
  unfold conn_reset
  simp only [bind_eq, pure_eq]
  repeat' with_reducible first
    | exact keeps_pure _ _
    | exact keeps_assert_oci _ _ _
    | exact keeps_getconnection _ _
    | exact keeps_call _ _
    | refine keeps_bind ?_ (fun _ => ?_)

theorem keeps_conn_commit (k c : Nat) (status : Int) :
    KeepsClosed k (conn_commit c status) := by
  unfold conn_commit
  simp only [bind_eq, pure_eq]
  repeat' with_reducible first
    | exact keeps_pure _ _
    | exact keeps_assert_oci _ _ _
    | exact keeps_getconnection _ _
    | exact keeps_call _ _
    | refine keeps_bind ?_ (fun _ => ?_)
    | refine keeps_ite _ _ _ _ ?_ ?_

theorem keeps_conn_rollback (k c : Nat) (status : Int) :
    KeepsClosed k (conn_rollback c status) := by
  unfold conn_rollback
  simp only [bind_eq, pure_eq]
  repeat' with_reducible first
    | exact keeps_pure _ _
    | exact keeps_assert_oci _ _ _
    | exact keeps_getconnection _ _
    | exact keeps_call _ _
    | refine keeps_bind ?_ (fun _ => ?_)
    | refine keeps_ite _ _ _ _ ?_ ?_

theorem keeps_conn_setautocommit (k c : Nat) (flag : Bool) (status : Int) :
    KeepsClosed k (conn_setautocommit c flag status) := by
  unfold conn_setautocommit
  simp only [bind_eq, pure_eq]
  repeat' with_reducible first
    | exact keeps_pure _ _
    | exact keeps_assert_oci _ _ _
    | exact keeps_getconnection _ _
    | exact keeps_call _ _
    | exact keeps_modifyConn _ _ _
    | refine keeps_bind ?_ (fun _ => ?_)
    | refine keeps_ite _ _ _ _ ?_ ?_

theorem keeps_env_connect (k e : Nat) (s u p : String) (n : ConnectNative) :
    KeepsClosed k (env_connect e s u p n) := by
  unfold env_connect
  simp only [bind_eq, pure_eq]
  repeat' with_reducible first
    | exact keeps_pure _ _
    | exact keeps_assert_oci _ _ _
    | exact keeps_getenvironment _ _
    | exact keeps_call _ _
    | exact keeps_modifyConn _ _ _
    | exact keeps_modifyEnv _ _ _
    | exact keeps_newConnection _ _
    | exact keeps_getWorld _
    | refine keeps_bind ?_ (fun _ => ?_)

theorem keeps_env_connect_async (k e : Nat) (s u p : String) (handle : Option Nat)
    (status0 : Int) :
    KeepsClosed k (env_connect_async e s u p handle status0) := by
  unfold env_connect_async
  simp only [bind_eq, pure_eq]
  repeat' first
    | with_reducible first
        | exact keeps_pure _ _
        | exact keeps_assert_oci _ _ _
        | exact keeps_getenvironment _ _
        | exact keeps_pthread_join _ _ _
        | exact keeps_call _ _
        | exact keeps_modifyConn _ _ _
        | exact keeps_modifyEnv _ _ _
        | exact keeps_newConnection _ _
        | exact keeps_getWorld _
        | exact keeps_luaL_argerror _ _ _
        | exact keeps_withThreads _ _
        | refine keeps_bind ?_ (fun _ => ?_)
        | refine keeps_ite _ _ _ _ ?_ ?_
    | split

theorem keeps_create_environment (k : Nat) (n : EnvNative) :
    KeepsClosed k (create_environment n) := by
  unfold create_environment
  simp only [bind_eq, pure_eq]
  repeat' with_reducible first
    | exact keeps_pure _ _
    | exact keeps_assert_oci _ _ _
    | exact keeps_call _ _
    | exact keeps_modifyEnv _ _ _
    | exact keeps_newEnvironment _ _
    | exact keeps_getWorld _
    | exact keeps_luaL_error _ _
    | refine keeps_bind ?_ (fun _ => ?_)
    | refine keeps_ite _ _ _ _ ?_ ?_


theorem thr_check_curs (l : List ((World → World) × Int))
    (h : ∀ p ∈ l, ∀ w, (p.1 w).curs = w.curs) (w : World) :
    (OCI_THR_CHECK l w).2.curs = w.curs := by
  induction l generalizing w with
  | nil => rfl
  | cons p rest ih =>
    obtain ⟨exp, s⟩ := p
    unfold OCI_THR_CHECK
    have h1 := h (exp, s) (List.mem_cons_self _ _) w
    split_ifs
    · exact h1
    · rw [ih (fun q hq => h q (List.mem_cons_of_mem _ hq)) (exp w)]
      exact h1

theorem async_open_curs (c : Nat) (n : LoginNative) (w : World) :
    (async_open c n w).curs = w.curs := by
  unfold async_open
  split
  · rfl
  · simp only [withConns_eq, withThreads_eq]
    apply thr_check_curs
    intro p hp w1
    simp only [List.mem_cons, List.mem_singleton, List.not_mem_nil, or_false] at hp
    rcases hp with h | h | h | h | h | h | h | h | h | h | h <;> subst h <;> rfl

theorem closed_step (b : Bool) (op : Op) (k : Nat) (w : World) (h : CursorClosed k w) :
    CursorClosed k (step b op w) := by
  cases op with
  | create_environment n => exact keeps_create_environment k n w h
  | env_close e => exact keeps_env_close k e w h
  | env_connect e s u p n => exact keeps_env_connect k e s u p n w h
  | env_connect_async e s u p handle status0 =>
    exact keeps_env_connect_async k e s u p handle status0 w h
  | async_open c n =>
    show CursorClosed k (if thread_running c w then async_open c n w else w)
    split_ifs
    · unfold CursorClosed
      rw [async_open_curs]
      exact h
    · exact h
  | conn_close c => exact keeps_conn_close k c w h
  | conn_abort c st => exact keeps_conn_abort k c st w h
  | conn_reset c st => exact keeps_conn_reset k c st w h
  | conn_execute c s t n => exact keeps_conn_execute k c s t n w h
  | conn_commit c st => exact keeps_conn_commit k c st w h
  | conn_rollback c st => exact keeps_conn_rollback k c st w h
  | conn_setautocommit c f st => exact keeps_conn_setautocommit k c f st w h
  | cur_close j => exact keeps_cur_close k j w h
  | cur_getcolnames j => exact keeps_cur_getcolnames k j w h
  | cur_getcoltypes j => exact keeps_cur_getcoltypes k b j w h
  | cur_getcolumns j => exact keeps_cur_getcolumns k b j w h
  | cur_fetch j a2 a3 n => exact keeps_cur_fetch k b j a2 a3 n w h
  | cur_numrows j => exact h

/-- No sequence of public operations reopens a closed cursor object. -/
theorem closed_run (b : Bool) (ops : List Op) (k : Nat) (w : World) (h : CursorClosed k w) :
    CursorClosed k (run b ops w) := by
  induction ops generalizing w with
  | nil => exact h
  | cons op rest ih => exact ih _ (closed_step b op k w h)

theorem cur_close_closed (w : World) (k : Nat) (cur : cur_data) (hk : w.curs[k]? = some cur)
    (hc : cur.closed ≠ 0) : cur_close k w = .ok [.boolean false] w := by
  unfold cur_close
  simp [hk, hc]

theorem cur_close_after_run (b : Bool) (ops : List Op) (k : Nat) (w : World)
    (h : CursorClosed k w) :
    cur_close k (run b ops w) = .ok [.boolean false] (run b ops w) := by
  obtain ⟨cur2, h2, hc2⟩ := closed_run b ops k w h
  exact cur_close_closed _ k cur2 h2 hc2

theorem getcursor_after_run (b : Bool) (ops : List Op) (k : Nat) (w : World)
    (h : CursorClosed k w) :
    getcursor k (run b ops w)
      = .raise (.argerror 1 (LUASQL_PREFIX ++ "cursor is closed")) (run b ops w) := by
  obtain ⟨cur2, h2, hc2⟩ := closed_run b ops k w h
  exact getcursor_closed _ k cur2 h2 hc2

/-- C3 as stated fails for `close`: after the fetch that reports no more rows
on the cursor of `world_cursor`, the fetch has returned a single nil, and a
`close` of that Cursor returns false; it does not raise "cursor is closed". -/
theorem close_after_last_row_returns_false :
    ∃ w1, cur_fetch true 0 .nil none fetchNative_no_data world_cursor = .ok [.nil] w1 ∧
      cur_close 0 w1 = .ok [.boolean false] w1 ∧
      cur_close 0 w1 ≠ .raise (.argerror 1 (LUASQL_PREFIX ++ "cursor is closed")) w1 :=
  ⟨(cur_fetch true 0 .nil none fetchNative_no_data world_cursor).world, rfl, rfl,
    by intro h; cases h⟩

/-- C3, amended: when the native fetch of `cur_fetch` reports no more rows on
an open Cursor, the call returns a single nil and leaves the Cursor closed.
After any sequence of public operations that follows, `fetch`, `getcolnames`,
`getcoltypes` and `getcolumns` on that Cursor raise the argument error
"cursor is closed" and change nothing, and `close` returns false and changes
nothing. -/
theorem cur_fetch_exhausted (b : Bool) (w : World) (k : Nat) (cur : cur_data)
    (arg2 : LuaValue) (arg3 : Option String) (n : FetchNative)
    (hk : w.curs[k]? = some cur) (h0 : cur.closed = 0) (hn : n.status = OCI_NO_DATA) :
    ∃ w1, cur_fetch b k arg2 arg3 n w = .ok [.nil] w1 ∧
      (∃ cur1, w1.curs[k]? = some cur1 ∧ cur1.closed = 1) ∧
      ∀ ops,
        (∀ a2 a3 n2, cur_fetch b k a2 a3 n2 (run b ops w1)
          = .raise (.argerror 1 (LUASQL_PREFIX ++ "cursor is closed")) (run b ops w1)) ∧
        cur_getcolnames k (run b ops w1)
          = .raise (.argerror 1 (LUASQL_PREFIX ++ "cursor is closed")) (run b ops w1) ∧
        cur_getcoltypes b k (run b ops w1)
          = .raise (.argerror 1 (LUASQL_PREFIX ++ "cursor is closed")) (run b ops w1) ∧
        cur_getcolumns b k (run b ops w1)
          = .raise (.argerror 1 (LUASQL_PREFIX ++ "cursor is closed")) (run b ops w1) ∧
        cur_close k (run b ops w1) = .ok [.boolean false] (run b ops w1) := by
  obtain ⟨cs, reg, cols, h⟩ := cur_fetch_no_data_eval b w k cur arg2 arg3 n hk h0 hn
  have hlt : k < w.curs.length := by
    rcases Nat.lt_or_ge k w.curs.length with hlt | hge
    · exact hlt
    · rw [List.getElem?_eq_none hge] at hk
      cases hk
  refine ⟨_, h, ⟨_, List.getElem?_set_self hlt, rfl⟩, ?_⟩
  intro ops
  have hcl : CursorClosed k
      { w with
        curs := w.curs.set k
          { cur with closed := 1, colnames := LUA_NOREF, coltypes := LUA_NOREF,
                     columns := LUA_NOREF, cols := cols }
        conns := w.conns.modify (fun cn => { cn with cur_counter := cn.cur_counter - 1 }) cur.conn
        registry := reg
        calls := w.calls ++ cs } :=
    ⟨_, List.getElem?_set_self hlt, (by decide : (1 : Int) ≠ 0)⟩
  have hg := getcursor_after_run b ops k _ hcl
  refine ⟨?_, ?_, ?_, ?_, ?_⟩
  · intro a2 a3 n2
    unfold cur_fetch
    simp only [bind_eq, Lua.bind, hg]
  · unfold cur_getcolnames
    simp only [bind_eq, Lua.bind, hg]
  · unfold cur_getcoltypes
    simp only [bind_eq, Lua.bind, hg]
  · unfold cur_getcolumns
    simp only [bind_eq, Lua.bind, hg]
  · exact cur_close_after_run b ops k _ hcl

/-- Witness of `cur_fetch_exhausted`: the cursor of `world_cursor` is open and
the fetch reports no more rows. -/
theorem cur_fetch_exhausted_witness :
    world_cursor.curs[0]? = some cur_one ∧ cur_one.closed = 0 ∧
      fetchNative_no_data.status = OCI_NO_DATA ∧
      ∃ w1, cur_fetch true 0 .nil none fetchNative_no_data world_cursor = .ok [.nil] w1 ∧
        ∃ cur1, w1.curs[0]? = some cur1 ∧ cur1.closed = 1 :=
  ⟨rfl, rfl, rfl,
    match cur_fetch_exhausted true world_cursor 0 cur_one .nil none fetchNative_no_data
      rfl rfl rfl with
    | ⟨w1, h1, h2, _⟩ => ⟨w1, h1, h2⟩⟩

/-! ## Decoding of numbers -/

theorem set8_low (v x : Nat) : column_value.set8 v x % 2 ^ 64 = x % 2 ^ 64 := by
  have h : ∀ a b : ℕ, (a / 2 ^ 64 * 2 ^ 64 + b % 2 ^ 64) % 2 ^ 64 = b % 2 ^ 64 := by
    intro a b
    omega
  exact h v x

theorem i64_twos_complement (v : Int) (h1 : -2 ^ 63 ≤ v) (h2 : v < 2 ^ 63) :
    column_value.i64 (v % 2 ^ 64).toNat = v := by
  have h3 : ((v % 2 ^ 64).toNat : Int) = v % 2 ^ 64 :=
    Int.toNat_of_nonneg (Int.emod_nonneg _ (by norm_num))
  generalize (v % 2 ^ 64).toNat = m at h3
  have h : ∀ a : ℕ, (a : Int) = v % 2 ^ 64 →
      (if a % 2 ^ 64 < 2 ^ 63 then ((a % 2 ^ 64 : ℕ) : Int)
        else ((a % 2 ^ 64 : ℕ) : Int) - 2 ^ 64) = v := by
    intro a ha
    split_ifs with h <;> omega
  exact h m h3
theorem ASSERT_OCI_cases (status : Int) (errhp : Nat) (w : World) :
    ASSERT_OCI status errhp w = .ok () w ∨
      ∃ e, ASSERT_OCI status errhp w = .raise e w ∨
        ASSERT_OCI status errhp w =
          .raise e { w with calls := w.calls ++ [.OCIErrorGet errhp] } := by
  unfold ASSERT_OCI
  simp only [pure_eq, bind_eq, Lua.pure, luaL_error, Lua.bind, call_eq]
  split_ifs
  · exact Or.inl rfl
  · exact Or.inl rfl
  all_goals exact Or.inr ⟨_, by first | exact Or.inl rfl | exact Or.inr rfl⟩

theorem world_row_cursor (v : column_value) : (world_row v).curs[0]? = some (cur_row v) := rfl

theorem value_half_int (s : Nat) (z : Int) : value_half s = z ↔ (s : Int) = 2 * z + 8 := by
  unfold value_half
  constructor
  · intro hz
    have h2 : ((s : Int) : ℚ) = ((2 * z + 8 : Int) : ℚ) := by
      push_cast
      linarith
    exact_mod_cast h2
  · intro hs
    have h2 : ((s : Int) : ℚ) = ((2 * z + 8 : Int) : ℚ) := by rw [hs]
    push_cast at h2
    linarith

theorem decodeNative_half_exact : decodeNative_half.exact value_half := by
  refine ⟨?_, ?_, ?_, ?_, ?_⟩
  · intro s
    simp only [decodeNative_half, decide_eq_true_eq]
    constructor
    · intro h
      exact ⟨((s : Int) - 8) / 2, (value_half_int s _).2 (by omega)⟩
    · rintro ⟨z, hz⟩
      have := (value_half_int s z).1 hz
      omega
  · exact_mod_cast (value_half_int 8 0).2 (by norm_num)
  · intro s t
    simp only [decodeNative_half, value_half]
    have h1 : ((t : ℚ) - 8) / 2 ≤ ((s : ℚ) - 8) / 2 ↔ t ≤ s := by
      constructor
      · intro h
        have : (t : ℚ) ≤ s := by linarith
        exact_mod_cast this
      · intro h
        have : (t : ℚ) ≤ s := by exact_mod_cast h
        linarith
    rw [h1]
    split_ifs <;> omega
  · intro s v hv hlt
    have h := (value_half_int s v).1 (by exact_mod_cast hv)
    simp only [decodeNative_half, column_value.u64, Bool.false_eq_true, if_false]
    omega
  · intro s v hv h1 h2
    have h := (value_half_int s v).1 hv
    simp only [decodeNative_half, if_true]
    have : ((s : Int) - 8) / 2 = v := by omega
    rw [this]
    exact i64_twos_complement v h1 h2

theorem converts_of_exact (n : DecodeNative) (value : Nat → ℚ) (h : n.exact value) :
    n.converts value :=
  ⟨fun s _ => h.1 s, fun _ => h.2.1, fun s t _ => h.2.2.1 s t,
    fun s v _ hv hlt => h.2.2.2.1 s v hv hlt, fun s v _ hv h1 h2 => h.2.2.2.2 s v hv h1 h2⟩

theorem not_passes_error : ¬ passes OCI_ERROR := by
  rintro (h | h) <;> exact absurd h (by decide)

theorem decodeNative_strict_converts : decodeNative_strict.converts value_half := by
  obtain ⟨e1, e2, e3, e4, e5⟩ := decodeNative_half_exact
  refine ⟨fun s _ => e1 s, fun _ => e2, fun s t _ => e3 s t, ?_, ?_⟩
  · intro s v hp hv hlt
    by_cases h8 : 8 ≤ s
    · have h := e4 s v hv hlt
      simpa [decodeNative_strict, h8] using h
    · exact absurd (by simpa [decodeNative_strict, h8] using hp) not_passes_error
  · intro s v hp hv h1 h2
    by_cases h8 : s < 18446744073709551624
    · have h := e5 s v hv h1 h2
      simpa [decodeNative_strict, h8] using h
    · exact absurd (by simpa [decodeNative_strict, h8] using hp) not_passes_error

theorem decodeNative_strict_passes (s : Nat) (signed : Bool)
    (h : if signed then s < 2 ^ 64 + 8 else 8 ≤ s) :
    decodeNative_strict.integer_passes s signed := by
  refine ⟨Or.inl rfl, Or.inl rfl, Or.inl rfl, ?_⟩
  cases signed
  · simp only [Bool.false_eq_true, if_false] at h
    simp only [decodeNative_strict, Bool.false_eq_true, if_false, h, if_true]
    exact Or.inl rfl
  · simp only [if_true] at h
    simp only [decodeNative_strict, if_true, h]
    exact Or.inl rfl

theorem not_int_of_decimal {ty : Nat} (h : is_decimal ty = true) :
    ty ≠ SQLT_INT ∧ ty ≠ SQLT_UIN := by
  simp only [is_decimal, Bool.or_eq_true, decide_eq_true_eq] at h
  rcases h with h | h <;> subst h <;> decide

/-- C12: exact decoding of integers with 64-bit host integers.  A non-null INT
column whose eight bytes are the two's complement of `v` decodes to the signed
integer `v`, a non-null UIN column whose eight bytes are `v` to the unsigned
integer `v`; both leave the state as it is, so no native conversion is made.  A
non-null decimal column whose storage denotes the integer `v` decodes to the
unsigned integer `v` for `0 ≤ v < 2 ^ 64` and to the signed integer `v` for
`-2 ^ 63 ≤ v < 0`, when the four native calls the decode makes succeed: the
integer test, the making of zero, the comparison and the one to-integer
conversion of that signedness.  These four are the calls added to the record;
the conversion of the other signedness and the to-real conversion are not
called, and nothing is assumed of them. -/
theorem pushvalue_integer_exact (w : World) (k i : Nat) (cur : cur_data) (n : DecodeNative)
    (hk : w.curs[k]? = some cur) (hnull : (cur.col i).null = 0) :
    ((cur.col i).type = SQLT_INT → ∀ v : Int, -2 ^ 63 ≤ v → v < 2 ^ 63 →
      (cur.col i).val.u64 = (v % 2 ^ 64).toNat →
      pushvalue true k i n w = .ok (.integer64 v) w) ∧
    ((cur.col i).type = SQLT_UIN → ∀ v : Nat, v < 2 ^ 64 → (cur.col i).val.u64 = v →
      pushvalue true k i n w = .ok (.unsigned64 v) w) ∧
    (is_decimal (cur.col i).type = true → ∀ value : Nat → ℚ, n.converts value →
      (∀ v : Nat, v < 2 ^ 64 → value (cur.col i).val.ociNumber = v →
        n.integer_passes (cur.col i).val.ociNumber false →
        ∃ w1, pushvalue true k i n w = .ok (.unsigned64 v) w1 ∧
          w1.calls = w.calls ++
            [.OCINumberIsInt, .OCINumberFromInt, .OCINumberCmp, .OCINumberToInt false]) ∧
      (∀ v : Int, -2 ^ 63 ≤ v → v < 0 → value (cur.col i).val.ociNumber = v →
        n.integer_passes (cur.col i).val.ociNumber true →
        ∃ w1, pushvalue true k i n w = .ok (.integer64 v) w1 ∧
          w1.calls = w.calls ++
            [.OCINumberIsInt, .OCINumberFromInt, .OCINumberCmp, .OCINumberToInt true])) := by
  refine ⟨?_, ?_, ?_⟩
  · intro hty v h1 h2 hv
    have hi : (cur.col i).val.i64 = v := by
      have h := i64_twos_complement v h1 h2
      unfold column_value.i64 at h ⊢
      unfold column_value.u64 at hv
      rw [hv]
      have hm : (v % 2 ^ 64).toNat % 2 ^ 64 = (v % 2 ^ 64).toNat := by
        rw [← hv]
        exact Nat.mod_mod _ _
      rw [hm] at h
      exact h
    unfold pushvalue
    rw [bind_eq, theCursor_bind w k cur hk]
    simp only [hnull, ne_eq, not_true_eq_false, if_false, hty, if_true, pure_eq, Lua.pure, hi]
  · intro hty v _ hv
    have t1 : SQLT_UIN ≠ SQLT_INT := by decide
    unfold pushvalue
    rw [bind_eq, theCursor_bind w k cur hk]
    simp only [hnull, ne_eq, not_true_eq_false, if_false, hty, t1, if_true, pure_eq, Lua.pure,
      hv]
  · intro hty value hex
    obtain ⟨t1, t2⟩ := not_int_of_decimal hty
    obtain ⟨e1, e2, e3, e4, e5⟩ := hex
    constructor
    · intro v hlt hv hpass
      obtain ⟨p1, p2, p3, p4⟩ := hpass
      have hint : (n.isInt (cur.col i).val.ociNumber).2 = true :=
        (e1 _ p1).2 ⟨v, by simp [hv]⟩
      have hflag : 0 ≤ (n.cmp (cur.col i).val.ociNumber (n.fromInt 0).2).2 := by
        rw [e3 _ _ p3, e2 p2, hv]
        exact_mod_cast Nat.zero_le v
      have hu := e4 _ v p4 hv hlt
      unfold pushvalue
      rw [bind_eq, theCursor_bind w k cur hk]
      simp only [hnull, ne_eq, not_true_eq_false, if_false, t1, t2, hty, if_true, hint, hflag,
        bind_eq, pure_eq, Lua.bind, call_eq, modifyCol_eq, withCurs_eq, ASSERT_OCI_passes _ _ p1,
        ASSERT_OCI_passes _ _ p2, ASSERT_OCI_passes _ _ p3, ASSERT_OCI_passes _ _ p4, Lua.pure,
        column_value.u64, set8_low]
      unfold column_value.u64 at hu
      rw [hu]
      exact ⟨_, rfl, by simp⟩
    · intro v hge hneg hv hpass
      obtain ⟨p1, p2, p3, p5⟩ := hpass
      have hint : (n.isInt (cur.col i).val.ociNumber).2 = true := (e1 _ p1).2 ⟨v, hv⟩
      have hflag : ¬ 0 ≤ (n.cmp (cur.col i).val.ociNumber (n.fromInt 0).2).2 := by
        rw [e3 _ _ p3, e2 p2, hv]
        have : ¬ (0 : Int) ≤ v := by omega
        exact_mod_cast this
      have hs := e5 _ v p5 hv hge (by omega)
      have hi : ∀ a x : Nat, column_value.i64 (column_value.set8 a x) = column_value.i64 x := by
        intro a x
        unfold column_value.i64
        rw [set8_low]
      unfold pushvalue
      rw [bind_eq, theCursor_bind w k cur hk]
      simp only [hnull, ne_eq, not_true_eq_false, if_false, t1, t2, hty, if_true, hint, hflag,
        bind_eq, pure_eq, Lua.bind, call_eq, modifyCol_eq, withCurs_eq, ASSERT_OCI_passes _ _ p1,
        ASSERT_OCI_passes _ _ p2, ASSERT_OCI_passes _ _ p3, ASSERT_OCI_passes _ _ p5, Lua.pure,
        hi, hs]
      exact ⟨_, rfl, by simp⟩

/-- Witness of `pushvalue_integer_exact`, with the native routines of
`decodeNative_strict`, which refuse a conversion out of range: the decimal
column of the cursor holds the storage of the integer 5, then of the integer
-3, of which only the signed conversion succeeds. -/
theorem pushvalue_integer_exact_witness :
    decodeNative_strict.converts value_half ∧
    ¬ passes (decodeNative_strict.toInt 2 false).1 ∧
    (∃ w1, pushvalue true 0 1 decodeNative_strict (world_row 18) = .ok (.unsigned64 5) w1 ∧
      w1.calls = (world_row 18).calls ++
        [.OCINumberIsInt, .OCINumberFromInt, .OCINumberCmp, .OCINumberToInt false]) ∧
    (∃ w1, pushvalue true 0 1 decodeNative_strict (world_row 2) = .ok (.integer64 (-3)) w1 ∧
      w1.calls = (world_row 2).calls ++
        [.OCINumberIsInt, .OCINumberFromInt, .OCINumberCmp, .OCINumberToInt true]) :=
  ⟨decodeNative_strict_converts, not_passes_error,
   ((pushvalue_integer_exact (world_row 18) 0 1 (cur_row 18) decodeNative_strict rfl rfl).2.2 rfl
      value_half decodeNative_strict_converts).1 5 (by norm_num)
      ((value_half_int 18 5).2 rfl) (decodeNative_strict_passes 18 false (by decide)),
   ((pushvalue_integer_exact (world_row 2) 0 1 (cur_row 2) decodeNative_strict rfl rfl).2.2 rfl
      value_half decodeNative_strict_converts).2 (-3) (by norm_num)
      (by norm_num) ((value_half_int 2 (-3)).2 rfl) (decodeNative_strict_passes 2 true (by decide))⟩

/-! ## What a computation leaves unchanged -/

theorem frame_mono {R S : World → World → Prop} {α : Type} {m : Lua α}
    (h : ∀ w w1, R w w1 → S w w1) (hm : Frame R m) : Frame S m :=
  fun w => h _ _ (hm w)

theorem frame_bind {R : World → World → Prop} {α β : Type} {m : Lua α} {f : α → Lua β}
    (htrans : ∀ w w1 w2, R w w1 → R w1 w2 → R w w2) (hm : Frame R m)
    (hf : ∀ a, Frame R (f a)) : Frame R (Lua.bind m f) := by
  intro w
  have h1 := hm w
  unfold Lua.bind
  cases h : m w with
  | ok a w1 =>
    rw [h] at h1
    exact htrans _ _ _ h1 (hf a w1)
  | raise e w1 =>
    rw [h] at h1
    exact h1

theorem frame_id {R : World → World → Prop} {α : Type} {m : Lua α} (hrefl : ∀ w, R w w)
    (h : ∀ w, (m w).world = w) : Frame R m := by
  intro w
  rw [h w]
  exact hrefl w

theorem frame_ite {R : World → World → Prop} {α : Type} (c : Prop) [Decidable c] (a b : Lua α)
    (ha : Frame R a) (hb : Frame R b) : Frame R (if c then a else b) := by
  split_ifs
  · exact ha
  · exact hb

theorem frame_for_each {R : World → World → Prop} (hrefl : ∀ w, R w w)
    (htrans : ∀ w w1 w2, R w w1 → R w1 w2 → R w w2) (body : Nat → Lua Unit)
    (h : ∀ i, Frame R (body i)) (l : List Nat) : Frame R (for_each body l) := by
  induction l with
  | nil => exact fun w => hrefl w
  | cons i rest ih =>
    unfold for_each
    exact frame_bind htrans (h i) (fun _ => ih)

theorem raiseFrame_bind {R : World → World → Prop} {α β : Type} {m : Lua α} {f : α → Lua β}
    (htrans : ∀ w w1 w2, R w w1 → R w1 w2 → R w w2) (hm : Frame R m)
    (hf : ∀ a, RaiseFrame R (f a)) : RaiseFrame R (Lua.bind m f) := by
  intro w e w2 hr
  have h1 := hm w
  unfold Lua.bind at hr
  cases h : m w with
  | ok a w1 =>
    rw [h] at h1 hr
    exact htrans _ _ _ h1 (hf a w1 e w2 hr)
  | raise e1 w1 =>
    rw [h] at h1 hr
    cases hr
    exact h1

theorem raiseFrame_of_ok {R : World → World → Prop} {α : Type} {m : Lua α}
    (h : ∀ w, ∃ a w1, m w = .ok a w1) : RaiseFrame R m := by
  intro w e w1 hr
  obtain ⟨a, w2, h2⟩ := h w
  rw [h2] at hr
  cases hr

theorem ASSERT_PTR_cases (p : Nat) (w : World) :
    ASSERT_PTR p w = .ok () w ∨ ∃ e, ASSERT_PTR p w = .raise e w := by
  unfold ASSERT_PTR
  split_ifs
  · exact Or.inr ⟨_, rfl⟩
  · exact Or.inl rfl

/-! ### The columns of one cursor -/

theorem colsFrame_trans3 (k : Nat) (w w1 w2 : World) (h1 : ColsFrame k w w1)
    (h2 : ColsFrame k w1 w2) : ColsFrame k w w2 :=
  colsFrame_trans h1 h2

theorem cols_call (k : Nat) (c : NativeCall) : Frame (ColsFrame k) (call c) :=
  fun w => colsFrame_call k w [c]

theorem cols_modifyCol (k i : Nat) (f : column_data → column_data) :
    Frame (ColsFrame k) (modifyCol k i f) :=
  fun w => colsFrame_modifyCol k w
    (fun cols => cols.map (fun cs : List column_data => cs.modify f (i - 1)))

theorem cols_assert_oci (k : Nat) (status : Int) (errhp : Nat) :
    Frame (ColsFrame k) (ASSERT_OCI status errhp) := by
  intro w
  rcases ASSERT_OCI_cases status errhp w with h | ⟨e, h | h⟩ <;> rw [h]
  · exact colsFrame_refl k w
  · exact colsFrame_refl k w
  · exact colsFrame_call k w _

theorem cols_assert_ptr (k : Nat) (p : Nat) : Frame (ColsFrame k) (ASSERT_PTR p) := by
  intro w
  rcases ASSERT_PTR_cases p w with h | ⟨e, h⟩ <;> rw [h] <;> exact colsFrame_refl k w

theorem cols_theCursor (k j : Nat) : Frame (ColsFrame k) (theCursor j) :=
  fun w => colsFrame_refl k w

theorem cols_pure {α : Type} (k : Nat) (a : α) : Frame (ColsFrame k) (Lua.pure a) :=
  fun w => colsFrame_refl k w

theorem cols_luaL_error {α : Type} (k : Nat) (msg : String) :
    Frame (ColsFrame k) (luaL_error msg : Lua α) :=
  fun w => colsFrame_refl k w

theorem cols_alloc_column_buffer (k i : Nat) (n : ColumnNative) :
    Frame (ColsFrame k) (alloc_column_buffer k i n) := by
  unfold alloc_column_buffer copy_column_name
  simp only [bind_eq, pure_eq]
  repeat' with_reducible first
    | exact cols_assert_oci _ _ _
    | exact cols_assert_ptr _ _
    | exact cols_modifyCol _ _ _
    | exact cols_call _ _
    | exact cols_theCursor _ _
    | exact cols_luaL_error _ _
    | refine frame_bind (colsFrame_trans3 _) ?_ (fun _ => ?_)
    | refine frame_ite _ _ _ ?_ ?_

/-! ### The connection objects -/

theorem sameConns_refl (w : World) : SameConns w w := rfl

theorem sameConns_trans (w w1 w2 : World) (h1 : SameConns w w1) (h2 : SameConns w1 w2) :
    SameConns w w2 :=
  h2.trans h1

theorem sameConns_of_cols (k : Nat) (w w1 : World) (h : ColsFrame k w w1) : SameConns w w1 :=
  h.2.1

theorem conns_assert_oci (status : Int) (errhp : Nat) :
    Frame SameConns (ASSERT_OCI status errhp) :=
  frame_mono (sameConns_of_cols 0) (cols_assert_oci 0 status errhp)

theorem conns_assert_ptr (p : Nat) : Frame SameConns (ASSERT_PTR p) :=
  frame_mono (sameConns_of_cols 0) (cols_assert_ptr 0 p)

theorem conns_call (c : NativeCall) : Frame SameConns (call c) :=
  fun _ => rfl

theorem conns_modifyCur (k : Nat) (f : cur_data → cur_data) : Frame SameConns (modifyCur k f) :=
  fun _ => rfl

theorem conns_newCursor (cur : cur_data) : Frame SameConns (newCursor cur) :=
  fun _ => rfl

theorem conns_getWorld : Frame SameConns getWorld :=
  fun _ => rfl

theorem conns_alloc_loop (k : Nat) (n : CursorNative) (l : List Nat) :
    Frame SameConns (for_each (fun i => alloc_column_buffer k i (n.column i)) l) :=
  frame_for_each sameConns_refl sameConns_trans _
    (fun i => frame_mono (sameConns_of_cols k) (cols_alloc_column_buffer k i _)) l

theorem raiseFrame_modifyConn_pure {R : World → World → Prop} {α : Type} (c : Nat)
    (f : conn_data → conn_data) (v : α) :
    RaiseFrame R (Lua.bind (modifyConn c f) (fun _ => Lua.pure v)) :=
  raiseFrame_of_ok (fun _ => ⟨_, _, rfl⟩)

theorem create_cursor_raise_conns (c stmt : Nat) (text : String) (n : CursorNative) :
    RaiseFrame SameConns (create_cursor c stmt text n) := by
  unfold create_cursor
  simp only [bind_eq, pure_eq]
  repeat' with_reducible first
    | exact conns_assert_oci _ _
    | exact conns_assert_ptr _
    | exact conns_call _
    | exact conns_modifyCur _ _
    | exact conns_newCursor _
    | exact conns_getWorld
    | exact conns_alloc_loop _ _ _
    | exact raiseFrame_modifyConn_pure _ _ _
    | refine raiseFrame_bind sameConns_trans ?_ (fun _ => ?_)

/-! ### Unsupported column types -/

theorem supported_iff (ty : Nat) :
    supported ty = true ↔
      ty ∈ [SQLT_CHR, SQLT_STR, SQLT_VCS, SQLT_AFC, SQLT_AVC, SQLT_FLT, SQLT_INT, SQLT_UIN,
        SQLT_NUM, SQLT_VNU, SQLT_DAT, SQLT_TIMESTAMP, SQLT_TIMESTAMP_TZ, SQLT_TIMESTAMP_LTZ,
        SQLT_CLOB] := by
  simp only [supported, is_character, is_decimal, is_datetime, Bool.or_eq_true,
    decide_eq_true_eq, List.mem_cons, List.mem_singleton, List.not_mem_nil, or_false]
  tauto

theorem alloc_column_buffer_unsupported (k i : Nat) (n : ColumnNative) (w : World)
    (h : n.calls_succeed) (hty : supported n.type = false) :
    ∃ w1, alloc_column_buffer k i n w =
      .raise (.error (LUASQL_PREFIX ++ "invalid type " ++ toString n.type ++ " #" ++ toString i))
        w1 := by
  obtain ⟨h1, h2, h3, h4, _⟩ := h
  have one : (1 : Nat) ≠ NULL := by decide
  simp only [supported, Bool.or_eq_false_iff, decide_eq_false_iff_not] at hty
  obtain ⟨⟨⟨⟨⟨⟨t1, t2⟩, t3⟩, t4⟩, t5⟩, t6⟩, t7⟩ := hty
  unfold alloc_column_buffer copy_column_name
  simp only [bind_eq, pure_eq, h4, if_true, Lua.bind, theCursor, call_eq, modifyCol_eq,
    ASSERT_OCI_passes _ _ h1, ASSERT_OCI_passes _ _ h2, ASSERT_OCI_passes _ _ h3, Lua.pure,
    ASSERT_PTR_ok 1 one, t1, t2, t3, t4, t5, t6, t7, Bool.false_eq_true, if_false, luaL_error]
  exact ⟨_, rfl⟩

theorem for_each_raises (body : Nat → Lua Unit) (l : List Nat) (j : Nat) (hj : j ∈ l)
    (h : ∀ w, ∃ e w1, body j w = .raise e w1) (w : World) :
    ∃ e w1, for_each body l w = .raise e w1 := by
  induction l generalizing w with
  | nil => cases hj
  | cons i rest ih =>
    unfold for_each Lua.bind
    cases hb : body i w with
    | raise e w1 => exact ⟨e, w1, rfl⟩
    | ok a w1 =>
      rcases List.mem_cons.1 hj with hji | hjr
      · subst hji
        obtain ⟨e, w2, h2⟩ := h w
        rw [h2] at hb
        cases hb
      · exact ih hjr w1

/-- C13: cursor creation fails exactly on unsupported column types.  When no
native call and no allocation fails, `alloc_column_buffer` raises the error
`LuaSQL: invalid type <tag> #<index>`, with the native tag and the 1-based
index of the column, if and only if the tag is none of CHR, STR, VCS, AFC, AVC,
FLT, INT, UIN, NUM, VNU, DAT, TIMESTAMP, TIMESTAMP_TZ, TIMESTAMP_LTZ, CLOB, and
`create_cursor` raises if and only if one of the columns `1 .. numcols` has
such a tag.  Whenever `create_cursor` raises, for whatever reason, it returns
no Cursor and the connection objects, so `cur_counter`, are as before. -/
theorem create_cursor_invalid_type (w : World) (k i : Nat) (n : ColumnNative) (c stmt : Nat)
    (text : String) (cn : CursorNative) (h : n.calls_succeed) (hc : cn.calls_succeed) :
    ((∃ w1, alloc_column_buffer k i n w =
        .raise (.error ("LuaSQL: invalid type " ++ toString n.type ++ " #" ++ toString i)) w1) ↔
      n.type ∉ [SQLT_CHR, SQLT_STR, SQLT_VCS, SQLT_AFC, SQLT_AVC, SQLT_FLT, SQLT_INT, SQLT_UIN,
        SQLT_NUM, SQLT_VNU, SQLT_DAT, SQLT_TIMESTAMP, SQLT_TIMESTAMP_TZ, SQLT_TIMESTAMP_LTZ,
        SQLT_CLOB]) ∧
    ((∃ e w1, create_cursor c stmt text cn w = .raise e w1) ↔
      ∃ j, 1 ≤ j ∧ j ≤ cn.numcols ∧
        (cn.column j).type ∉ [SQLT_CHR, SQLT_STR, SQLT_VCS, SQLT_AFC, SQLT_AVC, SQLT_FLT,
          SQLT_INT, SQLT_UIN, SQLT_NUM, SQLT_VNU, SQLT_DAT, SQLT_TIMESTAMP, SQLT_TIMESTAMP_TZ,
          SQLT_TIMESTAMP_LTZ, SQLT_CLOB]) ∧
    (∀ e w1, create_cursor c stmt text cn w = .raise e w1 →
      w1.conns = w.conns ∧ w1.conns[c]?.map (fun x => x.cur_counter)
        = w.conns[c]?.map (fun x => x.cur_counter)) := by
  refine ⟨?_, ?_, ?_⟩
  · rw [← supported_iff, Bool.not_eq_true]
    constructor
    · rintro ⟨w1, hw1⟩
      by_contra hs
      rw [Bool.not_eq_false] at hs
      obtain ⟨h1, h2, h3, h4, h5, h6, h7, h8, h9⟩ := h
      obtain ⟨a, w2, hw2, _⟩ :=
        alloc_column_buffer_ok k i n
          ⟨h1, h2, h3, h4, hs, fun _ => ⟨h5, h6, h9⟩, fun _ => h7, h8⟩ w
      rw [hw2] at hw1
      cases hw1
    · intro hs
      exact alloc_column_buffer_unsupported k i n w h hs
  · obtain ⟨c1, c2, c3, c4, c5⟩ := hc
    constructor
    · rintro ⟨e, w1, hw1⟩
      by_contra hno
      have hall : ∀ j, 1 ≤ j → j ≤ cn.numcols → supported (cn.column j).type = true := by
        intro j hj1 hj2
        rw [supported_iff]
        by_contra hj
        exact hno ⟨j, hj1, hj2, hj⟩
      have hs : cn.succeeds := by
        refine ⟨c1, c2, c3, c4, fun j hj1 hj2 => ?_⟩
        obtain ⟨h1, h2, h3, h4, h5, h6, h7, h8, h9⟩ := c5 j hj1 hj2
        exact ⟨h1, h2, h3, h4, hall j hj1 hj2, fun _ => ⟨h5, h6, h9⟩, fun _ => h7, h8⟩
      obtain ⟨w2, cols, hw2, _⟩ := create_cursor_ok c stmt text cn w hs
      rw [hw2] at hw1
      cases hw1
    · rintro ⟨j, hj1, hj2, hj⟩
      rw [← supported_iff, Bool.not_eq_true] at hj
      have one : (1 : Nat) ≠ NULL := by decide
      unfold create_cursor
      simp only [bind_eq, Lua.bind, getWorld, newCursor_eq, c1, c4, if_true, ASSERT_PTR_ok 1 one,
        ASSERT_OCI_passes _ _ c2, ASSERT_OCI_passes _ _ c3, Lua.pure, call_eq, modifyCur_eq,
        modifyConn_eq, pure_eq, modify_append_last]
      obtain ⟨e, w1, hw1⟩ := for_each_raises
        (fun i => alloc_column_buffer w.curs.length i (cn.column i)) (List.range' 1 cn.numcols) j
        (by rw [List.mem_range'_1]; omega)
        (fun w0 => by
          obtain ⟨w1, hw1⟩ := alloc_column_buffer_unsupported w.curs.length j (cn.column j) w0
            (c5 j hj1 hj2) hj
          exact ⟨_, w1, hw1⟩)
        { w with
          curs := w.curs ++
            [{ closed := 0, conn := c, numcols := cn.numcols, colnames := LUA_NOREF,
               coltypes := LUA_NOREF, columns := LUA_NOREF, text := some text, stmthp := stmt,
               errhp := cn.errhp,
               cols := some (List.replicate cn.numcols column_data.zero) }]
          calls := w.calls ++ [.OCIHandleAlloc .ERROR] ++ [.OCIAttrGet stmt .PARAM_COUNT] }
      simp only [List.append_assoc] at hw1 ⊢
      rw [hw1]
      exact ⟨e, w1, rfl⟩
  · intro e w1 hr
    have h1 : w1.conns = w.conns := create_cursor_raise_conns c stmt text cn w e w1 hr
    exact ⟨h1, by rw [h1]⟩

theorem columnNative_ok_calls_succeed (ty : Nat) (name : String) :
    (columnNative_ok ty name).calls_succeed :=
  ⟨Or.inl rfl, Or.inl rfl, Or.inl rfl, rfl, Or.inl rfl,
    (by decide : (5000 : Nat) % 2 ^ 64 ≠ NULL), Or.inl rfl, Or.inl rfl, Or.inl rfl⟩

theorem cursorNative_one_calls_succeed (errhp ty : Nat) :
    (cursorNative_one errhp ty).calls_succeed :=
  ⟨rfl, Or.inl rfl, Or.inl rfl, rfl, fun _ _ _ => columnNative_ok_calls_succeed ty "ONE"⟩

/-- Witness of `create_cursor_invalid_type`: a query on a BLOB column (tag 113)
while the connection has one cursor.  The allocation of the column raises the
error for tag 113 and column 1, and so does the creation of the cursor. -/
theorem create_cursor_invalid_type_witness :
    (∃ w1, alloc_column_buffer 1 1 (columnNative_ok SQLT_BLOB "B") world_cursor =
      .raise (.error "LuaSQL: invalid type 113 #1") w1) ∧
    (∃ e w1, create_cursor 0 3100 "SELECT b FROM t" (cursorNative_one 3101 SQLT_BLOB)
      world_cursor = .raise e w1) :=
  have h := create_cursor_invalid_type world_cursor 1 1 (columnNative_ok SQLT_BLOB "B") 0 3100
    "SELECT b FROM t" (cursorNative_one 3101 SQLT_BLOB)
    (columnNative_ok_calls_succeed SQLT_BLOB "B") (cursorNative_one_calls_succeed 3101 SQLT_BLOB)
  ⟨h.1.2 (by decide), h.2.1.2 ⟨1, le_refl 1, le_refl 1, by decide⟩⟩

/-! ## Autocommit -/

theorem modify_field_eq {α β : Type} (f : α → α) (g : α → β) (hf : ∀ a, g (f a) = g a)
    (l : List α) (c j : Nat) : ((l.modify f c)[j]?).map g = (l[j]?).map g := by
  by_cases hj : c = j
  · subst hj
    cases h : l[c]? <;> simp [h, hf]
  · rw [List.getElem?_modify_ne _ _ hj]

/-- C14: `conn_setautocommit` on an open Connection.  With a true flag the
field `auto_commit` is set to 1 and then exactly one native transaction call is
made, a rollback on the service context of the Connection; whatever the
rollback answers, the calls added to the record are that rollback and at most
the reading of the error text, so never a commit.  When the rollback succeeds
the function returns `true` and `auto_commit` is on.  With a false flag the
function returns `true`, makes no native call and leaves `auto_commit` off.
In every case the `closed` flag and `cur_counter` of every Connection are
as before. -/
theorem conn_setautocommit_rollback_only (w : World) (c : Nat) (conn : conn_data) (status : Int)
    (hc : w.conns[c]? = some conn) (h0 : conn.closed = 0) :
    (passes status →
      conn_setautocommit c true status w = .ok [.boolean true]
        { w with
          conns := w.conns.modify (fun cn => { cn with auto_commit := 1 }) c
          calls := w.calls ++ [.OCITransRollback conn.svchp] }) ∧
    (∃ l, (conn_setautocommit c true status w).world.calls =
        w.calls ++ .OCITransRollback conn.svchp :: l ∧ ∀ x ∈ l, x = .OCIErrorGet conn.errhp) ∧
    conn_setautocommit c false status w = .ok [.boolean true]
      { w with conns := w.conns.modify (fun cn => { cn with auto_commit := 0 }) c } ∧
    (∀ (flag : Bool) (j : Nat),
      ((conn_setautocommit c flag status w).world.conns[j]?).map conn_data.closed =
        (w.conns[j]?).map conn_data.closed ∧
      ((conn_setautocommit c flag status w).world.conns[j]?).map conn_data.cur_counter =
        (w.conns[j]?).map conn_data.cur_counter) := by
  have htrue : ∀ st, conn_setautocommit c true st w =
      Lua.bind (ASSERT_OCI st conn.errhp) (fun _ => Lua.pure [LuaValue.boolean true])
        { w with
          conns := w.conns.modify (fun cn => { cn with auto_commit := 1 }) c
          calls := w.calls ++ [.OCITransRollback conn.svchp] } := by
    intro st
    unfold conn_setautocommit
    simp only [bind_eq, pure_eq, if_true]
    simp only [Lua.bind, getconnection_open w c conn hc h0, modifyConn_eq, call_eq, withConns_eq]
  have hfalse : conn_setautocommit c false status w = .ok [.boolean true]
      { w with conns := w.conns.modify (fun cn => { cn with auto_commit := 0 }) c } := by
    unfold conn_setautocommit
    simp only [bind_eq, pure_eq, Bool.false_eq_true, if_false]
    simp only [Lua.bind, getconnection_open w c conn hc h0, modifyConn_eq, withConns_eq, Lua.pure]
  have hconns : ∀ flag, ∃ v : Int, (conn_setautocommit c flag status w).world.conns =
      w.conns.modify (fun cn => { cn with auto_commit := v }) c := by
    intro flag
    cases flag
    · rw [hfalse]
      exact ⟨0, rfl⟩
    · rw [htrue]
      unfold Lua.bind
      rcases ASSERT_OCI_cases status conn.errhp
          { w with
            conns := w.conns.modify (fun cn => { cn with auto_commit := 1 }) c
            calls := w.calls ++ [.OCITransRollback conn.svchp] } with h | ⟨e, h | h⟩ <;>
        rw [h] <;> exact ⟨1, rfl⟩
  refine ⟨?_, ?_, hfalse, ?_⟩
  · intro hp
    rw [htrue, ASSERT_OCI_passes _ _ hp]
    rfl
  · rw [htrue]
    unfold Lua.bind
    rcases ASSERT_OCI_cases status conn.errhp
        { w with
          conns := w.conns.modify (fun cn => { cn with auto_commit := 1 }) c
          calls := w.calls ++ [.OCITransRollback conn.svchp] } with h | ⟨e, h | h⟩ <;>
      rw [h]
    · exact ⟨[], rfl, by simp⟩
    · exact ⟨[], rfl, by simp⟩
    · exact ⟨[.OCIErrorGet conn.errhp], by simp [Outcome.world], by simp⟩
  · intro flag j
    obtain ⟨v, hv⟩ := hconns flag
    rw [hv]
    exact ⟨modify_field_eq (fun cn : conn_data => { cn with auto_commit := v }) conn_data.closed
        (fun _ => rfl) _ _ _,
      modify_field_eq (fun cn : conn_data => { cn with auto_commit := v }) conn_data.cur_counter
        (fun _ => rfl) _ _ _⟩

/-- Witness of `conn_setautocommit_rollback_only`: autocommit is turned on for
the open connection of `world_connected`, the rollback succeeding. -/
theorem conn_setautocommit_rollback_only_witness :
    conn_setautocommit 0 true OCI_SUCCESS world_connected = .ok [.boolean true]
      { world_connected with
        conns := world_connected.conns.modify (fun cn => { cn with auto_commit := 1 }) 0
        calls := world_connected.calls ++ [.OCITransRollback conn_connected.svchp] } :=
  (conn_setautocommit_rollback_only world_connected 0 conn_connected OCI_SUCCESS rfl rfl).1
    (Or.inl rfl)

/-! ## The calls a computation adds to the record -/

theorem adds_refl (P : NativeCall → Prop) (w : World) : Adds P w w :=
  ⟨[], by simp, by simp⟩

theorem adds_trans (P : NativeCall → Prop) (w w1 w2 : World) (h1 : Adds P w w1)
    (h2 : Adds P w1 w2) : Adds P w w2 := by
  obtain ⟨l1, e1, p1⟩ := h1
  obtain ⟨l2, e2, p2⟩ := h2
  refine ⟨l1 ++ l2, by rw [e2, e1, List.append_assoc], ?_⟩
  intro x hx
  rcases List.mem_append.1 hx with h | h
  · exact p1 x h
  · exact p2 x h

theorem adds_quiet {P : NativeCall → Prop} {α : Type} (m : Lua α)
    (h : ∀ w, (m w).world.calls = w.calls) : Frame (Adds P) m :=
  fun w => ⟨[], by simp [h w], by simp⟩

theorem adds_call (P : NativeCall → Prop) (c : NativeCall) (h : P c) : Frame (Adds P) (call c) :=
  fun w => ⟨[c], rfl, by simpa using h⟩

theorem adds_pure {α : Type} (P : NativeCall → Prop) (a : α) : Frame (Adds P) (Lua.pure a) :=
  adds_quiet _ (fun _ => rfl)

theorem adds_luaL_error {α : Type} (P : NativeCall → Prop) (msg : String) :
    Frame (Adds P) (luaL_error msg : Lua α) :=
  adds_quiet _ (fun _ => rfl)

theorem adds_theCursor (P : NativeCall → Prop) (k : Nat) : Frame (Adds P) (theCursor k) :=
  adds_quiet _ (fun _ => rfl)

theorem adds_getWorld (P : NativeCall → Prop) : Frame (Adds P) getWorld :=
  adds_quiet _ (fun _ => rfl)

theorem adds_modifyCol (P : NativeCall → Prop) (k i : Nat) (f : column_data → column_data) :
    Frame (Adds P) (modifyCol k i f) :=
  adds_quiet _ (fun _ => rfl)

theorem adds_modifyCur (P : NativeCall → Prop) (k : Nat) (f : cur_data → cur_data) :
    Frame (Adds P) (modifyCur k f) :=
  adds_quiet _ (fun _ => rfl)

theorem adds_modifyConn (P : NativeCall → Prop) (c : Nat) (f : conn_data → conn_data) :
    Frame (Adds P) (modifyConn c f) :=
  adds_quiet _ (fun _ => rfl)

theorem adds_newCursor (P : NativeCall → Prop) (cur : cur_data) :
    Frame (Adds P) (newCursor cur) :=
  adds_quiet _ (fun _ => rfl)

theorem adds_newtable (P : NativeCall → Prop) : Frame (Adds P) newtable :=
  adds_quiet _ (fun _ => rfl)

theorem adds_rawset (P : NativeCall → Prop) (t : Nat) (key : LuaKey) (v : LuaValue) :
    Frame (Adds P) (rawset t key v) :=
  adds_quiet _ (fun _ => rfl)

theorem adds_assert_ptr (P : NativeCall → Prop) (p : Nat) : Frame (Adds P) (ASSERT_PTR p) := by
  refine adds_quiet _ (fun w => ?_)
  rcases ASSERT_PTR_cases p w with h | ⟨e, h⟩ <;> rw [h] <;> rfl

theorem adds_assert_oci (P : NativeCall → Prop) (status : Int) (errhp : Nat)
    (h : P (.OCIErrorGet errhp)) : Frame (Adds P) (ASSERT_OCI status errhp) := by
  intro w
  rcases ASSERT_OCI_cases status errhp w with h1 | ⟨e, h1 | h1⟩ <;> rw [h1]
  · exact adds_refl P w
  · exact adds_refl P w
  · exact ⟨[.OCIErrorGet errhp], rfl, by simpa using h⟩

theorem adds_getconnection (P : NativeCall → Prop) (c : Nat) :
    Frame (Adds P) (getconnection c) := by
  refine adds_quiet _ (fun w => ?_)
  unfold getconnection
  split
  · rfl
  · split_ifs <;> rfl

theorem adds_getcursor (P : NativeCall → Prop) (k : Nat) : Frame (Adds P) (getcursor k) := by
  refine adds_quiet _ (fun w => ?_)
  unfold getcursor
  split
  · rfl
  · split_ifs <;> rfl

/-! ### No allocation of a statement handle and no prepare -/

theorem unprepared_alloc_column_buffer (k i : Nat) (n : ColumnNative) :
    Frame (Adds (fun x => x.prepares = false)) (alloc_column_buffer k i n) := by
  unfold alloc_column_buffer copy_column_name
  simp only [bind_eq, pure_eq]
  repeat' first
    | (with_reducible refine adds_assert_oci _ _ _ ?_
       exact rfl)
    | with_reducible exact adds_assert_ptr _ _
    | with_reducible exact adds_modifyCol _ _ _ _
    | (with_reducible refine adds_call _ _ ?_
       exact rfl)
    | with_reducible exact adds_theCursor _ _
    | with_reducible exact adds_luaL_error _ _
    | with_reducible refine frame_bind (adds_trans _) ?_ (fun _ => ?_)
    | with_reducible refine frame_ite _ _ _ ?_ ?_

theorem unprepared_alloc_loop (k : Nat) (n : CursorNative) (l : List Nat) :
    Frame (Adds (fun x => x.prepares = false))
      (for_each (fun i => alloc_column_buffer k i (n.column i)) l) :=
  frame_for_each (adds_refl _) (adds_trans _) _
    (fun i => unprepared_alloc_column_buffer k i _) l

theorem unprepared_create_cursor (c stmt : Nat) (text : String) (n : CursorNative) :
    Frame (Adds (fun x => x.prepares = false)) (create_cursor c stmt text n) := by
  unfold create_cursor
  simp only [bind_eq, pure_eq]
  repeat' first
    | (with_reducible refine adds_assert_oci _ _ _ ?_
       exact rfl)
    | with_reducible exact adds_assert_ptr _ _
    | with_reducible exact adds_modifyCur _ _ _
    | with_reducible exact adds_modifyConn _ _ _
    | with_reducible exact adds_newCursor _ _
    | with_reducible exact adds_getWorld _
    | with_reducible exact adds_pure _ _
    | (with_reducible refine adds_call _ _ ?_
       exact rfl)
    | with_reducible exact unprepared_alloc_loop _ _ _
    | with_reducible refine frame_bind (adds_trans _) ?_ (fun _ => ?_)

theorem unprepared_conn_execute (c : Nat) (statement : String) (p : Nat) (n : ExecuteNative) :
    Frame (Adds (fun x => x.prepares = false)) (conn_execute c statement (some p) n) := by
  unfold conn_execute
  simp only [bind_eq, pure_eq]
  repeat' first
    | (with_reducible refine adds_assert_oci _ _ _ ?_
       exact rfl)
    | with_reducible exact adds_getconnection _ _
    | with_reducible exact adds_pure _ _
    | (with_reducible refine adds_call _ _ ?_
       exact rfl)
    | with_reducible exact unprepared_create_cursor _ _ _ _
    | with_reducible refine frame_bind (adds_trans _) ?_ (fun _ => ?_)
    | with_reducible refine frame_ite _ _ _ ?_ ?_

/-- C17: "still executing" is a pending state, not an error.  On an open
Connection `c` and an open Cursor `k`, when the native call answers
`OCI_STILL_EXECUTING`: `conn_execute` returns the statement handle as a light
userdata and the status code, `cur_fetch`, `conn_commit` and `conn_rollback`
return `nil` and the status code; none raises.  The state afterwards is the
state before with the native calls made added to the record (and, for the
fetch, whatever the native call wrote into the column buffers): no handle
object changes, so Cursor and Connection stay open and the counters and
`auto_commit` are as before, and no handle is freed.  When `conn_execute` is
called again with the handle as token, it makes no allocation of a statement
handle and no prepare, whatever the native calls answer, and it asks the
statement type of, and executes, the handle of the token. -/
theorem still_executing_is_pending (b : Bool) (w : World) (c k : Nat) (conn : conn_data)
    (cur : cur_data) (statement : String) (n : ExecuteNative) (arg2 : LuaValue)
    (arg3 : Option String) (f : FetchNative)
    (hc : w.conns[c]? = some conn) (hc0 : conn.closed = 0)
    (hk : w.curs[k]? = some cur) (hk0 : cur.closed = 0) :
    (n.executeStatus = OCI_STILL_EXECUTING → passes n.allocStatus → passes n.prefetchStatus →
      passes n.prepareStatus → passes n.typeStatus →
      conn_execute c statement none n w =
        .ok [.lightuserdata n.stmthp, .number (.ofInt OCI_STILL_EXECUTING)]
          { w with
            calls := w.calls ++
              [.OCIHandleAlloc .STMT, .OCIAttrSet n.stmthp .PREFETCH_ROWS,
               .OCIStmtPrepare n.stmthp statement, .OCIAttrGet n.stmthp .STMT_TYPE,
               .OCIStmtExecute conn.svchp n.stmthp (if n.type = OCI_STMT_SELECT then 0 else 1)
                 (if conn.auto_commit ≠ 0 then OCI_COMMIT_ON_SUCCESS else OCI_DEFAULT)] }) ∧
    (∀ p, n.executeStatus = OCI_STILL_EXECUTING → passes n.typeStatus →
      conn_execute c statement (some p) n w =
        .ok [.lightuserdata p, .number (.ofInt OCI_STILL_EXECUTING)]
          { w with
            calls := w.calls ++
              [.OCIAttrGet p .STMT_TYPE,
               .OCIStmtExecute conn.svchp p (if n.type = OCI_STMT_SELECT then 0 else 1)
                 (if conn.auto_commit ≠ 0 then OCI_COMMIT_ON_SUCCESS else OCI_DEFAULT)] }) ∧
    (∀ p, (∃ l, (conn_execute c statement (some p) n w).world.calls = w.calls ++ l ∧
        ∀ x ∈ l, x ≠ .OCIHandleAlloc .STMT ∧ ∀ h s, x ≠ .OCIStmtPrepare h s) ∧
      (passes n.typeStatus →
        ∃ l, (conn_execute c statement (some p) n w).world.calls = w.calls ++
          [.OCIAttrGet p .STMT_TYPE,
           .OCIStmtExecute conn.svchp p (if n.type = OCI_STMT_SELECT then 0 else 1)
             (if conn.auto_commit ≠ 0 then OCI_COMMIT_ON_SUCCESS else OCI_DEFAULT)] ++ l)) ∧
    (f.status = OCI_STILL_EXECUTING →
      cur_fetch b k arg2 arg3 f w = .ok [.nil, .integer OCI_STILL_EXECUTING]
        { w with
          curs := w.curs.set k { cur with cols := cur.cols.map (write_row f.row) }
          calls := w.calls ++ [.OCIStmtFetch cur.stmthp] }) ∧
    conn_commit c OCI_STILL_EXECUTING w = .ok [.nil, .integer OCI_STILL_EXECUTING]
      { w with calls := w.calls ++ [.OCITransCommit conn.svchp] } ∧
    conn_rollback c OCI_STILL_EXECUTING w = .ok [.nil, .integer OCI_STILL_EXECUTING]
      { w with calls := w.calls ++ [.OCITransRollback conn.svchp] } := by
  refine ⟨?_, ?_, ?_, ?_, ?_, ?_⟩
  · intro h1 h2 h3 h4 h5
    unfold conn_execute
    simp only [bind_eq, Lua.bind, getconnection_open w c conn hc hc0, call_eq, pure_eq, Lua.pure,
      ASSERT_OCI_passes _ _ h2, ASSERT_OCI_passes _ _ h3, ASSERT_OCI_passes _ _ h4,
      ASSERT_OCI_passes _ _ h5, h1, if_true, List.append_assoc, List.singleton_append,
      List.cons_append, List.nil_append]
  · intro p h1 h5
    unfold conn_execute
    simp only [bind_eq, Lua.bind, getconnection_open w c conn hc hc0, call_eq, pure_eq, Lua.pure,
      ASSERT_OCI_passes _ _ h5, h1, if_true, List.append_assoc, List.singleton_append,
      List.cons_append, List.nil_append]
  · intro p
    constructor
    · obtain ⟨l, h1, h2⟩ := unprepared_conn_execute c statement p n w
      refine ⟨l, h1, fun x hx => ?_⟩
      have h3 := h2 x hx
      constructor
      · intro hx1
        rw [hx1] at h3
        cases h3
      · intro h s hx1
        rw [hx1] at h3
        cases h3
    · intro h5
      unfold conn_execute
      simp only [bind_eq, Lua.bind, getconnection_open w c conn hc hc0, call_eq, pure_eq,
        Lua.pure, ASSERT_OCI_passes _ _ h5, List.append_assoc, List.singleton_append,
        List.cons_append, List.nil_append]
      generalize (if n.type = OCI_STMT_SELECT then 0 else 1 : Nat) = iters
      generalize (if conn.auto_commit ≠ 0 then OCI_COMMIT_ON_SUCCESS else OCI_DEFAULT) = mode
      by_cases a1 : n.executeStatus = OCI_STILL_EXECUTING
      · rw [if_pos a1]
        exact ⟨[], by simp [Outcome.world, Lua.pure]⟩
      rw [if_neg a1]
      by_cases a2 : n.executeStatus ≠ 0 ∧ n.executeStatus ≠ OCI_NO_DATA
      · rw [if_pos a2]
        simp only [Lua.bind, call_eq]
        rcases ASSERT_OCI_cases n.executeStatus conn.errhp _ with h | ⟨e, h | h⟩ <;> rw [h] <;>
          simp [Outcome.world, Lua.pure]
      rw [if_neg a2]
      by_cases a3 : n.type = OCI_STMT_SELECT
      · rw [if_pos a3]
        obtain ⟨l, h1, _⟩ := unprepared_create_cursor c p statement n.cursor _
        rw [h1]
        exact ⟨l, by simp⟩
      · rw [if_neg a3]
        simp only [Lua.bind, call_eq]
        rcases ASSERT_OCI_cases n.rowCountStatus conn.errhp _ with h | ⟨e, h | h⟩ <;> rw [h] <;>
          simp [Outcome.world, Lua.pure]
  · intro h1
    unfold cur_fetch
    simp only [bind_eq, Lua.bind, getcursor_open w k cur hk hk0, call_eq, modifyCur_eq, h1,
      if_true, pure_eq, Lua.pure, withCurs_eq]
    have hlt : k < w.curs.length := by
      rcases Nat.lt_or_ge k w.curs.length with hlt | hge
      · exact hlt
      · rw [List.getElem?_eq_none hge] at hk
        cases hk
    have hget : w.curs[k] = cur := by
      rw [List.getElem?_eq_getElem hlt] at hk
      exact Option.some.inj hk
    congr 2
    apply List.ext_getElem?
    intro m
    by_cases hm : k = m
    · subst hm
      simp [hlt, hget]
    · simp [List.getElem?_modify_ne _ _ hm, List.getElem?_set_ne hm]
  · unfold conn_commit
    simp only [bind_eq, Lua.bind, getconnection_open w c conn hc hc0, call_eq, if_true, pure_eq,
      Lua.pure]
  · unfold conn_rollback
    simp only [bind_eq, Lua.bind, getconnection_open w c conn hc hc0, call_eq, if_true, pure_eq,
      Lua.pure]

/-- Witness of `still_executing_is_pending`: on the open connection and the
open cursor of `world_cursor` a second query and a commit are both answered
with "still executing". -/
theorem still_executing_is_pending_witness :
    conn_execute 0 "SELECT 2 FROM dual" none
        (executeNative_query 3100 OCI_STILL_EXECUTING SQLT_NUM) world_cursor =
      .ok [.lightuserdata 3100, .number (.ofInt OCI_STILL_EXECUTING)]
        { world_cursor with
          calls := world_cursor.calls ++
            [.OCIHandleAlloc .STMT, .OCIAttrSet 3100 .PREFETCH_ROWS,
             .OCIStmtPrepare 3100 "SELECT 2 FROM dual", .OCIAttrGet 3100 .STMT_TYPE,
             .OCIStmtExecute 2002 3100 0 OCI_DEFAULT] } ∧
    conn_commit 0 OCI_STILL_EXECUTING world_cursor = .ok [.nil, .integer OCI_STILL_EXECUTING]
      { world_cursor with calls := world_cursor.calls ++ [.OCITransCommit 2002] } :=
  have h := still_executing_is_pending true world_cursor 0 0 conn_cursor cur_one
    "SELECT 2 FROM dual" (executeNative_query 3100 OCI_STILL_EXECUTING SQLT_NUM) .nil none
    fetchNative_no_data rfl rfl rfl rfl
  ⟨h.1 rfl (Or.inl rfl) (Or.inl rfl) (Or.inl rfl) (Or.inl rfl), h.2.2.2.2.1⟩

/-! ## The asynchronous login -/

/-- C19 fails: a Connection is marked open although the login thread skipped
steps.  In `world_info` the native session begin has answered
`OCI_SUCCESS_WITH_INFO`; `OCI_THR_CHECK` ends the thread with that status, so
the calls made are those up to `OCISessionBegin`: the session is not set on the
service context and the non-blocking mode is not set.  The join, whatever its
local `status` held, reads the exit status 1, which `ASSERT_OCI` accepts: the
call returns the Connection, `closed` is 0 and `conn_counter` is 1. -/
theorem connect_async_open_after_partial_login :
    world_info.threads = [{ exit := some OCI_SUCCESS_WITH_INFO, joined := false }] ∧
    world_info.calls =
      [.OCIEnvCreate, .OCIHandleAlloc .ERROR, .pthread_create 0, .OCIHandleAlloc .ERROR,
       .OCIHandleAlloc .SERVER, .OCIHandleAlloc .SVCCTX, .OCIServerAttach 2003 "db",
       .OCIAttrSet 2002 .SERVER, .OCIHandleAlloc .SESSION, .OCIAttrSet 2004 .USERNAME,
       .OCIAttrSet 2004 .PASSWORD, .OCISessionBegin 2002 2004] ∧
    ∀ status0, ∃ w1,
      env_connect_async 0 "db" "u" "p" (some 0) status0 world_info = .ok [.connection 0] w1 ∧
      w1.conns.map (fun cn => cn.closed) = [0] ∧
      w1.envs.map (fun en => en.conn_counter) = [1] ∧
      w1.calls = world_info.calls ++ [.pthread_join 1] ∧
      NativeCall.OCIAttrSet 2002 .SESSION ∉ w1.calls ∧
      NativeCall.OCIAttrSet 2003 .NONBLOCKING_MODE ∉ w1.calls := by
  refine ⟨rfl, rfl, fun status0 => ⟨_, rfl, rfl, rfl, rfl, ?_, ?_⟩⟩ <;> decide

/-! ## The columns of a created cursor -/

theorem triple_bind {α β : Type} {P Q R : World → Prop} {m : Lua α} {f : α → Lua β}
    (hm : Triple P m Q) (hf : ∀ a, Triple Q (f a) R) : Triple P (Lua.bind m f) R := by
  intro w hw b w2 h
  unfold Lua.bind at h
  cases h1 : m w with
  | ok a w1 =>
    rw [h1] at h
    exact hf a w1 (hm w hw a w1 h1) b w2 h
  | raise e w1 =>
    rw [h1] at h
    cases h

theorem triple_of_frame {α : Type} {p : List cur_data → Prop} {m : Lua α}
    (h : Frame (Preserves p) m) : Triple (fun w => p w.curs) m (fun w => p w.curs) := by
  intro w hw a w1 h1
  have h2 := h w
  rw [h1] at h2
  exact h2 hw

theorem triple_pre {α : Type} {P P1 Q : World → Prop} {m : Lua α} (h : ∀ w, P w → P1 w)
    (hm : Triple P1 m Q) : Triple P m Q :=
  fun w hw => hm w (h w hw)

theorem preserves_refl (p : List cur_data → Prop) (w : World) : Preserves p w w :=
  fun h => h

theorem preserves_trans (p : List cur_data → Prop) (w w1 w2 : World) (h1 : Preserves p w w1)
    (h2 : Preserves p w1 w2) : Preserves p w w2 :=
  fun h => h2 (h1 h)

theorem pres_quiet {p : List cur_data → Prop} {α : Type} (m : Lua α)
    (h : ∀ w, (m w).world.curs = w.curs) : Frame (Preserves p) m := by
  intro w hw
  rw [h w]
  exact hw

theorem pres_call (p : List cur_data → Prop) (c : NativeCall) : Frame (Preserves p) (call c) :=
  pres_quiet _ (fun _ => rfl)

theorem pres_pure {α : Type} (p : List cur_data → Prop) (a : α) :
    Frame (Preserves p) (Lua.pure a) :=
  pres_quiet _ (fun _ => rfl)

theorem pres_luaL_error {α : Type} (p : List cur_data → Prop) (msg : String) :
    Frame (Preserves p) (luaL_error msg : Lua α) :=
  pres_quiet _ (fun _ => rfl)

theorem pres_theCursor (p : List cur_data → Prop) (k : Nat) :
    Frame (Preserves p) (theCursor k) :=
  pres_quiet _ (fun _ => rfl)

theorem pres_modifyConn (p : List cur_data → Prop) (c : Nat) (f : conn_data → conn_data) :
    Frame (Preserves p) (modifyConn c f) :=
  pres_quiet _ (fun _ => rfl)

theorem pres_newtable (p : List cur_data → Prop) : Frame (Preserves p) newtable :=
  pres_quiet _ (fun _ => rfl)

theorem pres_rawset (p : List cur_data → Prop) (t : Nat) (key : LuaKey) (v : LuaValue) :
    Frame (Preserves p) (rawset t key v) :=
  pres_quiet _ (fun _ => rfl)

theorem pres_assert_ptr (p : List cur_data → Prop) (ptr : Nat) :
    Frame (Preserves p) (ASSERT_PTR ptr) := by
  refine pres_quiet _ (fun w => ?_)
  rcases ASSERT_PTR_cases ptr w with h | ⟨e, h⟩ <;> rw [h] <;> rfl

theorem pres_assert_oci (p : List cur_data → Prop) (status : Int) (errhp : Nat) :
    Frame (Preserves p) (ASSERT_OCI status errhp) := by
  refine pres_quiet _ (fun w => ?_)
  rcases ASSERT_OCI_cases status errhp w with h | ⟨e, h | h⟩ <;> rw [h] <;> rfl

theorem colType_modifyCol (k i ty j : Nat) (f : column_data → column_data)
    (h : j - 1 ≠ i - 1 ∨ ∀ c, (f c).type = c.type) :
    Frame (Preserves (ColType k i ty)) (modifyCol k j f) := by
  intro w hw cu c hcu hc
  change (w.curs.modify _ k)[k]? = some cu at hcu
  rw [List.getElem?_modify_eq] at hcu
  cases hk : w.curs[k]? with
  | none =>
    rw [hk] at hcu
    cases hcu
  | some cu0 =>
    rw [hk] at hcu
    cases hcu
    cases hl : cu0.cols with
    | none =>
      simp [hl] at hc
    | some l =>
      simp only [hl, Option.map_some', Option.getD_some] at hc
      have h0 := hw cu0
      simp only [hl, Option.getD_some] at h0
      rcases h with hne | hf
      · rw [List.getElem?_modify_ne _ _ hne] at hc
        exact h0 c hk hc
      · by_cases hji : j - 1 = i - 1
        · rw [hji, List.getElem?_modify_eq] at hc
          cases hc0 : l[i - 1]? with
          | none =>
            rw [hc0] at hc
            cases hc
          | some c0 =>
            rw [hc0] at hc
            cases hc
            rw [hf]
            exact h0 c0 hk hc0
        · rw [List.getElem?_modify_ne _ _ hji] at hc
          exact h0 c hk hc

theorem shape_modifyCol (k c n j i : Nat) (f : column_data → column_data) :
    Frame (Preserves (Shape k c n)) (modifyCol j i f) := by
  rintro w ⟨cu, l, h1, h2, h3, h4, h5, h6⟩
  change Shape k c n (w.curs.modify _ j)
  by_cases hj : j = k
  · subst hj
    refine ⟨{ cu with cols := cu.cols.map (fun cs => cs.modify f (i - 1)) },
      l.modify f (i - 1), ?_, h2, h3, h4, ?_, ?_⟩
    · rw [List.getElem?_modify_eq, h1]
      rfl
    · simp [h5]
    · simp [h6]
  · exact ⟨cu, l, by rw [List.getElem?_modify_ne _ _ hj]; exact h1, h2, h3, h4, h5, h6⟩

theorem raises_bind {α β : Type} {m : Lua α} {f : α → Lua β} (hf : ∀ a, Raises (f a)) :
    Raises (Lua.bind m f) := by
  intro w
  unfold Lua.bind
  cases h : m w with
  | ok a w1 => exact hf a w1
  | raise e w1 => exact ⟨e, w1, rfl⟩

theorem raises_luaL_error {α : Type} (msg : String) : Raises (luaL_error msg : Lua α) :=
  fun w => ⟨_, w, rfl⟩

theorem alloc_column_buffer_raises (k i : Nat) (n : ColumnNative)
    (hty : supported n.type = false) : Raises (alloc_column_buffer k i n) := by
  simp only [supported, Bool.or_eq_false_iff, decide_eq_false_iff_not] at hty
  obtain ⟨⟨⟨⟨⟨⟨t1, t2⟩, t3⟩, t4⟩, t5⟩, t6⟩, t7⟩ := hty
  unfold alloc_column_buffer
  simp only [bind_eq, pure_eq, t1, t2, t3, t4, t5, t6, t7, Bool.false_eq_true, if_false]
  repeat' first
    | exact raises_luaL_error _
    | refine raises_bind (fun _ => ?_)

theorem alloc_column_buffer_sets_type (k i : Nat) (n : ColumnNative) :
    Triple (fun _ => True) (alloc_column_buffer k i n) (fun w => ColType k i n.type w.curs) := by
  have hset : Triple (fun _ => True)
      (modifyCol k i (fun col => { col with type := n.type }))
      (fun w => ColType k i n.type w.curs) := by
    intro w _ a w1 h cu c hcu hc
    cases h
    change (w.curs.modify _ k)[k]? = some cu at hcu
    rw [List.getElem?_modify_eq] at hcu
    cases hk : w.curs[k]? with
    | none =>
      rw [hk] at hcu
      cases hcu
    | some cu0 =>
      rw [hk] at hcu
      cases hcu
      cases hl : cu0.cols with
      | none => simp [hl] at hc
      | some l =>
        simp only [hl, Option.map_some', Option.getD_some, List.getElem?_modify_eq] at hc
        cases hc0 : l[i - 1]? with
        | none =>
          rw [hc0] at hc
          cases hc
        | some c0 =>
          rw [hc0] at hc
          cases hc
          rfl
  have hskip : ∀ {α β : Type} (m : Lua α) (f : α → Lua β) (Q : World → Prop),
      (∀ a, Triple (fun _ => True) (f a) Q) → Triple (fun _ => True) (Lua.bind m f) Q :=
    fun m f Q h => triple_bind (fun _ _ _ _ _ => trivial) h
  unfold alloc_column_buffer copy_column_name
  simp only [bind_eq, pure_eq]
  refine hskip _ _ _ (fun _ => ?_)
  refine hskip _ _ _ (fun _ => ?_)
  refine hskip _ _ _ (fun _ => ?_)
  refine hskip _ _ _ (fun _ => ?_)
  refine hskip _ _ _ (fun _ => ?_)
  refine hskip _ _ _ (fun _ => ?_)
  refine hskip _ _ _ (fun _ => ?_)
  refine triple_bind hset (fun _ => ?_)
  refine triple_of_frame ?_
  repeat' first
    | with_reducible exact pres_assert_oci _ _ _
    | with_reducible exact pres_assert_ptr _ _
    | (with_reducible refine colType_modifyCol _ _ _ _ _ (Or.inr ?_)
       exact fun _ => rfl)
    | with_reducible exact pres_call _ _
    | with_reducible exact pres_luaL_error _ _
    | with_reducible refine frame_bind (preserves_trans _) ?_ (fun _ => ?_)
    | with_reducible refine frame_ite _ _ _ ?_ ?_

theorem alloc_column_buffer_keeps_type (k i j ty : Nat) (n : ColumnNative) (h : j - 1 ≠ i - 1) :
    Frame (Preserves (ColType k i ty)) (alloc_column_buffer k j n) := by
  unfold alloc_column_buffer copy_column_name
  simp only [bind_eq, pure_eq]
  repeat' first
    | with_reducible exact pres_assert_oci _ _ _
    | with_reducible exact pres_assert_ptr _ _
    | with_reducible exact colType_modifyCol _ _ _ _ _ (Or.inl h)
    | with_reducible exact pres_call _ _
    | with_reducible exact pres_theCursor _ _
    | with_reducible exact pres_luaL_error _ _
    | with_reducible refine frame_bind (preserves_trans _) ?_ (fun _ => ?_)
    | with_reducible refine frame_ite _ _ _ ?_ ?_

theorem alloc_column_buffer_keeps_shape (k c n0 j i : Nat) (n : ColumnNative) :
    Frame (Preserves (Shape k c n0)) (alloc_column_buffer j i n) := by
  unfold alloc_column_buffer copy_column_name
  simp only [bind_eq, pure_eq]
  repeat' first
    | with_reducible exact pres_assert_oci _ _ _
    | with_reducible exact pres_assert_ptr _ _
    | with_reducible exact shape_modifyCol _ _ _ _ _ _
    | with_reducible exact pres_call _ _
    | with_reducible exact pres_theCursor _ _
    | with_reducible exact pres_luaL_error _ _
    | with_reducible refine frame_bind (preserves_trans _) ?_ (fun _ => ?_)
    | with_reducible refine frame_ite _ _ _ ?_ ?_

theorem frame_for_each_mem {R : World → World → Prop} (hrefl : ∀ w, R w w)
    (htrans : ∀ w w1 w2, R w w1 → R w1 w2 → R w w2) (body : Nat → Lua Unit) (l : List Nat)
    (h : ∀ i ∈ l, Frame R (body i)) : Frame R (for_each body l) := by
  induction l with
  | nil => exact fun w => hrefl w
  | cons i rest ih =>
    unfold for_each
    exact frame_bind htrans (h i (List.mem_cons_self i rest))
      (fun _ => ih (fun j hj => h j (List.mem_cons_of_mem i hj)))

theorem alloc_loop_types (k : Nat) (n : CursorNative) (l : List Nat) (hl : l.Nodup)
    (h1 : ∀ i ∈ l, 1 ≤ i) (w w1 : World)
    (h : for_each (fun i => alloc_column_buffer k i (n.column i)) l w = .ok () w1) :
    ∀ i ∈ l, ColType k i (n.column i).type w1.curs ∧ supported (n.column i).type = true := by
  induction l generalizing w with
  | nil => intro i hi; cases hi
  | cons j rest ih =>
    unfold for_each Lua.bind at h
    cases hb : alloc_column_buffer k j (n.column j) w with
    | raise e w2 =>
      rw [hb] at h
      cases h
    | ok a w2 =>
      rw [hb] at h
      simp only at h
      have hnd := List.nodup_cons.1 hl
      intro i hi
      rcases List.mem_cons.1 hi with hij | hir
      · subst hij
        refine ⟨?_, ?_⟩
        · have hset := alloc_column_buffer_sets_type k i (n.column i) w trivial a w2 hb
          have hrest := frame_for_each_mem (preserves_refl _) (preserves_trans _)
            (fun i1 => alloc_column_buffer k i1 (n.column i1)) rest
            (fun i1 hi1 => alloc_column_buffer_keeps_type k i i1 (n.column i).type (n.column i1)
              (by
                have a1 := h1 i (List.mem_cons_self i rest)
                have a2 := h1 i1 (List.mem_cons_of_mem i hi1)
                have a3 : i1 ≠ i := fun e => hnd.1 (e ▸ hi1)
                omega)) w2
          rw [h] at hrest
          exact hrest hset
        · by_contra hs
          rw [Bool.not_eq_true] at hs
          obtain ⟨e, w3, h3⟩ := alloc_column_buffer_raises k i (n.column i) hs w
          rw [h3] at hb
          cases hb
      · exact ih hnd.2 (fun i1 hi1 => h1 i1 (List.mem_cons_of_mem j hi1)) w2 h i hir

theorem alloc_loop_shape (k c n0 : Nat) (n : CursorNative) (l : List Nat) :
    Frame (Preserves (Shape k c n0))
      (for_each (fun i => alloc_column_buffer k i (n.column i)) l) :=
  frame_for_each (preserves_refl _) (preserves_trans _) _
    (fun i => alloc_column_buffer_keeps_shape k c n0 k i _) l

theorem create_cursor_columns (c stmt : Nat) (text : String) (n : CursorNative) (w w1 : World)
    (vs : List LuaValue) (h : create_cursor c stmt text n w = .ok vs w1) :
    vs = [.cursor w.curs.length] ∧ Shape w.curs.length c n.numcols w1.curs ∧
      ∀ i, 1 ≤ i → i ≤ n.numcols →
        ColType w.curs.length i (n.column i).type w1.curs ∧
          supported (n.column i).type = true := by
  have one : (1 : Nat) ≠ NULL := by decide
  unfold create_cursor at h
  simp only [bind_eq, Lua.bind, getWorld, newCursor_eq, call_eq, modifyCur_eq, modifyConn_eq,
    pure_eq, Lua.pure] at h
  cases hs : n.strdup_ok
  · simp [hs, ASSERT_PTR, luaL_error] at h
  cases hcal : n.calloc_ok
  · simp only [hs, hcal, if_true, ASSERT_PTR_ok 1 one, Lua.pure, Bool.false_eq_true, if_false]
      at h
    rcases ASSERT_OCI_cases n.errAllocStatus _ _ with h1 | ⟨e, h1 | h1⟩ <;> rw [h1] at h <;>
      first | cases h | simp only at h
    rcases ASSERT_OCI_cases n.countStatus _ _ with h1 | ⟨e, h1 | h1⟩ <;> rw [h1] at h <;>
      cases h
  simp only [hs, hcal, if_true, ASSERT_PTR_ok 1 one, Lua.pure, modify_append_last] at h
  rcases ASSERT_OCI_cases n.errAllocStatus _ _ with h1 | ⟨e, h1 | h1⟩ <;> rw [h1] at h <;>
    first | cases h | simp only at h
  simp only [modify_append_last] at h
  rcases ASSERT_OCI_cases n.countStatus _ _ with h1 | ⟨e, h1 | h1⟩ <;> rw [h1] at h <;>
    first | cases h | simp only at h
  simp only [modify_append_last] at h
  cases hloop : for_each (fun i => alloc_column_buffer w.curs.length i (n.column i))
      (List.range' 1 n.numcols)
      { w with
        curs := w.curs ++
          [{ closed := 0, conn := c, numcols := n.numcols, colnames := LUA_NOREF,
             coltypes := LUA_NOREF, columns := LUA_NOREF, text := some text, stmthp := stmt,
             errhp := n.errhp, cols := some (List.replicate n.numcols column_data.zero) }]
        calls := w.calls ++ [.OCIHandleAlloc .ERROR] ++ [.OCIAttrGet stmt .PARAM_COUNT] } with
  | raise e w2 =>
    rw [hloop] at h
    cases h
  | ok a w2 =>
    rw [hloop] at h
    simp only at h
    cases h
    have hshape : Shape w.curs.length c n.numcols (Outcome.ok a w2 : Outcome Unit).world.curs := by
      rw [← hloop]
      exact alloc_loop_shape w.curs.length c n.numcols n (List.range' 1 n.numcols) _
        ⟨_, List.replicate n.numcols column_data.zero, List.getElem?_concat_length _ _, rfl, rfl,
          rfl, rfl, List.length_replicate _ _⟩
    have htypes := alloc_loop_types w.curs.length n (List.range' 1 n.numcols)
      (List.nodup_range' 1 n.numcols) (fun i hi => (List.mem_range'_1.1 hi).1) _ _ hloop
    exact ⟨rfl, hshape, fun i h1 h2 => htypes i (List.mem_range'_1.2 ⟨h1, by omega⟩)⟩

theorem created_column (k c n i ty : Nat) (ks : List cur_data) (hs : Shape k c n ks)
    (ht : ColType k i ty ks) (h1 : 1 ≤ i) (h2 : i ≤ n) :
    ∃ cu, ks[k]? = some cu ∧ cu.closed = 0 ∧ cu.conn = c ∧ cu.numcols = n ∧
      (cu.col i).type = ty := by
  obtain ⟨cu, l, a1, a2, a3, a4, a5, a6⟩ := hs
  refine ⟨cu, a1, a2, a3, a4, ?_⟩
  have hlt : i - 1 < l.length := by omega
  have hget : (cu.cols.getD [])[i - 1]? = some l[i - 1] := by
    rw [a5]
    exact List.getElem?_eq_getElem hlt
  unfold cur_data.col
  rw [hget]
  exact ht cu _ a1 hget

theorem getcolumntype_of_supported (b : Bool) (col : column_data)
    (h : supported col.type = true) :
    getcolumntype b col ∈
        ["string", "number", "integer", "unsigned integer", "double", "datetime", "timestamp"] ∧
      getcolumntype b col ≠ "unknown" ∧
      (is_character col.type = true ∨ col.type = SQLT_CLOB → getcolumntype b col = "string") ∧
      (col.type = SQLT_DAT → getcolumntype b col = "datetime") ∧
      (col.type = SQLT_TIMESTAMP ∨ col.type = SQLT_TIMESTAMP_TZ ∨ col.type = SQLT_TIMESTAMP_LTZ →
        getcolumntype b col = "timestamp") ∧
      (b = true →
        (col.type = SQLT_FLT → getcolumntype b col = "double") ∧
        (col.type = SQLT_INT → getcolumntype b col = "integer") ∧
        (col.type = SQLT_UIN → getcolumntype b col = "unsigned integer") ∧
        (col.type = SQLT_NUM ∨ col.type = SQLT_VNU → getcolumntype b col = "number")) ∧
      (b = false →
        col.type = SQLT_FLT ∨ col.type = SQLT_INT ∨ col.type = SQLT_UIN ∨ col.type = SQLT_NUM ∨
          col.type = SQLT_VNU →
        getcolumntype b col = "number") := by
  rw [supported_iff] at h
  unfold getcolumntype
  generalize col.type = ty at h ⊢
  simp only [List.mem_cons, List.mem_singleton, List.not_mem_nil, or_false] at h
  rcases h with h | h | h | h | h | h | h | h | h | h | h | h | h | h | h <;> subst h <;>
    cases b <;> decide

/-! ## The members of the value union -/

theorem avoids_bind {α β : Type} {msg : String} {m : Lua α} {f : α → Lua β}
    (hm : Avoids msg m) (hf : ∀ a, Avoids msg (f a)) : Avoids msg (Lua.bind m f) := by
  intro w w2 h
  unfold Lua.bind at h
  cases h1 : m w with
  | ok a w1 =>
    rw [h1] at h
    exact hf a w1 w2 h
  | raise e w1 =>
    rw [h1] at h
    cases h
    exact hm w w2 h1

theorem avoids_of_ok {α : Type} (msg : String) (m : Lua α) (h : ∀ w, ∃ a w1, m w = .ok a w1) :
    Avoids msg m := by
  intro w w1 hr
  obtain ⟨a, w2, h2⟩ := h w
  rw [h2] at hr
  cases hr

theorem avoids_pure {α : Type} (msg : String) (a : α) : Avoids msg (Lua.pure a) :=
  avoids_of_ok _ _ (fun w => ⟨a, w, rfl⟩)

theorem avoids_call (msg : String) (c : NativeCall) : Avoids msg (call c) :=
  avoids_of_ok _ _ (fun _ => ⟨_, _, rfl⟩)

theorem avoids_modifyCol (msg : String) (k i : Nat) (f : column_data → column_data) :
    Avoids msg (modifyCol k i f) :=
  avoids_of_ok _ _ (fun _ => ⟨_, _, rfl⟩)

theorem avoids_newtable (msg : String) : Avoids msg newtable :=
  avoids_of_ok _ _ (fun _ => ⟨_, _, rfl⟩)

theorem avoids_rawset (msg : String) (t : Nat) (key : LuaKey) (v : LuaValue) :
    Avoids msg (rawset t key v) :=
  avoids_of_ok _ _ (fun _ => ⟨_, _, rfl⟩)

theorem avoids_ite {α : Type} (msg : String) (c : Prop) [Decidable c] (a b : Lua α)
    (ha : c → Avoids msg a) (hb : ¬ c → Avoids msg b) : Avoids msg (if c then a else b) := by
  split_ifs with h
  · exact ha h
  · exact hb h

theorem avoids_assert_oci (status : Int) (errhp : Nat) :
    Avoids (LUASQL_PREFIX ++ "unexpected error") (ASSERT_OCI status errhp) := by
  intro w w1 h
  unfold ASSERT_OCI at h
  simp only [pure_eq, bind_eq, Lua.pure, luaL_error, Lua.bind, call_eq] at h
  split_ifs at h <;> cases h

theorem avoids_assert_ptr (p : Nat) :
    Avoids (LUASQL_PREFIX ++ "unexpected error") (ASSERT_PTR p) := by
  intro w w1 h
  unfold ASSERT_PTR luaL_error at h
  split_ifs at h
  · injection h with h2 h3
    injection h2 with h4
    exact absurd h4 (by decide)
  · cases h

theorem avoids_pushvalue (b : Bool) (w : World) (k i : Nat) (cur : cur_data) (n : DecodeNative)
    (hk : w.curs[k]? = some cur) (hty : supported (cur.col i).type = true) (w1 : World) :
    pushvalue b k i n w ≠ .raise (.error (LUASQL_PREFIX ++ "unexpected error")) w1 := by
  unfold pushvalue
  rw [bind_eq, theCursor_bind w k cur hk]
  simp only [bind_eq, pure_eq]
  simp only [supported, Bool.or_eq_true, decide_eq_true_eq] at hty
  refine (?_ : Avoids _ _) w w1
  repeat' first
    | exact avoids_pure _ _
    | exact avoids_assert_oci _ _
    | exact avoids_assert_ptr _
    | exact avoids_modifyCol _ _ _ _
    | exact avoids_call _ _
    | exact avoids_newtable _
    | exact avoids_rawset _ _ _ _
    | refine avoids_bind ?_ (fun _ => ?_)
    | refine avoids_ite _ _ _ _ (fun _ => ?_) (fun _ => ?_)
    | (exfalso; tauto)

theorem pushvalue_reads_only (b : Bool) (w : World) (k i : Nat) (cur : cur_data)
    (n : DecodeNative) (hk : w.curs[k]? = some cur)
    (hdec : is_decimal (cur.col i).type = false) : (pushvalue b k i n w).world.curs = w.curs := by
  unfold pushvalue
  rw [bind_eq, theCursor_bind w k cur hk]
  simp only [bind_eq, pure_eq, hdec, Bool.false_eq_true, if_false]
  refine (?_ : Frame (Preserves (fun ks => ks = w.curs)) _) w rfl
  repeat' first
    | with_reducible exact pres_pure _ _
    | with_reducible exact pres_assert_oci _ _ _
    | with_reducible exact pres_assert_ptr _ _
    | with_reducible exact pres_call _ _
    | with_reducible exact pres_newtable _
    | with_reducible exact pres_rawset _ _ _ _
    | with_reducible exact pres_luaL_error _ _
    | with_reducible refine frame_bind (preserves_trans _) ?_ (fun _ => ?_)
    | with_reducible refine frame_ite _ _ _ ?_ ?_

theorem pushvalue_unsupported (b : Bool) (w : World) (k i : Nat) (cur : cur_data)
    (n : DecodeNative) (hk : w.curs[k]? = some cur) (hnull : (cur.col i).null = 0)
    (hty : supported (cur.col i).type = false) :
    pushvalue b k i n w = .raise (.error (LUASQL_PREFIX ++ "unexpected error")) w := by
  simp only [supported, Bool.or_eq_false_iff, decide_eq_false_iff_not] at hty
  obtain ⟨⟨⟨⟨⟨⟨t1, t2⟩, t3⟩, t4⟩, t5⟩, t6⟩, t7⟩ := hty
  unfold pushvalue
  rw [bind_eq, theCursor_bind w k cur hk]
  simp only [hnull, ne_eq, not_true_eq_false, if_false, t1, t2, t3, t4, t5, t6, t7,
    Bool.false_eq_true, luaL_error]

theorem write_row_type (row : List (Int × column_value)) (cs : List column_data) (j : Nat) :
    ((write_row row cs)[j]?).map column_data.type = (cs[j]?).map column_data.type := by
  induction row generalizing cs j with
  | nil => simp [write_row]
  | cons r row ih =>
    cases cs with
    | nil => simp [write_row]
    | cons c cs =>
      cases j with
      | zero => simp [write_row]
      | succ j => simpa [write_row] using ih cs j

theorem col_write_row_type (cur : cur_data) (row : List (Int × column_value)) (i : Nat) :
    (({ cur with cols := cur.cols.map (write_row row) } : cur_data).col i).type =
      (cur.col i).type := by
  unfold cur_data.col
  cases hc : cur.cols with
  | none => rfl
  | some l =>
    have h := write_row_type row l (i - 1)
    simp only [Option.map_some', Option.getD_some]
    cases h1 : (write_row row l)[i - 1]? <;> cases h2 : l[i - 1]? <;> rw [h1, h2] at h <;>
      simp_all

theorem create_cursor_supported (c stmt : Nat) (text : String) (n : CursorNative) (w w1 : World)
    (vs : List LuaValue) (h : create_cursor c stmt text n w = .ok vs w1) :
    ∃ cu, w1.curs[w.curs.length]? = some cu ∧ cu.closed = 0 ∧
      ∀ j, 1 ≤ j → j ≤ cu.numcols → supported (cu.col j).type = true := by
  obtain ⟨_, h2, h3⟩ := create_cursor_columns c stmt text n w w1 vs h
  obtain ⟨cu, l, a1, a2, a3, a4, a5, a6⟩ := h2
  refine ⟨cu, a1, a2, fun j j1 j2 => ?_⟩
  rw [a4] at j2
  obtain ⟨ht, hs⟩ := h3 j j1 j2
  obtain ⟨cu1, b1, _, _, _, b5⟩ :=
    created_column w.curs.length c n.numcols j _ w1.curs ⟨cu, l, a1, a2, a3, a4, a5, a6⟩ ht j1 j2
  rw [a1] at b1
  cases b1
  rw [b5]
  exact hs

/-! ## The values of a fetched row -/

theorem get_set_eq (tb : LuaTable) (key : LuaKey) (v : LuaValue) :
    (LuaTable.set tb key v).get key = v := by
  unfold LuaTable.set LuaTable.get
  by_cases hv : v = .nil
  · have hnone : (tb.filter (fun kv => kv.1 ≠ key)).find? (fun kv => kv.1 = key) = none := by
      rw [List.find?_eq_none]
      intro x hx
      simpa using (List.mem_filter.1 hx).2
    simp only [hv, if_true, hnone]
  · simp [hv]

theorem get_set_ne (tb : LuaTable) (key key1 : LuaKey) (v : LuaValue) (h : key1 ≠ key) :
    (LuaTable.set tb key1 v).get key = tb.get key := by
  have hfilter : (tb.filter (fun kv => kv.1 ≠ key1)).find? (fun kv => kv.1 = key) =
      tb.find? (fun kv => kv.1 = key) := by
    induction tb with
    | nil => rfl
    | cons a rest ih =>
      rw [List.filter_cons, List.find?_cons]
      by_cases h1 : a.1 = key1
      · have h2 : ¬ a.1 = key := fun e => h (h1.symm.trans e)
        have d1 : decide (a.1 ≠ key1) = false := by simp [h1]
        have d2 : decide (a.1 = key) = false := by simp [h2]
        rw [d1, d2]
        exact ih
      · have d1 : decide (a.1 ≠ key1) = true := by simp [h1]
        rw [d1, if_pos rfl, List.find?_cons]
        cases hd : decide (a.1 = key)
        · exact ih
        · rfl
  unfold LuaTable.set LuaTable.get
  by_cases hv : v = .nil
  · simp only [hv, if_true, hfilter]
  · simp only [hv, if_false, List.find?, hfilter]
    have : ¬ key1 = key := h
    simp [this]

theorem tablesFrame_refl (w : World) : TablesFrame w w :=
  ⟨le_refl _, fun _ _ => rfl⟩

theorem keepsKey_refl (t : Nat) (key : LuaKey) (w : World) : KeepsKey t key w w :=
  fun h => ⟨h, rfl⟩

theorem keepsKey_trans (t : Nat) (key : LuaKey) (w w1 w2 : World) (h1 : KeepsKey t key w w1)
    (h2 : KeepsKey t key w1 w2) : KeepsKey t key w w2 := by
  intro h
  obtain ⟨a1, a2⟩ := h1 h
  obtain ⟨b1, b2⟩ := h2 a1
  exact ⟨b1, b2.trans a2⟩

theorem keepsKey_rawset (t t1 : Nat) (key key1 : LuaKey) (v : LuaValue)
    (h : t1 ≠ t ∨ key1 ≠ key) : Frame (KeepsKey t key) (rawset t1 key1 v) := by
  intro w ht
  show t < (w.tables.modify _ t1).length ∧
    ((w.tables.modify _ t1).getD t []).get key = (w.tables.getD t []).get key
  refine ⟨by simpa using ht, ?_⟩
  rw [List.getD_eq_getElem?_getD, List.getD_eq_getElem?_getD]
  by_cases h1 : t1 = t
  · subst h1
    rw [List.getElem?_modify_eq, List.getElem?_eq_getElem ht]
    rcases h with h | h
    · exact absurd rfl h
    · exact get_set_ne _ _ _ _ h
  · rw [List.getElem?_modify_ne _ _ h1]

theorem rawset_get (t : Nat) (key : LuaKey) (v : LuaValue) (w : World)
    (ht : t < w.tables.length) :
    t < (rawset t key v w).world.tables.length ∧
      ((rawset t key v w).world.tables.getD t []).get key = v := by
  show t < (w.tables.modify _ t).length ∧ ((w.tables.modify _ t).getD t []).get key = v
  refine ⟨by simpa using ht, ?_⟩
  rw [List.getD_eq_getElem?_getD, List.getElem?_modify_eq, List.getElem?_eq_getElem ht]
  exact get_set_eq _ _ _

theorem bind_ok_inv {α β : Type} (m : Lua α) (f : α → Lua β) (w w2 : World) (r : β)
    (h : Lua.bind m f w = .ok r w2) : ∃ a w1, m w = .ok a w1 ∧ f a w1 = .ok r w2 := by
  unfold Lua.bind at h
  cases hm : m w with
  | ok a w1 =>
    rw [hm] at h
    exact ⟨a, w1, rfl, h⟩
  | raise e w1 =>
    rw [hm] at h
    cases h

/-- C16 fails for decimal columns.  The decode of a decimal column writes its
result over the first eight bytes of the decimal storage (the members `u64`,
`i64` and `dbl` lie over the member `ociNumber`), so a second decode of the
same row finds another storage.

The cursor has one NUM column named `one`, and a row with the decimal 1 is
fetched into the empty table 0.  With the mode `n` the fetch returns the table,
which holds the unsigned integer 1 under the key 1.  With the mode `na` the
column is decoded a second time for the key `one`: that decode is given the
storage with the bytes `01 00 00 ..` in place of `02 C1 02` (the storage of the
decimal 1), which the native library of the example rejects, so the fetch
raises after the key 1 was stored and the table holds no value under `one`.

Whatever the native library is, if it decodes the storage of the decimal 1 as
the integer 1, then the first decode returns the unsigned integer 1 and leaves
the column with the storage `1`; a second decode is a decode of that storage. -/
theorem cur_fetch_decimal_decoded_twice :
    (∃ w1, cur_fetch true 0 (.table 0) (some "n")
        (fetchNative_row ociNumber_one decodeNative_small) world_container =
          .ok [.table 0] w1 ∧
      w1.tables.getD 0 [] = [(.int 1, .unsigned64 1)]) ∧
    (∃ w1, cur_fetch true 0 (.table 0) (some "na")
        (fetchNative_row ociNumber_one decodeNative_small) world_container =
          .raise (.database 3001) w1 ∧
      w1.tables.getD 0 [] = [(.int 1, .unsigned64 1)] ∧
      (w1.tables.getD 0 []).get (.str "one") = .nil ∧
      w1.curs[0]? = some (cur_row 1)) ∧
    (∃ w1 w2, pushvalue true 0 1 decodeNative_small (world_row ociNumber_one) =
        .ok (.unsigned64 1) w1 ∧
      pushvalue true 0 1 decodeNative_small w1 = .raise (.database 3001) w2) ∧
    (∀ n : DecodeNative, n.isInt ociNumber_one = (OCI_SUCCESS, true) →
      (n.fromInt 0).1 = OCI_SUCCESS →
      n.cmp ociNumber_one (n.fromInt 0).2 = (OCI_SUCCESS, 1) →
      n.toInt ociNumber_one false = (OCI_SUCCESS, 1) →
      ∃ w1, pushvalue true 0 1 n (world_row ociNumber_one) = .ok (.unsigned64 1) w1 ∧
        w1.curs = (world_row 1).curs ∧
        pushvalue true 0 1 n w1 =
          pushvalue true 0 1 n
            { world_row 1 with
              calls := (world_row ociNumber_one).calls ++
                [.OCINumberIsInt, .OCINumberFromInt, .OCINumberCmp, .OCINumberToInt false] }) := by
  refine ⟨⟨_, rfl, rfl⟩, ⟨_, rfl, rfl, rfl, rfl⟩, ⟨_, _, rfl, rfl⟩, ?_⟩
  intro n h1 h2 h3 h4
  have hk := world_row_cursor ociNumber_one
  have c1 : (cur_row ociNumber_one).col 1 =
      { type := SQLT_NUM, name := some "one", namelen := 3, max := 0, null := 0, define := 5002,
        val := ociNumber_one } := rfl
  have c2 : column_value.ociNumber ociNumber_one = ociNumber_one := by decide
  have t1 : SQLT_NUM ≠ SQLT_INT := by decide
  have t2 : SQLT_NUM ≠ SQLT_UIN := by decide
  have t3 : is_decimal SQLT_NUM = true := rfl
  have p0 : passes OCI_SUCCESS := Or.inl rfl
  have hev : pushvalue true 0 1 n (world_row ociNumber_one) = .ok (.unsigned64 1)
      { world_row 1 with
        calls := (world_row ociNumber_one).calls ++
          [.OCINumberIsInt, .OCINumberFromInt, .OCINumberCmp, .OCINumberToInt false] } := by
    unfold pushvalue
    rw [bind_eq, theCursor_bind _ 0 _ hk]
    simp only [c1, c2, h1, h2, h3, h4, ne_eq, not_true_eq_false, if_false, t1, t2, t3, if_true,
      bind_eq, pure_eq, Lua.bind, call_eq, modifyCol_eq, withCurs_eq, ASSERT_OCI_passes _ _ p0,
      Lua.pure, le_refl, zero_le_one, List.append_assoc, List.singleton_append,
      List.cons_append, List.nil_append]
    rfl
  exact ⟨_, hev, rfl, rfl⟩

/-! ## The table of type names -/

theorem noRefs_modifyCol (k j i : Nat) (f : column_data → column_data) :
    Frame (Preserves (NoRefs k)) (modifyCol j i f) := by
  rintro w ⟨cu, h1, h2, h3, h4⟩
  change NoRefs k (w.curs.modify _ j)
  by_cases hj : j = k
  · subst hj
    exact ⟨{ cu with cols := cu.cols.map (fun cs => cs.modify f (i - 1)) },
      by rw [List.getElem?_modify_eq, h1]; rfl, h2, h3, h4⟩
  · exact ⟨cu, by rw [List.getElem?_modify_ne _ _ hj]; exact h1, h2, h3, h4⟩

theorem alloc_column_buffer_keeps_noRefs (k j i : Nat) (n : ColumnNative) :
    Frame (Preserves (NoRefs k)) (alloc_column_buffer j i n) := by
  unfold alloc_column_buffer copy_column_name
  simp only [bind_eq, pure_eq]
  repeat' first
    | with_reducible exact pres_assert_oci _ _ _
    | with_reducible exact pres_assert_ptr _ _
    | with_reducible exact noRefs_modifyCol _ _ _ _
    | with_reducible exact pres_call _ _
    | with_reducible exact pres_theCursor _ _
    | with_reducible exact pres_luaL_error _ _
    | with_reducible refine frame_bind (preserves_trans _) ?_ (fun _ => ?_)
    | with_reducible refine frame_ite _ _ _ ?_ ?_

theorem create_cursor_noRefs (c stmt : Nat) (text : String) (n : CursorNative) (w w1 : World)
    (vs : List LuaValue) (h : create_cursor c stmt text n w = .ok vs w1) :
    NoRefs w.curs.length w1.curs := by
  have one : (1 : Nat) ≠ NULL := by decide
  unfold create_cursor at h
  simp only [bind_eq, Lua.bind, getWorld, newCursor_eq, call_eq, modifyCur_eq, modifyConn_eq,
    pure_eq, Lua.pure] at h
  cases hs : n.strdup_ok
  · simp [hs, ASSERT_PTR, luaL_error] at h
  cases hcal : n.calloc_ok
  · simp only [hs, hcal, if_true, ASSERT_PTR_ok 1 one, Lua.pure, Bool.false_eq_true, if_false]
      at h
    rcases ASSERT_OCI_cases n.errAllocStatus _ _ with h1 | ⟨e, h1 | h1⟩ <;> rw [h1] at h <;>
      first | cases h | simp only at h
    rcases ASSERT_OCI_cases n.countStatus _ _ with h1 | ⟨e, h1 | h1⟩ <;> rw [h1] at h <;>
      cases h
  simp only [hs, hcal, if_true, ASSERT_PTR_ok 1 one, Lua.pure, modify_append_last] at h
  rcases ASSERT_OCI_cases n.errAllocStatus _ _ with h1 | ⟨e, h1 | h1⟩ <;> rw [h1] at h <;>
    first | cases h | simp only at h
  simp only [modify_append_last] at h
  rcases ASSERT_OCI_cases n.countStatus _ _ with h1 | ⟨e, h1 | h1⟩ <;> rw [h1] at h <;>
    first | cases h | simp only at h
  simp only [modify_append_last] at h
  cases hloop : for_each (fun i => alloc_column_buffer w.curs.length i (n.column i))
      (List.range' 1 n.numcols)
      { w with
        curs := w.curs ++
          [{ closed := 0, conn := c, numcols := n.numcols, colnames := LUA_NOREF,
             coltypes := LUA_NOREF, columns := LUA_NOREF, text := some text, stmthp := stmt,
             errhp := n.errhp, cols := some (List.replicate n.numcols column_data.zero) }]
        calls := w.calls ++ [.OCIHandleAlloc .ERROR] ++ [.OCIAttrGet stmt .PARAM_COUNT] } with
  | raise e w2 =>
    rw [hloop] at h
    cases h
  | ok a w2 =>
    rw [hloop] at h
    simp only at h
    cases h
    show NoRefs w.curs.length (Outcome.ok a w2 : Outcome Unit).world.curs
    rw [← hloop]
    exact frame_for_each (preserves_refl _) (preserves_trans _) _
      (fun i => alloc_column_buffer_keeps_noRefs w.curs.length w.curs.length i _) _ _
      ⟨_, List.getElem?_concat_length _ _, rfl, rfl, rfl⟩

theorem rawset_loop_spec (t : Nat) (g : Nat → LuaValue) (l : List Nat) (hl : l.Nodup)
    (w : World) (ht : t < w.tables.length) :
    ∃ w1, for_each (fun i => rawset t (.int i) (g i)) l w = .ok () w1 ∧
      t < w1.tables.length ∧ w1.curs = w.curs ∧
      ∀ j ∈ l, (w1.tables.getD t []).get (.int j) = g j := by
  induction l generalizing w with
  | nil => exact ⟨w, rfl, ht, rfl, fun j hj => by cases hj⟩
  | cons i rest ih =>
    have hnd := List.nodup_cons.1 hl
    obtain ⟨g1, g2⟩ := rawset_get t (.int i) (g i) w ht
    obtain ⟨w1, a1, a2, a3, a4⟩ := ih hnd.2 (rawset t (.int i) (g i) w).world g1
    refine ⟨w1, a1, a2, a3, fun j hj => ?_⟩
    rcases List.mem_cons.1 hj with hji | hjr
    · subst hji
      have hkeep := frame_for_each_mem (keepsKey_refl t (.int j)) (keepsKey_trans t (.int j))
        (fun i => rawset t (.int i) (g i)) rest
        (fun i1 hi1 => keepsKey_rawset t t (.int j) (.int i1) (g i1) (Or.inr (by
          intro e
          injection e with e1
          have e2 : i1 = j := by exact_mod_cast e1
          exact hnd.1 (e2 ▸ hi1))))
        (rawset t (.int j) (g j) w).world g1
      rw [a1] at hkeep
      exact hkeep.2.trans g2
    · exact a4 j hjr

theorem cur_getcoltypes_fresh (b : Bool) (w : World) (k : Nat) (cur : cur_data)
    (hk : w.curs[k]? = some cur) (h0 : cur.closed = 0) (hno : cur.coltypes = LUA_NOREF) :
    ∃ w1, cur_getcoltypes b k w = .ok [.table w.tables.length] w1 ∧
      ∀ i, 1 ≤ i → i ≤ cur.numcols →
        (w1.tables.getD w.tables.length []).get (.int i) =
          .string (getcolumntype b (cur.col i)) := by
  obtain ⟨w1, a1, _, _, a4⟩ := rawset_loop_spec w.tables.length
    (fun i => .string (getcolumntype b (cur.col i))) (List.range' 1 cur.numcols)
    (List.nodup_range' 1 cur.numcols) { w with tables := w.tables ++ [[]] } (by simp)
  have hne : (LuaValue.table w.tables.length = LuaValue.nil) = False := by simp
  unfold cur_getcoltypes
  simp only [bind_eq, Lua.bind, getcursor_open w k cur hk h0, hno, ne_eq, not_true_eq_false,
    if_false, newtable, withTables_eq, a1, luaL_ref, hne, modifyCur_eq, withRegistry_eq,
    withCurs_eq, pure_eq, Lua.pure]
  exact ⟨_, rfl, fun i i1 i2 => a4 i (List.mem_range'_1.2 ⟨i1, by omega⟩)⟩

/-! ## The counters of open handle objects -/

theorem open_cursors_of_owners (c : Nat) (w : World) (l : List (Nat × Int))
    (h : w.curs.map cur_owner_closed = l) :
    open_cursors c w = l.countP (fun p => decide (p.1 = c) && decide (p.2 = 0)) := by
  subst h
  unfold open_cursors
  rw [List.countP_map]
  rfl

theorem sameOwners_refl (w : World) : SameOwners w w := rfl

theorem sameOwners_trans (w w1 w2 : World) (h1 : SameOwners w w1) (h2 : SameOwners w1 w2) :
    SameOwners w w2 :=
  h2.trans h1

theorem sameOwners_of_cols (k : Nat) (w w1 : World) (h : ColsFrame k w w1) :
    SameOwners w w1 := by
  obtain ⟨_, _, _, hlen, hne, hk⟩ := h
  unfold SameOwners
  apply List.ext_getElem?
  intro j
  simp only [List.getElem?_map]
  by_cases hj : j = k
  · subst hj
    cases hc : w.curs[j]? with
    | none =>
      have h1 : w1.curs[j]? = none := by
        rw [List.getElem?_eq_none_iff] at hc ⊢
        omega
      rw [h1]
    | some cu =>
      obtain ⟨cols, h1⟩ := hk cu hc
      rw [h1]
      rfl
  · rw [hne j hj]

theorem owners_modifyCur (k : Nat) (f : cur_data → cur_data)
    (hf : ∀ cu, cur_owner_closed (f cu) = cur_owner_closed cu) :
    Frame SameOwners (modifyCur k f) := by
  intro w
  show (w.curs.modify f k).map cur_owner_closed = w.curs.map cur_owner_closed
  apply List.ext_getElem?
  intro j
  simp only [List.getElem?_map, List.getElem?_modify]
  cases w.curs[j]? with
  | none => rfl
  | some cu =>
    by_cases hj : k = j
    · simp [hj, hf]
    · simp [hj]

theorem owners_assert_oci (status : Int) (errhp : Nat) :
    Frame SameOwners (ASSERT_OCI status errhp) :=
  frame_mono (sameOwners_of_cols 0) (cols_assert_oci 0 status errhp)

theorem owners_assert_ptr (p : Nat) : Frame SameOwners (ASSERT_PTR p) :=
  frame_mono (sameOwners_of_cols 0) (cols_assert_ptr 0 p)

theorem owners_call (c : NativeCall) : Frame SameOwners (call c) :=
  fun _ => rfl

theorem owners_modifyConn (c : Nat) (f : conn_data → conn_data) :
    Frame SameOwners (modifyConn c f) :=
  fun _ => rfl

theorem owners_pure {α : Type} (a : α) : Frame SameOwners (Lua.pure a) :=
  fun _ => rfl

theorem owners_alloc_loop (k : Nat) (n : CursorNative) (l : List Nat) :
    Frame SameOwners (for_each (fun i => alloc_column_buffer k i (n.column i)) l) :=
  frame_for_each sameOwners_refl sameOwners_trans _
    (fun i => frame_mono (sameOwners_of_cols k) (cols_alloc_column_buffer k i _)) l

theorem frame_getWorld_bind {R : World → World → Prop} {α : Type} (f : World → Lua α)
    (h : ∀ w0, Frame R (f w0)) : Frame R (Lua.bind getWorld f) :=
  fun w => h w w

theorem owners_newCursor_bind {α : Type} (cur : cur_data) (p : Nat × Int) (f : Unit → Lua α)
    (hp : cur_owner_closed cur = p) (h : Frame SameOwners (f ())) :
    Frame (fun w w1 => w1.curs.map cur_owner_closed = w.curs.map cur_owner_closed ++ [p])
      (Lua.bind (newCursor cur) f) := by
  intro w
  have h1 := h { w with curs := w.curs ++ [cur] }
  show (f () { w with curs := w.curs ++ [cur] }).world.curs.map cur_owner_closed = _
  rw [h1, List.map_append, List.map_singleton, hp]

/-- Whether `create_cursor` returns or raises, it leaves one more cursor
object than there was, pointing to the connection object `c` and not closed;
the other cursor objects keep their connection object and `closed` flag. -/
theorem create_cursor_owners (c stmt : Nat) (text : String) (n : CursorNative) :
    Frame (fun w w1 => w1.curs.map cur_owner_closed = w.curs.map cur_owner_closed ++ [(c, 0)])
      (create_cursor c stmt text n) := by
  unfold create_cursor
  simp only [bind_eq, pure_eq]
  refine frame_getWorld_bind _ (fun w0 => ?_)
  refine owners_newCursor_bind _ _ _ rfl ?_
  repeat' first
    | with_reducible exact owners_assert_oci _ _
    | with_reducible exact owners_assert_ptr _
    | with_reducible exact owners_call _
    | with_reducible exact owners_modifyConn _ _
    | with_reducible exact owners_pure _
    | with_reducible exact owners_alloc_loop _ _ _
    | (with_reducible refine owners_modifyCur _ _ ?_
       exact fun _ => rfl)
    | with_reducible refine frame_bind sameOwners_trans ?_ (fun _ => ?_)

theorem create_cursor_raise_open (c stmt : Nat) (text : String) (n : CursorNative)
    (w w1 : World) (e : LuaError) (h : create_cursor c stmt text n w = .raise e w1) :
    w1.conns = w.conns ∧ open_cursors c w1 = open_cursors c w + 1 := by
  refine ⟨create_cursor_raise_conns c stmt text n w e w1 h, ?_⟩
  have h1 := create_cursor_owners c stmt text n w
  rw [h] at h1
  rw [open_cursors_of_owners c w1 _ h1, open_cursors_of_owners c w _ rfl, List.countP_append]
  simp

theorem not_exact_of_cur_counter (w : World) (c : Nat) (v : Int) (m : Nat)
    (h1 : (w.conns[c]?).map conn_data.cur_counter = some v) (h2 : open_cursors c w = m)
    (h3 : v ≠ (m : Int)) : ¬ CountersExact w := by
  intro h
  cases hc : w.conns[c]? with
  | none => rw [hc] at h1; cases h1
  | some conn =>
    rw [hc] at h1
    have h4 := h.1 c conn hc
    rw [h2] at h4
    cases h1
    exact h3 h4

theorem not_exact_of_conn_counter (w : World) (e : Nat) (v : Int) (m : Nat)
    (h1 : (w.envs[e]?).map env_data.conn_counter = some v) (h2 : open_connections e w = m)
    (h3 : v ≠ (m : Int)) : ¬ CountersExact w := by
  intro h
  cases hc : w.envs[e]? with
  | none => rw [hc] at h1; cases h1
  | some env =>
    rw [hc] at h1
    have h4 := h.2 e env hc
    rw [h2] at h4
    cases h1
    exact h3 h4

theorem create_cursor_raise_not_exact (c stmt : Nat) (text : String) (n : CursorNative)
    (w w1 : World) (e : LuaError) (h : create_cursor c stmt text n w = .raise e w1)
    (hc : c < w.conns.length) (hw : CountersExact w) : ¬ CountersExact w1 := by
  obtain ⟨h1, h2⟩ := create_cursor_raise_open c stmt text n w w1 e h
  have h3 : w.conns[c]? = some w.conns[c] := List.getElem?_eq_getElem hc
  refine not_exact_of_cur_counter w1 c w.conns[c].cur_counter (open_cursors c w + 1) ?_ h2 ?_
  · rw [h1, h3]
    rfl
  · rw [hw.1 c _ h3]
    push_cast
    omega

theorem open_connections_of_owners (e : Nat) (w : World) (l : List (Nat × Int))
    (h : w.conns.map conn_owner_closed = l) :
    open_connections e w = l.countP (fun p => decide (p.1 = e) && decide (p.2 = 0)) := by
  subst h
  unfold open_connections
  rw [List.countP_map]
  rfl

theorem closedAdded_refl (w : World) : ClosedAdded w w :=
  ⟨rfl, [], by simp, by simp⟩

theorem closedAdded_trans (w w1 w2 : World) (h1 : ClosedAdded w w1) (h2 : ClosedAdded w1 w2) :
    ClosedAdded w w2 := by
  obtain ⟨a1, l1, b1, c1⟩ := h1
  obtain ⟨a2, l2, b2, c2⟩ := h2
  refine ⟨a2.trans a1, l1 ++ l2, ?_, ?_⟩
  · rw [b2, b1, List.append_assoc]
  · intro p hp
    rcases List.mem_append.1 hp with h | h
    · exact c1 p h
    · exact c2 p h

theorem closedAdded_of_eq (w w1 : World) (h1 : w1.envs = w.envs) (h2 : w1.conns = w.conns) :
    ClosedAdded w w1 :=
  ⟨h1, [], by rw [h2]; simp, by simp⟩

theorem added_getenvironment (e : Nat) : Frame ClosedAdded (getenvironment e) := by
  intro w
  have h : (getenvironment e w).world = w := by
    unfold getenvironment
    split
    · rfl
    · split <;> rfl
  rw [h]
  exact closedAdded_refl w

theorem added_getWorld : Frame ClosedAdded getWorld :=
  fun w => closedAdded_refl w

theorem added_call (c : NativeCall) : Frame ClosedAdded (call c) :=
  fun _ => closedAdded_of_eq _ _ rfl rfl

theorem added_assert_oci (status : Int) (errhp : Nat) :
    Frame ClosedAdded (ASSERT_OCI status errhp) :=
  frame_mono (fun _ _ h => closedAdded_of_eq _ _ h.1 h.2.1) (cols_assert_oci 0 status errhp)

theorem added_newConnection (cn : conn_data) (h : cn.closed ≠ 0) :
    Frame ClosedAdded (newConnection cn) := by
  intro w
  refine ⟨rfl, [conn_owner_closed cn], ?_, ?_⟩
  · show (w.conns ++ [cn]).map conn_owner_closed = _
    rw [List.map_append, List.map_singleton]
  · intro p hp
    rw [List.mem_singleton] at hp
    rw [hp]
    exact h

theorem added_modifyConn (c : Nat) (f : conn_data → conn_data)
    (hf : ∀ cn, conn_owner_closed (f cn) = conn_owner_closed cn) :
    Frame ClosedAdded (modifyConn c f) := by
  intro w
  refine ⟨rfl, [], ?_, by simp⟩
  show (w.conns.modify f c).map conn_owner_closed = w.conns.map conn_owner_closed ++ []
  rw [List.append_nil]
  apply List.ext_getElem?
  intro j
  simp only [List.getElem?_map, List.getElem?_modify]
  cases w.conns[j]? with
  | none => rfl
  | some cn =>
    by_cases hj : c = j
    · simp [hj, hf]
    · simp [hj]

theorem raiseFrame_open_pure {R : World → World → Prop} (c e : Nat)
    (f : conn_data → conn_data) (g : env_data → env_data) (v : List LuaValue) :
    RaiseFrame R
      (Lua.bind (modifyConn c f) (fun _ => Lua.bind (modifyEnv e g) (fun _ => Lua.pure v))) :=
  raiseFrame_of_ok (fun _ => ⟨_, _, rfl⟩)

/-- When `env_connect` raises, the state it leaves has the environment objects
it started with, and its connection objects are those it started with,
possibly followed by one that is closed. -/
theorem env_connect_raise_added (e : Nat) (s u p : String) (n : ConnectNative) :
    RaiseFrame ClosedAdded (env_connect e s u p n) := by
  unfold env_connect
  simp only [bind_eq, pure_eq]
  repeat' first
    | with_reducible exact added_getenvironment _
    | with_reducible exact added_getWorld
    | with_reducible exact added_call _
    | with_reducible exact added_assert_oci _ _
    | (with_reducible refine added_newConnection _ ?_
       exact (by decide : (1 : Int) ≠ 0))
    | (with_reducible refine added_modifyConn _ _ ?_
       exact fun _ => rfl)
    | with_reducible exact raiseFrame_open_pure _ _ _ _ _
    | with_reducible refine raiseFrame_bind closedAdded_trans ?_ (fun _ => ?_)

theorem env_connect_raise_open (e : Nat) (s u p : String) (n : ConnectNative)
    (w w1 : World) (err : LuaError) (h : env_connect e s u p n w = .raise err w1) :
    w1.envs = w.envs ∧ ∀ e1, open_connections e1 w1 = open_connections e1 w := by
  obtain ⟨h1, l, h2, h3⟩ := env_connect_raise_added e s u p n w err w1 h
  refine ⟨h1, fun e1 => ?_⟩
  rw [open_connections_of_owners e1 w1 _ h2, open_connections_of_owners e1 w _ rfl,
    List.countP_append]
  have h4 : List.countP (fun p : Nat × Int => decide (p.1 = e1) && decide (p.2 = 0)) l = 0 := by
    rw [List.countP_eq_zero]
    intro p hp
    simp [h3 p hp]
  rw [h4, Nat.add_zero]

theorem countersExact_world_connected : CountersExact world_connected := by
  have h1 : world_connected.conns = [conn_connected] := rfl
  have h2 : world_connected.envs =
      [{ closed := 0, conn_counter := 1, envhp := 1000, errhp := 1001 }] := rfl
  have h3 : world_connected.curs = [] := rfl
  constructor
  · intro c conn hc
    rw [h1] at hc
    unfold open_cursors
    rw [h3]
    cases c with
    | zero => cases hc; rfl
    | succ c => simp at hc
  · intro e env he
    rw [h2] at he
    unfold open_connections
    rw [h1]
    cases e with
    | zero => cases he; rfl
    | succ e => simp at he

/-- C21: the counters are not the numbers of open handle objects in every
reachable state.  Whenever `create_cursor` raises, in any state and with any
answers of the native library, the connection objects (so `cur_counter`) are
as before while the Connection `c` has one more Cursor object that is not
closed; so from every state in which the counters are exact a failed cursor
creation leads to a state in which they are not.  The login does not have the
defect: whenever `env_connect` raises, the environment objects (so
`conn_counter`) and the number of open Connections of every Environment are
as before.  A concrete run: in `world_connected` the counters are exact; a
query on a BLOB column raises in `create_cursor` and leaves Cursor 0 not
closed with `cur_counter = 0`; the finalizer of that object then closes it and
takes `cur_counter` to `-1`.  For the Environments: a `connect_async` handle
of Environment 0 that is joined by a call on Environment 1 is an open
Connection of Environment 0 counted in the `conn_counter` of Environment 1,
and its `close` takes the `conn_counter` of Environment 0 to `-1`. -/
theorem counters_not_exact :
    (∀ (c stmt : Nat) (text : String) (n : CursorNative) (w w1 : World) (e : LuaError),
      create_cursor c stmt text n w = .raise e w1 →
        w1.conns = w.conns ∧ open_cursors c w1 = open_cursors c w + 1 ∧
        (c < w.conns.length → CountersExact w → ¬ CountersExact w1)) ∧
    (∀ (e : Nat) (s u p : String) (n : ConnectNative) (w w1 : World) (err : LuaError),
      env_connect e s u p n w = .raise err w1 →
        w1.envs = w.envs ∧ ∀ e1, open_connections e1 w1 = open_connections e1 w) ∧
    (CountersExact world_connected ∧
      run true ops_failed_creation World.empty =
        step true (.conn_execute 0 "SELECT b FROM t" none
          (executeNative_query 3100 OCI_SUCCESS SQLT_BLOB)) world_connected ∧
      Reachable true (run true ops_failed_creation World.empty) ∧
      (run true ops_failed_creation World.empty).curs.map cur_owner_closed = [(0, 0)] ∧
      (run true ops_failed_creation World.empty).conns.map conn_data.cur_counter = [0] ∧
      open_cursors 0 (run true ops_failed_creation World.empty) = 1 ∧
      ¬ CountersExact (run true ops_failed_creation World.empty)) ∧
    (Reachable true (run true ops_failed_creation_finalized World.empty) ∧
      (run true ops_failed_creation_finalized World.empty).curs.map cur_owner_closed
        = [(0, 1)] ∧
      (run true ops_failed_creation_finalized World.empty).conns.map conn_data.cur_counter
        = [-1] ∧
      open_cursors 0 (run true ops_failed_creation_finalized World.empty) = 0 ∧
      ¬ CountersExact (run true ops_failed_creation_finalized World.empty)) ∧
    (Reachable true (run true ops_foreign_join World.empty) ∧
      (run true ops_foreign_join World.empty).conns.map conn_owner_closed
        = [(0, 0)] ∧
      (run true ops_foreign_join World.empty).envs.map env_data.conn_counter = [0, 1] ∧
      open_connections 0 (run true ops_foreign_join World.empty) = 1 ∧
      open_connections 1 (run true ops_foreign_join World.empty) = 0 ∧
      ¬ CountersExact (run true ops_foreign_join World.empty)) ∧
    (Reachable true (run true ops_foreign_join_closed World.empty) ∧
      (run true ops_foreign_join_closed World.empty).conns.map conn_owner_closed
        = [(0, 1)] ∧
      (run true ops_foreign_join_closed World.empty).envs.map env_data.conn_counter
        = [-1, 1] ∧
      ¬ CountersExact (run true ops_foreign_join_closed World.empty)) :=
  ⟨fun c stmt text n w w1 e h =>
      ⟨(create_cursor_raise_open c stmt text n w w1 e h).1,
        (create_cursor_raise_open c stmt text n w w1 e h).2,
        create_cursor_raise_not_exact c stmt text n w w1 e h⟩,
    env_connect_raise_open,
    ⟨countersExact_world_connected, rfl, reachable_run true _ _ Reachable.start, rfl, rfl, rfl,
      not_exact_of_cur_counter _ 0 0 1 rfl rfl (by decide)⟩,
    ⟨reachable_run true _ _ Reachable.start, rfl, rfl, rfl,
      not_exact_of_cur_counter _ 0 (-1) 0 (by decide) rfl (by decide)⟩,
    ⟨reachable_run true _ _ Reachable.start, rfl, rfl, rfl, rfl,
      not_exact_of_conn_counter _ 0 0 1 rfl rfl (by decide)⟩,
    ⟨reachable_run true _ _ Reachable.start, rfl, rfl,
      not_exact_of_conn_counter _ 0 (-1) 0 (by decide) rfl (by decide)⟩⟩

/-! ## The tables of column types and column descriptions -/

theorem getcolumntype_congr (b : Bool) (c1 c2 : column_data) (h : c1.type = c2.type) :
    getcolumntype b c1 = getcolumntype b c2 := by
  unfold getcolumntype
  rw [h]

theorem toNat_succ_pred (m : Nat) : ((m : Int) + 1).toNat - 1 = m := by
  omega

theorem luaL_ref_noRef (m : Nat) : ((m : Int) + 1 ≠ LUA_NOREF) := by
  unfold LUA_NOREF
  omega

theorem registry_get_last (w : World) (rs : List (Option LuaValue)) (v : LuaValue)
    (h : w.registry = rs ++ [some v]) :
    registry_get ((rs.length : Int) + 1) w = .ok v w := by
  have h1 : (0 : Int) < (rs.length : Int) + 1 := by omega
  unfold registry_get
  rw [if_pos h1, toNat_succ_pred, h, List.getElem?_concat_length]
  rfl

theorem rawset_loop_quiet (t : Nat) (g : Nat → LuaValue) (l : List Nat) (w : World) :
    (for_each (fun i => rawset t (.int i) (g i)) l w).world.registry = w.registry ∧
      (for_each (fun i => rawset t (.int i) (g i)) l w).world.calls = w.calls ∧
      (for_each (fun i => rawset t (.int i) (g i)) l w).world.envs = w.envs ∧
      (for_each (fun i => rawset t (.int i) (g i)) l w).world.conns = w.conns := by
  induction l generalizing w with
  | nil => exact ⟨rfl, rfl, rfl, rfl⟩
  | cons i rest ih => exact ih (rawset t (.int i) (g i) w).world

theorem cur_getcoltypes_cached (b : Bool) (w : World) (k : Nat) (cur : cur_data)
    (v : LuaValue) (hk : w.curs[k]? = some cur) (h0 : cur.closed = 0)
    (hr : cur.coltypes ≠ LUA_NOREF) (hv : registry_get cur.coltypes w = .ok v w) :
    cur_getcoltypes b k w = .ok [v] w := by
  unfold cur_getcoltypes
  simp only [bind_eq, Lua.bind, getcursor_open w k cur hk h0, hr, ne_eq, not_false_eq_true,
    if_true, hv, pure_eq, Lua.pure]

theorem cur_getcolumns_cached (b : Bool) (w : World) (k : Nat) (cur : cur_data)
    (v : LuaValue) (hk : w.curs[k]? = some cur) (h0 : cur.closed = 0)
    (hr : cur.columns ≠ LUA_NOREF) (hv : registry_get cur.columns w = .ok v w) :
    cur_getcolumns b k w = .ok [v] w := by
  unfold cur_getcolumns
  simp only [bind_eq, Lua.bind, getcursor_open w k cur hk h0, hr, ne_eq, not_false_eq_true,
    if_true, hv, pure_eq, Lua.pure]

/-- The first call of `cur_getcoltypes` on an open Cursor without a cached
table returns a fresh table that holds under each key `i` in `1 .. numcols`
the type name of column `i`; a call made in the state the first call leaves
returns that table again and changes nothing. -/
theorem cur_getcoltypes_twice (b : Bool) (w : World) (k : Nat) (cur : cur_data)
    (hk : w.curs[k]? = some cur) (h0 : cur.closed = 0) (hno : cur.coltypes = LUA_NOREF) :
    ∃ w1, cur_getcoltypes b k w = .ok [.table w.tables.length] w1 ∧
      (∀ i, 1 ≤ i → i ≤ cur.numcols →
        (w1.tables.getD w.tables.length []).get (.int i) =
          .string (getcolumntype b (cur.col i))) ∧
      cur_getcoltypes b k w1 = .ok [.table w.tables.length] w1 ∧
      w1.envs = w.envs ∧ w1.conns = w.conns ∧ w1.calls = w.calls ∧
      w1.curs = w.curs.modify
        (fun cu => { cu with coltypes := (w.registry.length : Int) + 1 }) k := by
  obtain ⟨w1, a1, _, a3, a4⟩ := rawset_loop_spec w.tables.length
    (fun i => .string (getcolumntype b (cur.col i))) (List.range' 1 cur.numcols)
    (List.nodup_range' 1 cur.numcols) { w with tables := w.tables ++ [[]] } (by simp)
  obtain ⟨q1, q2, q3, q4⟩ := rawset_loop_quiet w.tables.length
    (fun i => .string (getcolumntype b (cur.col i))) (List.range' 1 cur.numcols)
    { w with tables := w.tables ++ [[]] }
  rw [a1] at q1 q2 q3 q4
  replace q1 : w1.registry = w.registry := q1
  replace q2 : w1.calls = w.calls := q2
  replace q3 : w1.envs = w.envs := q3
  replace q4 : w1.conns = w.conns := q4
  replace a3 : w1.curs = w.curs := a3
  have hne : (LuaValue.table w.tables.length = LuaValue.nil) = False := by simp
  have hfirst : cur_getcoltypes b k w = .ok [.table w.tables.length]
      { w1 with
        registry := w1.registry ++ [some (.table w.tables.length)]
        curs := w1.curs.modify
          (fun cu => { cu with coltypes := (w1.registry.length : Int) + 1 }) k } := by
    unfold cur_getcoltypes
    simp only [bind_eq, Lua.bind, getcursor_open w k cur hk h0, hno, ne_eq, not_true_eq_false,
      if_false, newtable, withTables_eq, a1, luaL_ref, hne, modifyCur_eq, withRegistry_eq,
      withCurs_eq, pure_eq, Lua.pure]
  refine ⟨_, hfirst, fun i i1 i2 => a4 i (List.mem_range'_1.2 ⟨i1, by omega⟩), ?_, q3, q4, q2, ?_⟩
  · have hk2 : (w1.curs.modify
        (fun cu => { cu with coltypes := (w1.registry.length : Int) + 1 }) k)[k]? =
        some { cur with coltypes := (w1.registry.length : Int) + 1 } := by
      rw [List.getElem?_modify_eq, a3]
      simp [hk]
    exact cur_getcoltypes_cached b _ k _ _ hk2 h0 (luaL_ref_noRef _)
      (registry_get_last _ w1.registry (.table w.tables.length) rfl)
  · show w1.curs.modify _ k = _
    rw [a3, q1]

/-- One round of the loop of `cur_getcolumns`: the description table of a
column is made and stored in the table `t` under the name of the column. -/
theorem columns_body_spec (t : Nat) (name ty : String) (mx : Int) (w : World)
    (ht : t < w.tables.length) :
    ∃ w1, Lua.bind newtable (fun d =>
        Lua.bind (rawset d (.str "type") (.string ty)) (fun _ =>
          Lua.bind (rawset d (.str "maxsize") (.integer mx)) (fun _ =>
            rawset t (.str name) (.table d)))) w = .ok () w1 ∧
      w1.curs = w.curs ∧ w1.registry = w.registry ∧ w1.calls = w.calls ∧ w1.envs = w.envs ∧
      w1.conns = w.conns ∧
      w1.tables.length = w.tables.length + 1 ∧
      (∀ t1, t1 < w.tables.length → t1 ≠ t → w1.tables[t1]? = w.tables[t1]?) ∧
      (∀ key, key ≠ .str name →
        (w1.tables.getD t []).get key = (w.tables.getD t []).get key) ∧
      (w1.tables.getD t []).get (.str name) = .table w.tables.length ∧
      (w1.tables.getD w.tables.length []).get (.str "type") = .string ty ∧
      (w1.tables.getD w.tables.length []).get (.str "maxsize") = .integer mx := by
  have hne : t ≠ w.tables.length := Nat.ne_of_lt ht
  have hd : (w.tables ++ [([] : LuaTable)])[w.tables.length]? = some [] :=
    List.getElem?_concat_length _ _
  refine ⟨_, rfl, rfl, rfl, rfl, rfl, rfl, ?_, ?_, ?_, ?_, ?_, ?_⟩
  · show (List.modify _ t (List.modify _ _ (List.modify _ _ (w.tables ++ [[]])))).length = _
    simp
  · intro t1 h1 h2
    show (List.modify _ t (List.modify _ _ (List.modify _ _ (w.tables ++ [[]]))))[t1]? = _
    rw [List.getElem?_modify_ne _ _ (Ne.symm h2),
      List.getElem?_modify_ne _ _ (Ne.symm (Nat.ne_of_lt h1)),
      List.getElem?_modify_ne _ _ (Ne.symm (Nat.ne_of_lt h1)), List.getElem?_append_left h1]
  · intro key hkey
    show LuaTable.get
      ((List.modify _ t (List.modify _ _ (List.modify _ _ (w.tables ++ [[]])))).getD t []) key = _
    rw [List.getD_eq_getElem?_getD, List.getD_eq_getElem?_getD, List.getElem?_modify_eq,
      List.getElem?_modify_ne _ _ (Ne.symm hne), List.getElem?_modify_ne _ _ (Ne.symm hne),
      List.getElem?_append_left ht, List.getElem?_eq_getElem ht]
    show LuaTable.get (LuaTable.set w.tables[t] (.str name) (.table w.tables.length)) key =
      LuaTable.get w.tables[t] key
    exact get_set_ne _ _ _ _ (Ne.symm hkey)
  · show LuaTable.get
      ((List.modify _ t (List.modify _ _ (List.modify _ _ (w.tables ++ [[]])))).getD t [])
      (.str name) = _
    rw [List.getD_eq_getElem?_getD, List.getElem?_modify_eq,
      List.getElem?_modify_ne _ _ (Ne.symm hne), List.getElem?_modify_ne _ _ (Ne.symm hne),
      List.getElem?_append_left ht, List.getElem?_eq_getElem ht]
    show LuaTable.get (LuaTable.set w.tables[t] (.str name) (.table w.tables.length))
      (.str name) = _
    exact get_set_eq _ _ _
  · show LuaTable.get
      ((List.modify _ t (List.modify _ _ (List.modify _ _ (w.tables ++ [[]])))).getD
        w.tables.length []) (.str "type") = _
    rw [List.getD_eq_getElem?_getD, List.getElem?_modify_ne _ _ hne, List.getElem?_modify_eq,
      List.getElem?_modify_eq, hd]
    rfl
  · show LuaTable.get
      ((List.modify _ t (List.modify _ _ (List.modify _ _ (w.tables ++ [[]])))).getD
        w.tables.length []) (.str "maxsize") = _
    rw [List.getD_eq_getElem?_getD, List.getElem?_modify_ne _ _ hne, List.getElem?_modify_eq,
      List.getElem?_modify_eq, hd]
    rfl

theorem bind_of_ok {α β : Type} (m : Lua α) (f : α → Lua β) (w w1 : World) (a : α)
    (h : m w = .ok a w1) : Lua.bind m f w = f a w1 := by
  unfold Lua.bind
  rw [h]

/-- The loop of `cur_getcolumns`: afterwards the table `t` holds under the
name of each column a description table, made in the loop, whose entries
`type` and `maxsize` are those of a column of that name (the last one, when
several columns have the name). -/
theorem columns_loop_spec (t : Nat) (nm ty : Nat → String) (mx : Nat → Int) (l : List Nat)
    (w : World) (ht : t < w.tables.length) :
    ∃ w1, for_each (fun i => Lua.bind newtable (fun d =>
        Lua.bind (rawset d (.str "type") (.string (ty i))) (fun _ =>
          Lua.bind (rawset d (.str "maxsize") (.integer (mx i))) (fun _ =>
            rawset t (.str (nm i)) (.table d))))) l w = .ok () w1 ∧
      w1.curs = w.curs ∧ w1.registry = w.registry ∧ w1.calls = w.calls ∧ w1.envs = w.envs ∧
      w1.conns = w.conns ∧
      w.tables.length ≤ w1.tables.length ∧
      (∀ t1, t1 < w.tables.length → t1 ≠ t → w1.tables[t1]? = w.tables[t1]?) ∧
      (∀ key, (∀ i ∈ l, key ≠ .str (nm i)) →
        (w1.tables.getD t []).get key = (w.tables.getD t []).get key) ∧
      (∀ j ∈ l, ∃ i ∈ l, nm i = nm j ∧ ∃ d, w.tables.length ≤ d ∧
        (w1.tables.getD t []).get (.str (nm j)) = .table d ∧
        (w1.tables.getD d []).get (.str "type") = .string (ty i) ∧
        (w1.tables.getD d []).get (.str "maxsize") = .integer (mx i)) := by
  induction l generalizing w with
  | nil =>
    exact ⟨w, rfl, rfl, rfl, rfl, rfl, rfl, le_refl _, fun _ _ _ => rfl, fun _ _ => rfl,
      fun j hj => by cases hj⟩
  | cons i0 rest ih =>
    obtain ⟨w2, b0, b1, b2, b3, b4, b5, b6, b7, b8, b9, b10, b11⟩ :=
      columns_body_spec t (nm i0) (ty i0) (mx i0) w ht
    have ht2 : t < w2.tables.length := by omega
    obtain ⟨w1, c0, c1, c2, c3, c4, c5, c6, c7, c8, c9⟩ := ih w2 ht2
    refine ⟨w1, ?_, c1.trans b1, c2.trans b2, c3.trans b3, c4.trans b4, c5.trans b5, by omega,
      ?_, ?_, ?_⟩
    · rw [for_each, bind_of_ok _ _ w w2 () b0]
      exact c0
    · intro t1 h1 h2
      rw [c7 t1 (by omega) h2, b7 t1 h1 h2]
    · intro key hkey
      rw [c8 key (fun i hi => hkey i (List.mem_cons_of_mem _ hi)),
        b8 key (hkey i0 (List.mem_cons_self _ _))]
    · intro j hj
      have hrest : ∀ j1 ∈ rest, ∃ i ∈ i0 :: rest, nm i = nm j1 ∧ ∃ d, w.tables.length ≤ d ∧
          (w1.tables.getD t []).get (.str (nm j1)) = .table d ∧
          (w1.tables.getD d []).get (.str "type") = .string (ty i) ∧
          (w1.tables.getD d []).get (.str "maxsize") = .integer (mx i) := by
        intro j1 hj1
        obtain ⟨i, hi, e1, d, e2, e3, e4, e5⟩ := c9 j1 hj1
        exact ⟨i, List.mem_cons_of_mem _ hi, e1, d, by omega, e3, e4, e5⟩
      rcases List.mem_cons.1 hj with hj0 | hjr
      · subst hj0
        by_cases hex : ∃ i1 ∈ rest, nm i1 = nm j
        · obtain ⟨i1, hi1, hn⟩ := hex
          obtain ⟨i, hi, e1, d, e2, e3, e4, e5⟩ := hrest i1 hi1
          rw [hn] at e1 e3
          exact ⟨i, hi, e1, d, e2, e3, e4, e5⟩
        · have hne : ∀ i ∈ rest, (LuaKey.str (nm j)) ≠ .str (nm i) := by
            intro i hi e
            injection e with e1
            exact hex ⟨i, hi, e1.symm⟩
          have hd : w.tables.length < w2.tables.length := by omega
          have htab : w1.tables.getD w.tables.length [] = w2.tables.getD w.tables.length [] := by
            rw [List.getD_eq_getElem?_getD, List.getD_eq_getElem?_getD,
              c7 _ hd (Ne.symm (Nat.ne_of_lt ht))]
          refine ⟨j, List.mem_cons_self _ _, rfl, w.tables.length, le_refl _, ?_, ?_, ?_⟩
          · rw [c8 _ hne, b9]
          · rw [htab, b10]
          · rw [htab, b11]
      · exact hrest j hjr

/-- The first call of `cur_getcolumns` on an open Cursor without a cached
table returns a fresh table that holds under the name of each column a
description table whose entry `type` is the type name of a column of that
name; a call made in the state the first call leaves returns that table again
and changes nothing. -/
theorem cur_getcolumns_twice (b : Bool) (w : World) (k : Nat) (cur : cur_data)
    (hk : w.curs[k]? = some cur) (h0 : cur.closed = 0) (hno : cur.columns = LUA_NOREF) :
    ∃ w1, cur_getcolumns b k w = .ok [.table w.tables.length] w1 ∧
      (∀ j, 1 ≤ j → j ≤ cur.numcols → ∃ i, 1 ≤ i ∧ i ≤ cur.numcols ∧
        (cur.col i).name.getD "" = (cur.col j).name.getD "" ∧ ∃ d,
          (w1.tables.getD w.tables.length []).get (.str ((cur.col j).name.getD "")) = .table d ∧
          (w1.tables.getD d []).get (.str "type") = .string (getcolumntype b (cur.col i)) ∧
          (w1.tables.getD d []).get (.str "maxsize") = .integer (cur.col i).max) ∧
      cur_getcolumns b k w1 = .ok [.table w.tables.length] w1 ∧
      w1.envs = w.envs ∧ w1.conns = w.conns ∧ w1.calls = w.calls ∧
      w1.curs = w.curs.modify
        (fun cu => { cu with columns := (w.registry.length : Int) + 1 }) k := by
  obtain ⟨w1, a0, a1, a2, a3, a4, a5, _, _, _, a9⟩ := columns_loop_spec w.tables.length
    (fun i => (cur.col i).name.getD "") (fun i => getcolumntype b (cur.col i))
    (fun i => ((cur.col i).max : Int)) (List.range' 1 cur.numcols)
    { w with tables := w.tables ++ [[]] } (by simp)
  replace a1 : w1.curs = w.curs := a1
  replace a2 : w1.registry = w.registry := a2
  replace a3 : w1.calls = w.calls := a3
  replace a4 : w1.envs = w.envs := a4
  replace a5 : w1.conns = w.conns := a5
  have hne : (LuaValue.table w.tables.length = LuaValue.nil) = False := by simp
  have hfirst : cur_getcolumns b k w = .ok [.table w.tables.length]
      { w1 with
        registry := w1.registry ++ [some (.table w.tables.length)]
        curs := w1.curs.modify
          (fun cu => { cu with columns := (w1.registry.length : Int) + 1 }) k } := by
    unfold cur_getcolumns
    simp only [bind_eq, Lua.bind, getcursor_open w k cur hk h0, hno, ne_eq, not_true_eq_false,
      if_false, newtable, withTables_eq]
    simp only [a0, luaL_ref, hne, modifyCur_eq, withRegistry_eq, withCurs_eq, pure_eq, Lua.pure,
      if_false]
  refine ⟨_, hfirst, fun j j1 j2 => ?_, ?_, a4, a5, a3, ?_⟩
  · obtain ⟨i, hi, e1, d, _, e3, e4, e5⟩ := a9 j (List.mem_range'_1.2 ⟨j1, by omega⟩)
    obtain ⟨i1, i2⟩ := List.mem_range'_1.1 hi
    exact ⟨i, i1, by omega, e1, d, e3, e4, e5⟩
  · have hk2 : (w1.curs.modify
        (fun cu => { cu with columns := (w1.registry.length : Int) + 1 }) k)[k]? =
        some { cur with columns := (w1.registry.length : Int) + 1 } := by
      rw [List.getElem?_modify_eq, a1]
      simp [hk]
    exact cur_getcolumns_cached b _ k _ _ hk2 h0 (luaL_ref_noRef _)
      (registry_get_last _ w1.registry (.table w.tables.length) rfl)
  · show w1.curs.modify _ k = _
    rw [a1, a2]

/-- C18: the type names of a created cursor.  When `create_cursor` returns, it
returns the new Cursor, which has no cached table, and every column
`1 .. numcols` of it has the type tag the native library reported; the name
`getcolumntype` gives for the column is in the normalized vocabulary and is not
`unknown`.  The name is `string` for the character tags and CLOB, `datetime`
for DAT, `timestamp` for TIMESTAMP, TIMESTAMP_TZ and TIMESTAMP_LTZ; with 64-bit
integers it is `double` for FLT, `integer` for INT, `unsigned integer` for UIN
and `number` for NUM and VNU, without them it is `number` for these five tags.

These are the names `cur_getcoltypes` and `cur_getcolumns` report, in every
state in which the Cursor is open and its columns have the tags (for
`cur_getcolumns` also the names) they were created with.  The first call of
`cur_getcoltypes` returns a new table that holds under each key `i` the name
of column `i`.  The first call of `cur_getcolumns` returns a new table that
holds under the name of each column a description table whose entry `type` is
that name of a column with this name (of the column itself when no other
column has its name).  A further call of either function, made in the state
its first call left, returns the same table and changes nothing. -/
theorem getcolumntype_normalized (b : Bool) (c stmt : Nat) (text : String) (n : CursorNative)
    (w w1 : World) (vs : List LuaValue) (h : create_cursor c stmt text n w = .ok vs w1) :
    vs = [.cursor w.curs.length] ∧
    ∃ cur, w1.curs[w.curs.length]? = some cur ∧ cur.closed = 0 ∧ cur.numcols = n.numcols ∧
      cur.coltypes = LUA_NOREF ∧ cur.columns = LUA_NOREF ∧
      (∀ i, 1 ≤ i → i ≤ cur.numcols →
        (cur.col i).type = (n.column i).type ∧
        getcolumntype b (cur.col i) ∈
          ["string", "number", "integer", "unsigned integer", "double", "datetime",
            "timestamp"] ∧
        getcolumntype b (cur.col i) ≠ "unknown" ∧
        (is_character (cur.col i).type = true ∨ (cur.col i).type = SQLT_CLOB →
          getcolumntype b (cur.col i) = "string") ∧
        ((cur.col i).type = SQLT_DAT → getcolumntype b (cur.col i) = "datetime") ∧
        ((cur.col i).type = SQLT_TIMESTAMP ∨ (cur.col i).type = SQLT_TIMESTAMP_TZ ∨
            (cur.col i).type = SQLT_TIMESTAMP_LTZ →
          getcolumntype b (cur.col i) = "timestamp") ∧
        (b = true →
          ((cur.col i).type = SQLT_FLT → getcolumntype b (cur.col i) = "double") ∧
          ((cur.col i).type = SQLT_INT → getcolumntype b (cur.col i) = "integer") ∧
          ((cur.col i).type = SQLT_UIN → getcolumntype b (cur.col i) = "unsigned integer") ∧
          ((cur.col i).type = SQLT_NUM ∨ (cur.col i).type = SQLT_VNU →
            getcolumntype b (cur.col i) = "number")) ∧
        (b = false →
          (cur.col i).type = SQLT_FLT ∨ (cur.col i).type = SQLT_INT ∨
            (cur.col i).type = SQLT_UIN ∨ (cur.col i).type = SQLT_NUM ∨
            (cur.col i).type = SQLT_VNU →
          getcolumntype b (cur.col i) = "number")) ∧
      (∀ (w2 : World) (cu : cur_data), w2.curs[w.curs.length]? = some cu → cu.closed = 0 →
        cu.numcols = cur.numcols → (∀ i, (cu.col i).type = (cur.col i).type) →
        cu.coltypes = LUA_NOREF →
        ∃ w3, cur_getcoltypes b w.curs.length w2 = .ok [.table w2.tables.length] w3 ∧
          (∀ i, 1 ≤ i → i ≤ cur.numcols →
            (w3.tables.getD w2.tables.length []).get (.int i) =
              .string (getcolumntype b (cur.col i))) ∧
          cur_getcoltypes b w.curs.length w3 = .ok [.table w2.tables.length] w3) ∧
      (∀ (w2 : World) (cu : cur_data), w2.curs[w.curs.length]? = some cu → cu.closed = 0 →
        cu.numcols = cur.numcols →
        (∀ i, (cu.col i).type = (cur.col i).type ∧ (cu.col i).name = (cur.col i).name) →
        cu.columns = LUA_NOREF →
        ∃ w3, cur_getcolumns b w.curs.length w2 = .ok [.table w2.tables.length] w3 ∧
          (∀ j, 1 ≤ j → j ≤ cur.numcols → ∃ i, 1 ≤ i ∧ i ≤ cur.numcols ∧
            (cur.col i).name.getD "" = (cur.col j).name.getD "" ∧ ∃ d,
              (w3.tables.getD w2.tables.length []).get (.str ((cur.col j).name.getD ""))
                = .table d ∧
              (w3.tables.getD d []).get (.str "type") =
                .string (getcolumntype b (cur.col i))) ∧
          cur_getcolumns b w.curs.length w3 = .ok [.table w2.tables.length] w3) := by
  obtain ⟨h1, h2, h3⟩ := create_cursor_columns c stmt text n w w1 vs h
  obtain ⟨cu0, r1, r2, r3, r4⟩ := create_cursor_noRefs c stmt text n w w1 vs h
  refine ⟨h1, ?_⟩
  obtain ⟨cur, l, a1, a2, a3, a4, a5, a6⟩ := h2
  have hc : cur = cu0 := by
    rw [a1] at r1
    exact Option.some.inj r1
  subst hc
  refine ⟨cur, a1, a2, a4, r3, r4, fun i i1 i2 => ?_, ?_, ?_⟩
  · rw [a4] at i2
    obtain ⟨ht, hs⟩ := h3 i i1 i2
    obtain ⟨cu1, b1, _, _, _, b5⟩ :=
      created_column w.curs.length c n.numcols i _ w1.curs ⟨cur, l, a1, a2, a3, a4, a5, a6⟩ ht
        i1 i2
    rw [a1] at b1
    cases b1
    rw [← b5] at hs
    exact ⟨b5, getcolumntype_of_supported b (cur.col i) hs⟩
  · intro w2 cu hk h0 hn hty hno
    obtain ⟨w3, e1, e2, e3, _⟩ := cur_getcoltypes_twice b w2 w.curs.length cu hk h0 hno
    refine ⟨w3, e1, fun i i1 i2 => ?_, e3⟩
    rw [e2 i i1 (by rw [hn]; exact i2), getcolumntype_congr b _ _ (hty i)]
  · intro w2 cu hk h0 hn hty hno
    obtain ⟨w3, e1, e2, e3, _⟩ := cur_getcolumns_twice b w2 w.curs.length cu hk h0 hno
    refine ⟨w3, e1, fun j j1 j2 => ?_, e3⟩
    obtain ⟨i, i1, i2, f1, d, f2, f3, _⟩ := e2 j j1 (by rw [hn]; exact j2)
    rw [(hty i).2, (hty j).2] at f1
    rw [(hty j).2] at f2
    rw [getcolumntype_congr b _ _ (hty i).1] at f3
    exact ⟨i, i1, by rw [← hn]; exact i2, f1, d, f2, f3⟩

/-- Witness of `getcolumntype_normalized`: the cursor of the query
`SELECT 1 AS one FROM dual`, with its one column of tag NUM; the tables of
`cur_getcoltypes` and `cur_getcolumns` report the name `number` for it. -/
theorem getcolumntype_normalized_witness :
    ∃ cur w3 w4 d, (create_cursor 0 3000 "SELECT 1 AS one FROM dual"
        (cursorNative_one 3001 SQLT_NUM) world_connected).world.curs[0]? = some cur ∧
      (cur.col 1).type = SQLT_NUM ∧ getcolumntype true (cur.col 1) = "number" ∧
      cur_getcoltypes true 0 (create_cursor 0 3000 "SELECT 1 AS one FROM dual"
        (cursorNative_one 3001 SQLT_NUM) world_connected).world = .ok [.table 0] w3 ∧
      (w3.tables.getD 0 []).get (.int 1) = .string (getcolumntype true (cur.col 1)) ∧
      cur_getcolumns true 0 (create_cursor 0 3000 "SELECT 1 AS one FROM dual"
        (cursorNative_one 3001 SQLT_NUM) world_connected).world = .ok [.table 0] w4 ∧
      (w4.tables.getD 0 []).get (.str "one") = .table d ∧
      (w4.tables.getD d []).get (.str "type") = .string "number" :=
  match getcolumntype_normalized true 0 3000 "SELECT 1 AS one FROM dual"
      (cursorNative_one 3001 SQLT_NUM) world_connected
      (create_cursor 0 3000 "SELECT 1 AS one FROM dual" (cursorNative_one 3001 SQLT_NUM)
        world_connected).world [.cursor 0] rfl with
  | ⟨_, cur, h1, h0, hn, hno1, hno2, hcols, htypes, hcolumns⟩ =>
    have hc1 : cur = cur_one :=
      Option.some.inj (h1.symm.trans rfl)
    have h := hcols 1 (le_refl 1) (le_of_eq hn.symm)
    match htypes _ cur h1 h0 rfl (fun _ => rfl) hno1,
      hcolumns _ cur h1 h0 rfl (fun _ => ⟨rfl, rfl⟩) hno2 with
    | ⟨w3, t1, t2, _⟩, ⟨w4, c1, c2, _⟩ =>
      match c2 1 (le_refl 1) (le_of_eq hn.symm) with
      | ⟨i, i1, i2, _, d, d1, d2⟩ =>
        have hi : i = 1 := by
          rw [hn] at i2
          exact le_antisymm i2 i1
        ⟨cur, w3, w4, d, h1, h.1, (h.2.2.2.2.2.2.1 rfl).2.2.2 (Or.inl h.1), t1,
          t2 1 (le_refl 1) (le_of_eq hn.symm), c1, by rw [hc1] at d1; exact d1,
          by rw [hi, hc1] at d2; exact d2⟩

theorem world_stamp_cursor : world_stamp.curs[0]? = some cur_stamp := rfl

theorem datetime_facts (ty : Nat) (h : is_datetime ty = true) :
    ty ≠ SQLT_INT ∧ ty ≠ SQLT_UIN ∧ is_decimal ty = false ∧ ty ≠ SQLT_FLT ∧
      is_character ty = false := by
  simp only [is_datetime, Bool.or_eq_true, decide_eq_true_eq] at h
  rcases h with ((h | h) | h) | h <;> subst h <;> decide

theorem ASSERT_OCI_ok_inv (status : Int) (errhp : Nat) (w w1 : World) (u : Unit)
    (h : ASSERT_OCI status errhp w = .ok u w1) : w1 = w := by
  rcases ASSERT_OCI_cases status errhp w with h1 | ⟨e, h1 | h1⟩ <;> rw [h1] at h <;> cases h
  rfl

theorem pushvalue_datetime (b : Bool) (w w1 : World) (k i : Nat) (cur : cur_data)
    (n : DecodeNative) (v : LuaValue) (hk : w.curs[k]? = some cur)
    (hnull : (cur.col i).null = 0) (hty : is_datetime (cur.col i).type = true)
    (h : pushvalue b k i n w = .ok v w1) :
    v = .table w.tables.length ∧ w1.tables.length = w.tables.length + 1 ∧
      DateFields n (cur.col i).val.date (w1.tables.getD w.tables.length []) := by
  obtain ⟨t1, t2, t3, t4, t5⟩ := datetime_facts _ hty
  unfold pushvalue at h
  rw [bind_eq, theCursor_bind w k cur hk] at h
  simp only [hnull, ne_eq, not_true_eq_false, if_false, t1, t2, t3, t4, t5, hty,
    Bool.false_eq_true, if_true, bind_eq, pure_eq] at h
  obtain ⟨_, wa, ha, h⟩ := bind_ok_inv _ _ _ _ _ h
  cases ha
  obtain ⟨_, wb, hb, h⟩ := bind_ok_inv _ _ _ _ _ h
  cases ASSERT_OCI_ok_inv _ _ _ _ _ hb
  obtain ⟨_, wc, hc, h⟩ := bind_ok_inv _ _ _ _ _ h
  cases hc
  obtain ⟨_, wd, hd, h⟩ := bind_ok_inv _ _ _ _ _ h
  cases ASSERT_OCI_ok_inv _ _ _ _ _ hd
  cases h
  refine ⟨rfl, ?_, ?_⟩
  · show (List.modify _ _ _).length = _
    simp
  · have e : ∀ (l : List LuaTable) (tb : LuaTable), (l ++ [tb]).getD l.length [] = tb := by
      intro l tb
      simp [List.getD_eq_getElem?_getD]
    show DateFields n _ (List.getD (List.modify _ w.tables.length
      (List.modify _ w.tables.length (List.modify _ w.tables.length
      (List.modify _ w.tables.length (List.modify _ w.tables.length
      (List.modify _ w.tables.length (List.modify _ w.tables.length
        (w.tables ++ [[]])))))))) w.tables.length [])
    simp only [modify_append_last, e]
    refine ⟨?_, ?_, ?_, ?_, ?_, ?_, ?_⟩
    all_goals
      repeat' first
        | exact get_set_eq _ _ _
        | rw [get_set_ne _ _ _ _ (by decide)]

theorem returns_pure {α : Type} (a : α) : Returns (Lua.pure a) a := by
  intro w v w1 h
  cases h
  rfl

theorem returns_bind {α β : Type} (m : Lua α) (f : α → Lua β) (b0 : β)
    (hf : ∀ a, Returns (f a) b0) : Returns (Lua.bind m f) b0 := by
  intro w v w1 h
  obtain ⟨a, w2, -, h2⟩ := bind_ok_inv _ _ _ _ _ h
  exact hf a w2 v w1 h2

theorem logs_bind_right {α β : Type} (c : NativeCall) (m : Lua α) (f : α → Lua β)
    (hm : Frame (Adds (fun _ => True)) m) (hf : ∀ a, Logs c (f a)) : Logs c (Lua.bind m f) := by
  intro w b w1 h
  obtain ⟨a, w2, h1, h2⟩ := bind_ok_inv _ _ _ _ _ h
  obtain ⟨l0, hl0, -⟩ := hm w
  rw [h1] at hl0
  replace hl0 : w2.calls = w.calls ++ l0 := hl0
  obtain ⟨l, hl, hc⟩ := hf a w2 b w1 h2
  exact ⟨l0 ++ l, by rw [hl, hl0, List.append_assoc], List.mem_append_right _ hc⟩

theorem logs_call_bind {β : Type} (c : NativeCall) (f : Unit → Lua β)
    (hf : ∀ a, Frame (Adds (fun _ => True)) (f a)) : Logs c (Lua.bind (call c) f) := by
  intro w b w1 h
  obtain ⟨a, w2, h1, h2⟩ := bind_ok_inv _ _ _ _ _ h
  cases h1
  obtain ⟨l, hl, -⟩ := hf () (w.withCalls fun cs => cs ++ [c])
  rw [h2] at hl
  replace hl : w1.calls = (w.calls ++ [c]) ++ l := hl
  exact ⟨[c] ++ l, by rw [hl, List.append_assoc], by simp⟩

theorem frame_of_ok {R : World → World → Prop} {α : Type} (m : Lua α) (w : World) (a : α)
    (w1 : World) (h : m w = .ok a w1) (hm : Frame R m) : R w w1 := by
  have h1 := hm w
  rw [h] at h1
  exact h1

theorem decimal_facts (ty : Nat) (h : is_decimal ty = true) :
    ty ≠ SQLT_INT ∧ ty ≠ SQLT_UIN ∧ ty ≠ SQLT_FLT ∧ is_character ty = false := by
  simp only [is_decimal, Bool.or_eq_true, decide_eq_true_eq] at h
  rcases h with h | h <;> subst h <;> decide

theorem character_facts (ty : Nat) (h : is_character ty = true) :
    ty ≠ SQLT_INT ∧ ty ≠ SQLT_UIN ∧ ty ≠ SQLT_FLT ∧ is_decimal ty = false := by
  simp only [is_character, Bool.or_eq_true, decide_eq_true_eq] at h
  rcases h with (((h | h) | h) | h) | h <;> subst h <;> decide

theorem alloc_column_buffer_defines (k i : Nat) (n : ColumnNative) (w w1 : World)
    (cur : cur_data) (b : Buffer) (dty : Nat) (hk : w.curs[k]? = some cur)
    (h : alloc_column_buffer k i n w = .ok () w1)
    (hb : (is_character n.type = true ∧ b = .block (n.calloc % 2 ^ 64) ∧ dty = SQLT_STR) ∨
      (n.type = SQLT_FLT ∧ b = .member .dbl ∧ dty = SQLT_FLT) ∨
      (n.type = SQLT_INT ∧ b = .member .i64 ∧ dty = SQLT_INT) ∨
      (n.type = SQLT_UIN ∧ b = .member .u64 ∧ dty = SQLT_UIN) ∨
      (is_decimal n.type = true ∧ b = .member .ociNumber ∧ dty = SQLT_VNU) ∨
      (is_datetime n.type = true ∧ b = .member .date ∧ dty = SQLT_TIMESTAMP) ∨
      (n.type = SQLT_CLOB ∧ b = .member .text ∧ dty = SQLT_CLOB)) :
    Bound cur.stmthp i b dty w w1 := by
  have hbound : ∀ c : NativeCall, (∃ l, w1.calls = w.calls ++ l ∧ c ∈ l) →
      Adds (fun x => x.defines cur.stmthp i b dty = true) w w1 →
      ∃ l, w1.calls = w.calls ++ l ∧ c ∈ l ∧ ∀ x ∈ l, x.defines cur.stmthp i b dty = true := by
    rintro c ⟨l, hl, hc⟩ ⟨l1, hl1, hp⟩
    have e : l = l1 := List.append_cancel_left (hl.symm.trans hl1)
    subst e
    exact ⟨l, hl, hc, hp⟩
  unfold alloc_column_buffer copy_column_name at h
  rw [bind_eq, theCursor_bind w k cur hk] at h
  rcases hb with ⟨ht, rfl, rfl⟩ | ⟨ht, rfl, rfl⟩ | ⟨ht, rfl, rfl⟩ | ⟨ht, rfl, rfl⟩ |
    ⟨ht, rfl, rfl⟩ | ⟨ht, rfl, rfl⟩ | ⟨ht, rfl, rfl⟩
  · simp only [bind_eq, pure_eq, ht, if_true, if_false, Bool.false_eq_true, ne_eq,
      not_true_eq_false, not_false_eq_true] at h
    refine hbound _ ((?_ : Logs _ _) w () w1 h) (frame_of_ok _ w () w1 h ?_)
    · repeat' first
        | with_reducible refine logs_call_bind _ _ (fun _ => ?_)
        | with_reducible refine logs_bind_right _ _ _ ?_ (fun _ => ?_)
        | with_reducible exact adds_assert_oci _ _ _ trivial
        | with_reducible exact adds_assert_ptr _ _
        | with_reducible exact adds_modifyCol _ _ _ _
        | with_reducible exact adds_call _ _ trivial
        | with_reducible refine frame_bind (adds_trans _) ?_ (fun _ => ?_)
    · repeat' first
        | (with_reducible refine adds_assert_oci _ _ _ ?_
           exact rfl)
        | with_reducible exact adds_assert_ptr _ _
        | with_reducible exact adds_modifyCol _ _ _ _
        | (with_reducible refine adds_call _ _ ?_
           first | exact rfl | simp [NativeCall.defines])
        | with_reducible refine frame_bind (adds_trans _) ?_ (fun _ => ?_)
  · have c1 : is_character SQLT_FLT = false := by decide
    simp only [bind_eq, pure_eq, ht, c1, if_true, if_false, Bool.false_eq_true, ne_eq,
      not_true_eq_false, not_false_eq_true] at h
    refine hbound _ ((?_ : Logs _ _) w () w1 h) (frame_of_ok _ w () w1 h ?_)
    · repeat' first
        | with_reducible refine logs_call_bind _ _ (fun _ => ?_)
        | with_reducible refine logs_bind_right _ _ _ ?_ (fun _ => ?_)
        | with_reducible exact adds_assert_oci _ _ _ trivial
        | with_reducible exact adds_assert_ptr _ _
        | with_reducible exact adds_modifyCol _ _ _ _
        | with_reducible exact adds_call _ _ trivial
        | with_reducible refine frame_bind (adds_trans _) ?_ (fun _ => ?_)
    · repeat' first
        | (with_reducible refine adds_assert_oci _ _ _ ?_
           exact rfl)
        | with_reducible exact adds_assert_ptr _ _
        | with_reducible exact adds_modifyCol _ _ _ _
        | (with_reducible refine adds_call _ _ ?_
           first | exact rfl | simp [NativeCall.defines])
        | with_reducible refine frame_bind (adds_trans _) ?_ (fun _ => ?_)
  · have c1 : is_character SQLT_INT = false := by decide
    have c2 : SQLT_INT ≠ SQLT_FLT := by decide
    simp only [bind_eq, pure_eq, ht, c1, c2, if_true, if_false, Bool.false_eq_true, ne_eq,
      not_true_eq_false, not_false_eq_true] at h
    refine hbound _ ((?_ : Logs _ _) w () w1 h) (frame_of_ok _ w () w1 h ?_)
    · repeat' first
        | with_reducible refine logs_call_bind _ _ (fun _ => ?_)
        | with_reducible refine logs_bind_right _ _ _ ?_ (fun _ => ?_)
        | with_reducible exact adds_assert_oci _ _ _ trivial
        | with_reducible exact adds_assert_ptr _ _
        | with_reducible exact adds_modifyCol _ _ _ _
        | with_reducible exact adds_call _ _ trivial
        | with_reducible refine frame_bind (adds_trans _) ?_ (fun _ => ?_)
    · repeat' first
        | (with_reducible refine adds_assert_oci _ _ _ ?_
           exact rfl)
        | with_reducible exact adds_assert_ptr _ _
        | with_reducible exact adds_modifyCol _ _ _ _
        | (with_reducible refine adds_call _ _ ?_
           first | exact rfl | simp [NativeCall.defines])
        | with_reducible refine frame_bind (adds_trans _) ?_ (fun _ => ?_)
  · have c1 : is_character SQLT_UIN = false := by decide
    have c2 : SQLT_UIN ≠ SQLT_FLT := by decide
    have c3 : SQLT_UIN ≠ SQLT_INT := by decide
    simp only [bind_eq, pure_eq, ht, c1, c2, c3, if_true, if_false, Bool.false_eq_true, ne_eq,
      not_true_eq_false, not_false_eq_true] at h
    refine hbound _ ((?_ : Logs _ _) w () w1 h) (frame_of_ok _ w () w1 h ?_)
    · repeat' first
        | with_reducible refine logs_call_bind _ _ (fun _ => ?_)
        | with_reducible refine logs_bind_right _ _ _ ?_ (fun _ => ?_)
        | with_reducible exact adds_assert_oci _ _ _ trivial
        | with_reducible exact adds_assert_ptr _ _
        | with_reducible exact adds_modifyCol _ _ _ _
        | with_reducible exact adds_call _ _ trivial
        | with_reducible refine frame_bind (adds_trans _) ?_ (fun _ => ?_)
    · repeat' first
        | (with_reducible refine adds_assert_oci _ _ _ ?_
           exact rfl)
        | with_reducible exact adds_assert_ptr _ _
        | with_reducible exact adds_modifyCol _ _ _ _
        | (with_reducible refine adds_call _ _ ?_
           first | exact rfl | simp [NativeCall.defines])
        | with_reducible refine frame_bind (adds_trans _) ?_ (fun _ => ?_)
  · obtain ⟨d1, d2, d3, d4⟩ := decimal_facts _ ht
    simp only [bind_eq, pure_eq, ht, d1, d2, d3, d4, if_true, if_false, Bool.false_eq_true, ne_eq,
      not_true_eq_false, not_false_eq_true] at h
    refine hbound _ ((?_ : Logs _ _) w () w1 h) (frame_of_ok _ w () w1 h ?_)
    · repeat' first
        | with_reducible refine logs_call_bind _ _ (fun _ => ?_)
        | with_reducible refine logs_bind_right _ _ _ ?_ (fun _ => ?_)
        | with_reducible exact adds_assert_oci _ _ _ trivial
        | with_reducible exact adds_assert_ptr _ _
        | with_reducible exact adds_modifyCol _ _ _ _
        | with_reducible exact adds_call _ _ trivial
        | with_reducible refine frame_bind (adds_trans _) ?_ (fun _ => ?_)
    · repeat' first
        | (with_reducible refine adds_assert_oci _ _ _ ?_
           exact rfl)
        | with_reducible exact adds_assert_ptr _ _
        | with_reducible exact adds_modifyCol _ _ _ _
        | (with_reducible refine adds_call _ _ ?_
           first | exact rfl | simp [NativeCall.defines])
        | with_reducible refine frame_bind (adds_trans _) ?_ (fun _ => ?_)
  · obtain ⟨t1, t2, t3, t4, t5⟩ := datetime_facts _ ht
    simp only [bind_eq, pure_eq, ht, t1, t2, t3, t4, t5, if_true, if_false, Bool.false_eq_true, ne_eq,
      not_true_eq_false, not_false_eq_true] at h
    refine hbound _ ((?_ : Logs _ _) w () w1 h) (frame_of_ok _ w () w1 h ?_)
    · repeat' first
        | with_reducible refine logs_call_bind _ _ (fun _ => ?_)
        | with_reducible refine logs_bind_right _ _ _ ?_ (fun _ => ?_)
        | with_reducible exact adds_assert_oci _ _ _ trivial
        | with_reducible exact adds_assert_ptr _ _
        | with_reducible exact adds_modifyCol _ _ _ _
        | with_reducible exact adds_call _ _ trivial
        | with_reducible refine frame_bind (adds_trans _) ?_ (fun _ => ?_)
    · repeat' first
        | (with_reducible refine adds_assert_oci _ _ _ ?_
           exact rfl)
        | with_reducible exact adds_assert_ptr _ _
        | with_reducible exact adds_modifyCol _ _ _ _
        | (with_reducible refine adds_call _ _ ?_
           first | exact rfl | simp [NativeCall.defines])
        | with_reducible refine frame_bind (adds_trans _) ?_ (fun _ => ?_)
  · have c1 : is_character SQLT_CLOB = false := by decide
    have c2 : SQLT_CLOB ≠ SQLT_FLT := by decide
    have c3 : SQLT_CLOB ≠ SQLT_INT := by decide
    have c4 : SQLT_CLOB ≠ SQLT_UIN := by decide
    have c5 : is_decimal SQLT_CLOB = false := by decide
    have c6 : is_datetime SQLT_CLOB = false := by decide
    simp only [bind_eq, pure_eq, ht, c1, c2, c3, c4, c5, c6, if_true, if_false, Bool.false_eq_true, ne_eq,
      not_true_eq_false, not_false_eq_true] at h
    refine hbound _ ((?_ : Logs _ _) w () w1 h) (frame_of_ok _ w () w1 h ?_)
    · repeat' first
        | with_reducible refine logs_call_bind _ _ (fun _ => ?_)
        | with_reducible refine logs_bind_right _ _ _ ?_ (fun _ => ?_)
        | with_reducible exact adds_assert_oci _ _ _ trivial
        | with_reducible exact adds_assert_ptr _ _
        | with_reducible exact adds_modifyCol _ _ _ _
        | with_reducible exact adds_call _ _ trivial
        | with_reducible refine frame_bind (adds_trans _) ?_ (fun _ => ?_)
    · repeat' first
        | (with_reducible refine adds_assert_oci _ _ _ ?_
           exact rfl)
        | with_reducible exact adds_assert_ptr _ _
        | with_reducible exact adds_modifyCol _ _ _ _
        | (with_reducible refine adds_call _ _ ?_
           first | exact rfl | simp [NativeCall.defines])
        | with_reducible refine frame_bind (adds_trans _) ?_ (fun _ => ?_)

theorem pushvalue_reads (b : Bool) (k i : Nat) (n : DecodeNative) (w : World) (cur : cur_data)
    (hk : w.curs[k]? = some cur) (hnull : (cur.col i).null = 0) :
    ((cur.col i).type = SQLT_INT →
      pushvalue b k i n w =
        .ok (if b = true then .integer64 (cur.col i).val.i64
          else .number (.ofInt (cur.col i).val.i64)) w) ∧
    ((cur.col i).type = SQLT_UIN →
      pushvalue b k i n w =
        .ok (if b = true then .unsigned64 (cur.col i).val.u64
          else .number (.ofInt (cur.col i).val.u64)) w) ∧
    ((cur.col i).type = SQLT_FLT →
      pushvalue b k i n w = .ok (.number (.ofBits (cur.col i).val.dbl)) w) ∧
    (is_character (cur.col i).type = true →
      pushvalue b k i n w =
        .ok (lua_pushstring (cur.col i).val.text (n.cstring (cur.col i).val.text)) w) ∧
    (is_datetime (cur.col i).type = true → ∀ v w1, pushvalue b k i n w = .ok v w1 →
      v = .table w.tables.length ∧
        DateFields n (cur.col i).val.date (w1.tables.getD w.tables.length [])) ∧
    ((cur.col i).type = SQLT_CLOB → ∀ v w1, pushvalue b k i n w = .ok v w1 →
      v = if 0 < (n.lobGetLength (cur.col i).val.text).2 then
          .string (strncpy
            (n.lobRead (cur.col i).val.text (n.lobGetLength (cur.col i).val.text).2).2.1
            (n.lobRead (cur.col i).val.text (n.lobGetLength (cur.col i).val.text).2).2.2)
        else .string "") ∧
    (is_decimal (cur.col i).type = true → ∀ v w1, pushvalue b k i n w = .ok v w1 →
      v = if b = true ∧ (n.isInt (cur.col i).val.ociNumber).2 = true then
          (if 0 ≤ (n.cmp (cur.col i).val.ociNumber (n.fromInt 0).2).2 then
            .unsigned64 ((cur.col i).val.set8 (n.toInt (cur.col i).val.ociNumber false).2).u64
          else
            .integer64 ((cur.col i).val.set8 (n.toInt (cur.col i).val.ociNumber true).2).i64)
        else
          .number (.ofBits ((cur.col i).val.set8 (n.toReal (cur.col i).val.ociNumber).2).dbl)) := by
  refine ⟨?_, ?_, ?_, ?_, ?_, ?_, ?_⟩
  · intro ht
    unfold pushvalue
    rw [bind_eq, theCursor_bind w k cur hk]
    simp only [hnull, ne_eq, not_true_eq_false, if_false, ht, if_true, pure_eq]
    cases b <;> rfl
  · intro ht
    have c1 : SQLT_UIN ≠ SQLT_INT := by decide
    unfold pushvalue
    rw [bind_eq, theCursor_bind w k cur hk]
    simp only [hnull, ne_eq, not_true_eq_false, if_false, ht, c1, if_true, pure_eq,
      not_false_eq_true]
    cases b <;> rfl
  · intro ht
    have c1 : SQLT_FLT ≠ SQLT_INT := by decide
    have c2 : SQLT_FLT ≠ SQLT_UIN := by decide
    have c3 : is_decimal SQLT_FLT = false := by decide
    unfold pushvalue
    rw [bind_eq, theCursor_bind w k cur hk]
    simp only [hnull, ne_eq, not_true_eq_false, if_false, ht, c1, c2, c3, if_true, pure_eq,
      not_false_eq_true, Bool.false_eq_true]
    rfl
  · intro ht
    obtain ⟨c1, c2, c3, c4⟩ := character_facts _ ht
    unfold pushvalue
    rw [bind_eq, theCursor_bind w k cur hk]
    simp only [hnull, ne_eq, not_true_eq_false, if_false, ht, c1, c2, c3, c4, if_true, pure_eq,
      not_false_eq_true, Bool.false_eq_true]
    rfl
  · intro ht v w1 h
    obtain ⟨g1, -, g3⟩ := pushvalue_datetime b w w1 k i cur n v hk hnull ht h
    exact ⟨g1, g3⟩
  · intro ht v w1 h
    have c1 : SQLT_CLOB ≠ SQLT_INT := by decide
    have c2 : SQLT_CLOB ≠ SQLT_UIN := by decide
    have c3 : is_decimal SQLT_CLOB = false := by decide
    have c4 : SQLT_CLOB ≠ SQLT_FLT := by decide
    have c5 : is_character SQLT_CLOB = false := by decide
    have c6 : is_datetime SQLT_CLOB = false := by decide
    unfold pushvalue at h
    rw [bind_eq, theCursor_bind w k cur hk] at h
    simp only [hnull, ne_eq, not_true_eq_false, if_false, ht, c1, c2, c3, c4, c5, c6, if_true,
      pure_eq, bind_eq, not_false_eq_true, Bool.false_eq_true] at h
    split_ifs at h ⊢
    all_goals
      refine (?_ : Returns _ _) w v w1 h
      repeat' first
        | with_reducible exact returns_pure _
        | with_reducible refine returns_bind _ _ _ (fun _ => ?_)
  · intro ht v w1 h
    obtain ⟨d1, d2, d3, d4⟩ := decimal_facts _ ht
    unfold pushvalue at h
    rw [bind_eq, theCursor_bind w k cur hk] at h
    simp only [hnull, ne_eq, not_true_eq_false, if_false, ht, d1, d2, if_true, pure_eq, bind_eq,
      not_false_eq_true] at h
    cases b
    · simp only [Bool.false_eq_true, if_false, false_and] at h ⊢
      refine (?_ : Returns _ _) w v w1 h
      repeat' first
        | with_reducible exact returns_pure _
        | with_reducible refine returns_bind _ _ _ (fun _ => ?_)
    · simp only [if_true, true_and] at h ⊢
      split_ifs at h ⊢
      all_goals
        refine (?_ : Returns _ _) w v w1 h
        repeat' first
          | with_reducible exact returns_pure _
          | with_reducible refine returns_bind _ _ _ (fun _ => ?_)

theorem free_column_buffers_releases (k i : Nat) (w : World) (cur : cur_data)
    (hk : w.curs[k]? = some cur) :
    ((cur.col i).type = SQLT_FLT ∨ (cur.col i).type = SQLT_INT ∨ (cur.col i).type = SQLT_UIN ∨
        is_decimal (cur.col i).type = true →
      free_column_buffers k i w = .ok ()
        { w with calls := w.calls ++
            (if (cur.col i).name.isSome = true then [.free (.colname i)] else []) }) ∧
    (is_character (cur.col i).type = true →
      free_column_buffers k i w = .ok ()
        { w with calls := w.calls ++
            (if (cur.col i).name.isSome = true then [.free (.colname i)] else []) ++
            (if (cur.col i).val.text ≠ NULL then [.free (.coltext (cur.col i).val.text)]
              else []) }) ∧
    (is_datetime (cur.col i).type = true →
      free_column_buffers k i w = .ok ()
        { w with calls := w.calls ++
            (if (cur.col i).name.isSome = true then [.free (.colname i)] else []) ++
            (if (cur.col i).val.date ≠ NULL then
              [.OCIDescriptorFree (cur.col i).val.date .TIMESTAMP] else []) }) ∧
    ((cur.col i).type = SQLT_CLOB →
      free_column_buffers k i w = .ok ()
        { w with calls := w.calls ++
            (if (cur.col i).name.isSome = true then [.free (.colname i)] else []) ++
            (if (cur.col i).val.text ≠ NULL then
              [.OCIDescriptorFree (cur.col i).val.text .LOB] else []) }) := by
  refine ⟨?_, ?_, ?_, ?_⟩
  · intro ht
    have hc : ((cur.col i).type = SQLT_FLT || is_decimal (cur.col i).type ||
        (cur.col i).type = SQLT_UIN || (cur.col i).type = SQLT_INT) = true := by
      simp only [Bool.or_eq_true, decide_eq_true_eq]
      tauto
    unfold free_column_buffers
    rw [bind_eq, theCursor_bind w k cur hk]
    simp only [hc, if_true, bind_eq, pure_eq]
    split_ifs <;> simp [Lua.bind, call_eq, Lua.pure, World.withCalls]
  · intro ht
    obtain ⟨c1, c2, c3, c4⟩ := character_facts _ ht
    unfold free_column_buffers
    rw [bind_eq, theCursor_bind w k cur hk]
    simp only [c1, c2, c3, c4, ht, decide_False, Bool.or_self, Bool.false_eq_true, if_false,
      if_true, bind_eq, pure_eq]
    split_ifs <;> simp [Lua.bind, call_eq, Lua.pure, World.withCalls]
  · intro ht
    obtain ⟨t1, t2, t3, t4, t5⟩ := datetime_facts _ ht
    unfold free_column_buffers
    rw [bind_eq, theCursor_bind w k cur hk]
    simp only [t1, t2, t3, t4, t5, ht, decide_False, Bool.or_self, Bool.false_eq_true, if_false,
      if_true, bind_eq, pure_eq]
    split_ifs <;> simp [Lua.bind, call_eq, Lua.pure, World.withCalls]
  · intro ht
    have c1 : SQLT_CLOB ≠ SQLT_INT := by decide
    have c2 : SQLT_CLOB ≠ SQLT_UIN := by decide
    have c3 : is_decimal SQLT_CLOB = false := by decide
    have c4 : SQLT_CLOB ≠ SQLT_FLT := by decide
    have c5 : is_character SQLT_CLOB = false := by decide
    have c6 : is_datetime SQLT_CLOB = false := by decide
    unfold free_column_buffers
    rw [bind_eq, theCursor_bind w k cur hk]
    simp only [c1, c2, c3, c4, c5, c6, ht, decide_False, Bool.or_self, Bool.false_eq_true,
      if_false, if_true, bind_eq, pure_eq]
    split_ifs <;> simp [Lua.bind, call_eq, Lua.pure, World.withCalls]

/-- C20 fails for the decimal tags.  What holds, for every tag that
`alloc_column_buffer` accepts:

* `alloc_column_buffer`, when it returns, has made exactly one kind of define
  call for the column: on the text block for a character tag, on the member
  `dbl` for FLT, `i64` for INT, `u64` for UIN, `ociNumber` for NUM and VNU,
  `date` for DAT and TIMESTAMP*, and on the member `text` for CLOB;
* `pushvalue` on a non-null column pushes the member `i64` for INT, `u64` for
  UIN, `dbl` for FLT, the string at `text` for a character tag, the fields read
  from the descriptor `date` for a date tag and the bytes read from the locator
  `text` for CLOB;
* `free_column_buffers` releases the block at `text` for a character tag, the
  descriptor `date` for a date tag, the locator `text` for CLOB, and nothing
  but the name for a tag bound by value;
* `pushvalue` never raises `unexpected error` for an accepted tag, every column
  of a Cursor that `create_cursor` returned has an accepted tag, a fetch keeps
  the tag, and a tag that is not accepted does raise that error.

For NUM and VNU `pushvalue` gives the bound member `ociNumber` to the native
routines, but the value it pushes is read from the member `u64`, `i64` or `dbl`
after the conversion has been written there, over the first eight bytes of
`ociNumber`.  In the example the cursor of `world_cursor` has one NUM column,
bound by a define call on `ociNumber`, and the row holds the decimal 1: the
decode pushes the unsigned integer 1 read from `u64` and leaves the member
`ociNumber` with another content than the one fetched, so that a second decode
of the same row fails. -/
theorem column_member_dispatch :
    (∀ k i n w w1 cur, w.curs[k]? = some cur → alloc_column_buffer k i n w = .ok () w1 →
      (is_character n.type = true →
        Bound cur.stmthp i (.block (n.calloc % 2 ^ 64)) SQLT_STR w w1) ∧
      (n.type = SQLT_FLT → Bound cur.stmthp i (.member .dbl) SQLT_FLT w w1) ∧
      (n.type = SQLT_INT → Bound cur.stmthp i (.member .i64) SQLT_INT w w1) ∧
      (n.type = SQLT_UIN → Bound cur.stmthp i (.member .u64) SQLT_UIN w w1) ∧
      (is_decimal n.type = true → Bound cur.stmthp i (.member .ociNumber) SQLT_VNU w w1) ∧
      (is_datetime n.type = true → Bound cur.stmthp i (.member .date) SQLT_TIMESTAMP w w1) ∧
      (n.type = SQLT_CLOB → Bound cur.stmthp i (.member .text) SQLT_CLOB w w1)) ∧
    (∀ b k i n w cur, w.curs[k]? = some cur → (cur.col i).null = 0 →
      ((cur.col i).type = SQLT_INT →
        pushvalue b k i n w =
          .ok (if b = true then .integer64 (cur.col i).val.i64
            else .number (.ofInt (cur.col i).val.i64)) w) ∧
      ((cur.col i).type = SQLT_UIN →
        pushvalue b k i n w =
          .ok (if b = true then .unsigned64 (cur.col i).val.u64
            else .number (.ofInt (cur.col i).val.u64)) w) ∧
      ((cur.col i).type = SQLT_FLT →
        pushvalue b k i n w = .ok (.number (.ofBits (cur.col i).val.dbl)) w) ∧
      (is_character (cur.col i).type = true →
        pushvalue b k i n w =
          .ok (lua_pushstring (cur.col i).val.text (n.cstring (cur.col i).val.text)) w) ∧
      (is_datetime (cur.col i).type = true → ∀ v w1, pushvalue b k i n w = .ok v w1 →
        v = .table w.tables.length ∧
          DateFields n (cur.col i).val.date (w1.tables.getD w.tables.length [])) ∧
      ((cur.col i).type = SQLT_CLOB → ∀ v w1, pushvalue b k i n w = .ok v w1 →
        v = if 0 < (n.lobGetLength (cur.col i).val.text).2 then
            .string (strncpy
              (n.lobRead (cur.col i).val.text (n.lobGetLength (cur.col i).val.text).2).2.1
              (n.lobRead (cur.col i).val.text (n.lobGetLength (cur.col i).val.text).2).2.2)
          else .string "") ∧
      (is_decimal (cur.col i).type = true → ∀ v w1, pushvalue b k i n w = .ok v w1 →
        v = if b = true ∧ (n.isInt (cur.col i).val.ociNumber).2 = true then
            (if 0 ≤ (n.cmp (cur.col i).val.ociNumber (n.fromInt 0).2).2 then
              .unsigned64 ((cur.col i).val.set8 (n.toInt (cur.col i).val.ociNumber false).2).u64
            else
              .integer64 ((cur.col i).val.set8 (n.toInt (cur.col i).val.ociNumber true).2).i64)
          else
            .number
              (.ofBits ((cur.col i).val.set8 (n.toReal (cur.col i).val.ociNumber).2).dbl))) ∧
    (∀ k i w cur, w.curs[k]? = some cur →
      ((cur.col i).type = SQLT_FLT ∨ (cur.col i).type = SQLT_INT ∨
          (cur.col i).type = SQLT_UIN ∨ is_decimal (cur.col i).type = true →
        free_column_buffers k i w = .ok ()
          { w with calls := w.calls ++
              (if (cur.col i).name.isSome = true then [.free (.colname i)] else []) }) ∧
      (is_character (cur.col i).type = true →
        free_column_buffers k i w = .ok ()
          { w with calls := w.calls ++
              (if (cur.col i).name.isSome = true then [.free (.colname i)] else []) ++
              (if (cur.col i).val.text ≠ NULL then [.free (.coltext (cur.col i).val.text)]
                else []) }) ∧
      (is_datetime (cur.col i).type = true →
        free_column_buffers k i w = .ok ()
          { w with calls := w.calls ++
              (if (cur.col i).name.isSome = true then [.free (.colname i)] else []) ++
              (if (cur.col i).val.date ≠ NULL then
                [.OCIDescriptorFree (cur.col i).val.date .TIMESTAMP] else []) }) ∧
      ((cur.col i).type = SQLT_CLOB →
        free_column_buffers k i w = .ok ()
          { w with calls := w.calls ++
              (if (cur.col i).name.isSome = true then [.free (.colname i)] else []) ++
              (if (cur.col i).val.text ≠ NULL then
                [.OCIDescriptorFree (cur.col i).val.text .LOB] else []) })) ∧
    (∀ b k i n w cur, w.curs[k]? = some cur →
      (supported (cur.col i).type = true →
        ∀ w1, pushvalue b k i n w ≠ .raise (.error "LuaSQL: unexpected error") w1) ∧
      ((cur.col i).null = 0 → supported (cur.col i).type = false →
        pushvalue b k i n w = .raise (.error "LuaSQL: unexpected error") w) ∧
      (∀ row,
        (({ cur with cols := cur.cols.map (write_row row) } : cur_data).col i).type =
          (cur.col i).type)) ∧
    (∀ c stmt text cn w0 vs w1, create_cursor c stmt text cn w0 = .ok vs w1 →
      ∃ cu, w1.curs[w0.curs.length]? = some cu ∧ cu.closed = 0 ∧
        ∀ j, 1 ≤ j → j ≤ cu.numcols → supported (cu.col j).type = true) ∧
    (NativeCall.OCIDefineByPos 3000 1 (.member .ociNumber) SQLT_VNU ∈ world_cursor.calls ∧
      (world_row ociNumber_one).calls = world_cursor.calls ∧
      (world_row ociNumber_one).curs[0]? = some (cur_row ociNumber_one) ∧
      ((cur_row ociNumber_one).col 1).type = SQLT_NUM ∧
      ((cur_row ociNumber_one).col 1).val.ociNumber = ociNumber_one ∧
      (∃ w1 w2, pushvalue true 0 1 decodeNative_small (world_row ociNumber_one) =
          .ok (.unsigned64 1) w1 ∧
        w1.curs[0]? = some (cur_row 1) ∧
        ((cur_row 1).col 1).val.u64 = 1 ∧
        ((cur_row 1).col 1).val.ociNumber ≠ ociNumber_one ∧
        pushvalue true 0 1 decodeNative_small w1 = .raise (.database 3001) w2) ∧
      (∃ w1, pushvalue false 0 1 decodeNative_small (world_row ociNumber_one) =
          .ok (.number (.ofBits 0x3FF0000000000000)) w1 ∧
        w1.curs[0]? = some (cur_row 0x3FF0000000000000) ∧
        ((cur_row 0x3FF0000000000000).col 1).val.ociNumber ≠ ociNumber_one)) := by
  refine ⟨fun k i n w w1 cur hk h => ⟨?_, ?_, ?_, ?_, ?_, ?_, ?_⟩,
    fun b k i n w cur hk hnull => pushvalue_reads b k i n w cur hk hnull,
    fun k i w cur hk => free_column_buffers_releases k i w cur hk,
    fun b k i n w cur hk => ⟨fun hty w1 => avoids_pushvalue b w k i cur n hk hty w1,
      fun hn hs => pushvalue_unsupported b w k i cur n hk hn hs,
      fun row => col_write_row_type cur row i⟩,
    fun c stmt text cn w0 vs w1 h => create_cursor_supported c stmt text cn w0 w1 vs h,
    ⟨by decide, rfl, rfl, rfl, rfl, ⟨_, _, rfl, rfl, rfl, by decide, rfl⟩,
      ⟨_, rfl, rfl, by decide⟩⟩⟩
  · exact fun ht => alloc_column_buffer_defines k i n w w1 cur _ _ hk h (Or.inl ⟨ht, rfl, rfl⟩)
  · exact fun ht => alloc_column_buffer_defines k i n w w1 cur _ _ hk h
      (Or.inr (Or.inl ⟨ht, rfl, rfl⟩))
  · exact fun ht => alloc_column_buffer_defines k i n w w1 cur _ _ hk h
      (Or.inr (Or.inr (Or.inl ⟨ht, rfl, rfl⟩)))
  · exact fun ht => alloc_column_buffer_defines k i n w w1 cur _ _ hk h
      (Or.inr (Or.inr (Or.inr (Or.inl ⟨ht, rfl, rfl⟩))))
  · exact fun ht => alloc_column_buffer_defines k i n w w1 cur _ _ hk h
      (Or.inr (Or.inr (Or.inr (Or.inr (Or.inl ⟨ht, rfl, rfl⟩)))))
  · exact fun ht => alloc_column_buffer_defines k i n w w1 cur _ _ hk h
      (Or.inr (Or.inr (Or.inr (Or.inr (Or.inr (Or.inl ⟨ht, rfl, rfl⟩))))))
  · exact fun ht => alloc_column_buffer_defines k i n w w1 cur _ _ hk h
      (Or.inr (Or.inr (Or.inr (Or.inr (Or.inr (Or.inr ⟨ht, rfl, rfl⟩))))))

end LuaOCI
